import Mathlib

/-!
# embeddedsw: partition loader, clock wizard and frame buffer read drivers

A shallow embedding of the C functions of

* `lib/sw_services/xilloader/src/xloader_prtn_load.c`
* `XilinxProcessorIPLib/drivers/clk_wiz/src/xclk_wiz.c`
* `XilinxProcessorIPLib/drivers/v_frmbuf_rd/src/xv_frmbufrd_l2.c`

Machine integers are natural numbers reduced modulo `2^32` or `2^64` where the
C arithmetic can wrap.  Status codes are integers (`int` in C).  Functions and
constants that the C files use but that live in headers or libraries outside
the sources are parameters of the embedding.
-/

/-! ## Common definitions -/

/-- Status code of success (`#define XST_SUCCESS 0`, xv_frmbufwr.h line 123). -/
def XST_SUCCESS : Int := 0

/-- Modelled from the spec: xstatus.h is missing from the sources.  The spec says
that functions return a fixed success/failure code; the failure code is taken to
be 1, a fixed value different from the success code 0. -/
def XST_FAILURE : Int := 1

/-- Reduction of a natural number to an unsigned 32-bit value. -/
def u32 (n : Nat) : Nat := n % 2 ^ 32

/-- Reduction of a natural number to an unsigned 64-bit value. -/
def u64 (n : Nat) : Nat := n % 2 ^ 64

/-- Unsigned 32-bit subtraction with wrap-around. -/
def u32sub (a b : Nat) : Nat := (a % 2 ^ 32 + 2 ^ 32 - b % 2 ^ 32) % 2 ^ 32

/-- Unsigned 64-bit subtraction with wrap-around. -/
def u64sub (a b : Nat) : Nat := (a % 2 ^ 64 + 2 ^ 64 - b % 2 ^ 64) % 2 ^ 64

/-! ## xloader_prtn_load.c : data model -/

/-- Private marker of xloader_prtn_load.c, line 64. -/
def XLOADER_SUCCESS_NOT_PRTN_OWNER : Int := 0x100

/-- Boot sources named in xloader_prtn_load.c (type `PdiSrc_t`); `other` stands
for every source the file does not name. -/
inductive PdiSrc_t where
  | XLOADER_PDI_SRC_JTAG
  | XLOADER_PDI_SRC_QSPI24
  | XLOADER_PDI_SRC_QSPI32
  | XLOADER_PDI_SRC_OSPI
  | XLOADER_PDI_SRC_SMAP
  | XLOADER_PDI_SRC_SBI
  | XLOADER_PDI_SRC_PCIE
  | XLOADER_PDI_SRC_DDR
  | other (n : Nat)
  deriving DecidableEq, Repr

/-- Values of the device copy function pointers `PdiPtr->DeviceCopy` and
`PdiPtr->MetaHdr.DeviceCopy`: the copy routine of a boot device, the DDR copy
routine `XLoader_DdrCopy`, or `NULL`. -/
inductive XLoader_CopyFn where
  | NULL
  | bootDevice (id : Nat)
  | XLoader_DdrCopy
  deriving DecidableEq, Repr

/-- Partition header fields read by xloader_prtn_load.c. -/
structure XilPdi_PrtnHdr where
  PrtnId : Nat
  PrtnAttrb : Nat
  DstnLoadAddr : Nat
  DstnExecutionAddr : Nat
  TotalDataWordLen : Nat
  DataWordOfst : Nat
  deriving DecidableEq, Repr

/-- Handoff entry of `PdiPtr->HandoffParam[]`. -/
structure XLoader_HandoffParam where
  CpuSettings : Nat
  HandoffAddr : Nat
  deriving DecidableEq, Repr

/-- Copy parameters (`XLoader_DeviceCopy`). -/
structure XLoader_DeviceCopy where
  SrcAddr : Nat
  DestAddr : Nat
  Len : Nat
  Flags : Nat
  IsDoubleBuffering : Bool
  deriving DecidableEq, Repr

/-- Security parameters (`XLoader_SecureParams`), the fields read in this file. -/
structure XLoader_SecureParams where
  SecureEn : Bool
  IsDoubleBuffering : Bool
  IsCdo : Bool
  deriving DecidableEq, Repr

/-- Partition parameters (`XLoader_PrtnParams`). -/
structure XLoader_PrtnParams where
  DeviceCopy : XLoader_DeviceCopy
  DstnCpu : Nat
  deriving DecidableEq, Repr

/-- Meta header of the PDI: image headers (number of partitions per image),
partition headers, flash offset and the copy routine of the meta header. -/
structure XilPdi_MetaHdr where
  NoOfPrtns : Nat → Nat
  PrtnHdr : Nat → XilPdi_PrtnHdr
  ImgHdrTblVersion : Nat
  FlashOfstAddr : Nat
  DeviceCopy : XLoader_CopyFn

/-- PDI instance (`XilPdi`), the fields used by xloader_prtn_load.c. -/
structure XilPdi where
  PdiSrc : PdiSrc_t
  PdiType : Nat
  CopyToMem : Bool
  DelayLoad : Bool
  DelayHandoff : Bool
  CopyToMemAddr : Nat
  CurPrtnId : Nat
  DeviceCopy : XLoader_CopyFn
  MetaHdr : XilPdi_MetaHdr
  NoOfHandoffCpus : Nat
  HandoffParam : Nat → XLoader_HandoffParam

/-- Power-management nodes named in `XLoader_ProcessElf`. -/
inductive XPm_Node where
  | PM_DEV_PSM_PROC
  | PM_DEV_RPU0_0
  | PM_DEV_RPU0_1
  | PM_DEV_TCM_0_A
  | PM_DEV_TCM_0_B
  | PM_DEV_TCM_1_A
  | PM_DEV_TCM_1_B
  deriving DecidableEq, Repr

/-- Calls that leave the embedded part of xloader_prtn_load.c: device copies, the
security library, power management, the ATF handoff table, and the processing
of a CDO partition.  `XLoader_ProcessCdo` is taken as one call with a status:
its chunk loop is driven by the CDO interpreter `XPlmi_ProcessCdo`, which is
outside the sources and decides how much data is consumed.  Each call made is
appended to a trace. -/
inductive XLoader_Call where
  | DeviceCopy (fn : XLoader_CopyFn) (SrcAddr DestAddr Len Flags : Nat)
  | XLoader_SecureInit (PrtnNum : Nat)
  | XLoader_SecureCopy (SecureParams : XLoader_SecureParams) (DestAddr Len : Nat)
  | XLoader_ProcessCdo (DeviceCopy : XLoader_DeviceCopy) (SecureParams : XLoader_SecureParams)
  | XPm_RequestDevice (Node : XPm_Node)
  | XPm_DevIoctl (Node : XPm_Node) (lockstep : Bool)
  | XLoader_SetATFHandoffParameters (PrtnHdr : XilPdi_PrtnHdr)
  deriving DecidableEq, Repr

/-- Constants of xloader.h, xilpdi.h and xplmi headers used by
xloader_prtn_load.c.  The headers are not part of the sources, so the values are
parameters.  The chunk size is a positive number of bytes. -/
structure XLoader_Consts where
  XIH_PH_ATTRB_PRTN_OWNER_PLM : Nat
  XIH_PH_ATTRB_PRTN_TYPE_CDO : Nat
  XIH_PH_ATTRB_PRTN_TYPE_ELF : Nat
  XIH_PH_ATTRB_DSTN_CPU_NONE : Nat
  XIH_PH_ATTRB_DSTN_CPU_A72_0 : Nat
  XIH_PH_ATTRB_DSTN_CPU_A72_1 : Nat
  XIH_PH_ATTRB_DSTN_CPU_R5_0 : Nat
  XIH_PH_ATTRB_DSTN_CPU_R5_1 : Nat
  XIH_PH_ATTRB_DSTN_CPU_R5_L : Nat
  XIH_PH_ATTRB_DSTN_CPU_PSM : Nat
  XIH_PH_ATTRB_DSTN_CPU_MASK : Nat
  XIH_PRTN_WORD_LEN : Nat
  XLOADER_MAX_HANDOFF_CPUS : Nat
  XLOADER_R5_TCMA_LOAD_ADDRESS : Nat
  XLOADER_R5_TCMB_LOAD_ADDRESS : Nat
  XLOADER_R5_TCM_BANK_LENGTH : Nat
  XLOADER_R5_0_TCMA_BASE_ADDR : Nat
  XLOADER_R5_1_TCMA_BASE_ADDR : Nat
  XLOADER_CHUNK_SIZE : Nat
  XLOADER_CHUNK_SIZE_pos : 0 < XLOADER_CHUNK_SIZE
  XLOADER_PDI_TYPE_FULL : Nat
  XLOADER_PDI_TYPE_RESTORE : Nat
  XPLMI_LOADER_CHUNK_MEMORY : Nat
  XPLMI_PMCDMA_0 : Nat
  XLOADER_ERR_COPY_TO_MEM : Nat
  XLOADER_ERR_DELAY_LOAD : Nat
  XLOADER_ERR_NUM_HANDOFF_CPUS : Nat
  XLOADER_ERR_TCM_ADDR_OUTOF_RANGE : Nat

/-- Functions called by xloader_prtn_load.c whose code is outside the sources.
The header accessors and `XPlmi_UpdateStatus` are functions of their arguments;
`status` is the status reported by a call, which may depend on every call made
before it; `secureParams` is the instance filled in by `XLoader_SecureInit`. -/
structure XLoader_Env where
  XilPdi_GetPrtnOwner : XilPdi_PrtnHdr → Nat
  XilPdi_GetPrtnType : XilPdi_PrtnHdr → Nat
  XilPdi_GetDstnCpu : XilPdi_PrtnHdr → Nat
  XilPdi_GetA72ExecState : XilPdi_PrtnHdr → Nat
  XilPdi_GetVecLocation : XilPdi_PrtnHdr → Nat
  XilPdi_ValidatePrtnHdr : XilPdi_PrtnHdr → Int
  XPlmi_UpdateStatus : Nat → Int → Int
  status : List XLoader_Call → XLoader_Call → Int
  secureParams : List XLoader_Call → Nat → XLoader_SecureParams

/-- One call leaving the file: its status given the calls made so far, and the
extended trace. -/
def XLoader_Env.call (env : XLoader_Env) (tr : List XLoader_Call) (c : XLoader_Call) :
    Int × List XLoader_Call :=
  (env.status tr c, tr ++ [c])

/-! ## xloader_prtn_load.c : functions -/

/-- Embedding of `XLoader_GetLoadAddr` (lines 782-839): the status and the value
of `*LoadAddrPtr` on return.  The sums and products of the 32-bit constants are
32-bit, the address is 64-bit. -/
def XLoader_GetLoadAddr (c : XLoader_Consts) (env : XLoader_Env)
    (DstnCpu : Nat) (LoadAddr : Nat) (Len : Nat) : Int × Nat :=
  let Address := LoadAddr
  if DstnCpu = c.XIH_PH_ATTRB_DSTN_CPU_R5_0 ∧
      (Address < u32 (c.XLOADER_R5_TCMA_LOAD_ADDRESS + c.XLOADER_R5_TCM_BANK_LENGTH) ∨
       (Address ≥ c.XLOADER_R5_TCMB_LOAD_ADDRESS ∧
        Address < u32 (c.XLOADER_R5_TCMB_LOAD_ADDRESS + c.XLOADER_R5_TCM_BANK_LENGTH))) then
    if Len > c.XLOADER_R5_TCM_BANK_LENGTH then
      (env.XPlmi_UpdateStatus c.XLOADER_ERR_TCM_ADDR_OUTOF_RANGE 0, LoadAddr)
    else
      (XST_SUCCESS, u64 (Address + c.XLOADER_R5_0_TCMA_BASE_ADDR))
  else if DstnCpu = c.XIH_PH_ATTRB_DSTN_CPU_R5_1 ∧
      (Address < u32 (c.XLOADER_R5_TCMA_LOAD_ADDRESS + c.XLOADER_R5_TCM_BANK_LENGTH) ∨
       (Address ≥ c.XLOADER_R5_TCMB_LOAD_ADDRESS ∧
        Address < u32 (c.XLOADER_R5_TCMB_LOAD_ADDRESS + c.XLOADER_R5_TCM_BANK_LENGTH))) then
    if Len > c.XLOADER_R5_TCM_BANK_LENGTH then
      (env.XPlmi_UpdateStatus c.XLOADER_ERR_TCM_ADDR_OUTOF_RANGE 0, LoadAddr)
    else
      (XST_SUCCESS, u64 (Address + c.XLOADER_R5_1_TCMA_BASE_ADDR))
  else if DstnCpu = c.XIH_PH_ATTRB_DSTN_CPU_R5_L ∧
      Address < u32 (c.XLOADER_R5_TCM_BANK_LENGTH * 4) then
    if Len > u32 (c.XLOADER_R5_TCM_BANK_LENGTH * 4) then
      (env.XPlmi_UpdateStatus c.XLOADER_ERR_TCM_ADDR_OUTOF_RANGE 0, LoadAddr)
    else
      (XST_SUCCESS, u64 (Address + c.XLOADER_R5_0_TCMA_BASE_ADDR))
  else
    (XST_SUCCESS, Address)

/-- Loop of `XLoader_CheckHandoffCpu` (lines 421-427): `n` iterations are left
and `Index` is the loop counter; `true` when an entry with the CPU is found. -/
def XLoader_CheckHandoffCpu_loop (c : XLoader_Consts) (PdiPtr : XilPdi) (DstnCpu : Nat) :
    (n : Nat) → (Index : Nat) → Bool
  | 0, _ => false
  | n + 1, Index =>
    let CpuId := Nat.land (PdiPtr.HandoffParam Index).CpuSettings c.XIH_PH_ATTRB_DSTN_CPU_MASK
    if CpuId = DstnCpu then true
    else XLoader_CheckHandoffCpu_loop c PdiPtr DstnCpu n (Index + 1)

/-- Embedding of `XLoader_CheckHandoffCpu` (lines 415-432): `XST_FAILURE` when
one of the first `NoOfHandoffCpus` entries holds the CPU, `XST_SUCCESS`
otherwise. -/
def XLoader_CheckHandoffCpu (c : XLoader_Consts) (PdiPtr : XilPdi) (DstnCpu : Nat) : Int :=
  if XLoader_CheckHandoffCpu_loop c PdiPtr DstnCpu PdiPtr.NoOfHandoffCpus 0 then XST_FAILURE
  else XST_SUCCESS

/-- Embedding of `XLoader_UpdateHandoffParam` (lines 369-402): the status and
the PDI instance on return. -/
def XLoader_UpdateHandoffParam (c : XLoader_Consts) (env : XLoader_Env)
    (PdiPtr : XilPdi) (PrtnNum : Nat) : Int × XilPdi :=
  let PrtnHdr := PdiPtr.MetaHdr.PrtnHdr PrtnNum
  let DstnCpu := env.XilPdi_GetDstnCpu PrtnHdr
  if DstnCpu > c.XIH_PH_ATTRB_DSTN_CPU_NONE ∧ DstnCpu ≤ c.XIH_PH_ATTRB_DSTN_CPU_PSM then
    let CpuNo := PdiPtr.NoOfHandoffCpus
    if XLoader_CheckHandoffCpu c PdiPtr DstnCpu = XST_SUCCESS then
      if CpuNo = c.XLOADER_MAX_HANDOFF_CPUS then
        (env.XPlmi_UpdateStatus c.XLOADER_ERR_NUM_HANDOFF_CPUS 0, PdiPtr)
      else
        let entry : XLoader_HandoffParam :=
          { CpuSettings :=
              Nat.lor (Nat.lor (env.XilPdi_GetDstnCpu PrtnHdr) (env.XilPdi_GetA72ExecState PrtnHdr))
                (env.XilPdi_GetVecLocation PrtnHdr),
            HandoffAddr := PrtnHdr.DstnExecutionAddr }
        (XST_SUCCESS,
          { PdiPtr with
            HandoffParam := Function.update PdiPtr.HandoffParam CpuNo entry,
            NoOfHandoffCpus := u32 (PdiPtr.NoOfHandoffCpus + 1) })
    else
      (XST_SUCCESS, PdiPtr)
  else
    (XST_SUCCESS, PdiPtr)

/-- Embedding of `XLoader_PrtnCopy` (lines 225-245): the copy goes through the
copy routine of the meta header, or through `XLoader_SecureCopy` when security
is enabled. -/
def XLoader_PrtnCopy (env : XLoader_Env) (PdiPtr : XilPdi) (DeviceCopy : XLoader_DeviceCopy)
    (SecureParams : XLoader_SecureParams) (tr : List XLoader_Call) : Int × List XLoader_Call :=
  if SecureParams.SecureEn ≠ true then
    env.call tr (.DeviceCopy PdiPtr.MetaHdr.DeviceCopy DeviceCopy.SrcAddr DeviceCopy.DestAddr
      DeviceCopy.Len DeviceCopy.Flags)
  else
    env.call tr (.XLoader_SecureCopy SecureParams DeviceCopy.DestAddr DeviceCopy.Len)

/-- Power-management requests of `XLoader_ProcessElf` for the R5 destinations
(lines 291-332); the statuses of these calls are discarded by the C code. -/
def XLoader_ProcessElf_tcm (c : XLoader_Consts) (env : XLoader_Env) (DstnCpu : Nat)
    (tr : List XLoader_Call) : List XLoader_Call :=
  if DstnCpu = c.XIH_PH_ATTRB_DSTN_CPU_R5_1 then
    let tr := (env.call tr (.XPm_DevIoctl .PM_DEV_RPU0_1 false)).2
    let tr := (env.call tr (.XPm_RequestDevice .PM_DEV_TCM_1_A)).2
    (env.call tr (.XPm_RequestDevice .PM_DEV_TCM_1_B)).2
  else if DstnCpu = c.XIH_PH_ATTRB_DSTN_CPU_R5_0 then
    let tr := (env.call tr (.XPm_DevIoctl .PM_DEV_RPU0_0 false)).2
    let tr := (env.call tr (.XPm_RequestDevice .PM_DEV_TCM_0_A)).2
    (env.call tr (.XPm_RequestDevice .PM_DEV_TCM_0_B)).2
  else
    let tr := (env.call tr (.XPm_DevIoctl .PM_DEV_RPU0_0 true)).2
    let tr := (env.call tr (.XPm_DevIoctl .PM_DEV_RPU0_1 true)).2
    let tr := (env.call tr (.XPm_RequestDevice .PM_DEV_TCM_0_A)).2
    let tr := (env.call tr (.XPm_RequestDevice .PM_DEV_TCM_0_B)).2
    let tr := (env.call tr (.XPm_RequestDevice .PM_DEV_TCM_1_A)).2
    (env.call tr (.XPm_RequestDevice .PM_DEV_TCM_1_B)).2

/-- Copy and handoff-table part of `XLoader_ProcessElf` (lines 341-356). -/
def XLoader_ProcessElf_copy (c : XLoader_Consts) (env : XLoader_Env) (PdiPtr : XilPdi)
    (PrtnHdr : XilPdi_PrtnHdr) (PrtnParams : XLoader_PrtnParams)
    (SecureParams : XLoader_SecureParams) (tr : List XLoader_Call) : Int × List XLoader_Call :=
  let r := XLoader_PrtnCopy env PdiPtr PrtnParams.DeviceCopy SecureParams tr
  if XST_SUCCESS ≠ r.1 then r
  else if PrtnParams.DstnCpu = c.XIH_PH_ATTRB_DSTN_CPU_A72_0 ∨
      PrtnParams.DstnCpu = c.XIH_PH_ATTRB_DSTN_CPU_A72_1 then
    (r.1, (env.call r.2 (.XLoader_SetATFHandoffParameters PrtnHdr)).2)
  else r

/-- Embedding of `XLoader_ProcessElf` (lines 260-357). -/
def XLoader_ProcessElf (c : XLoader_Consts) (env : XLoader_Env) (PdiPtr : XilPdi)
    (PrtnHdr : XilPdi_PrtnHdr) (PrtnParams : XLoader_PrtnParams)
    (SecureParams : XLoader_SecureParams) (tr : List XLoader_Call) : Int × List XLoader_Call :=
  let PrtnParams := { PrtnParams with DstnCpu := env.XilPdi_GetDstnCpu PrtnHdr }
  let tr :=
    if PrtnParams.DstnCpu = c.XIH_PH_ATTRB_DSTN_CPU_PSM then
      (env.call tr (.XPm_RequestDevice .PM_DEV_PSM_PROC)).2
    else tr
  if PrtnParams.DstnCpu = c.XIH_PH_ATTRB_DSTN_CPU_R5_0 ∨
      PrtnParams.DstnCpu = c.XIH_PH_ATTRB_DSTN_CPU_R5_1 ∨
      PrtnParams.DstnCpu = c.XIH_PH_ATTRB_DSTN_CPU_R5_L then
    let tr := XLoader_ProcessElf_tcm c env PrtnParams.DstnCpu tr
    let g := XLoader_GetLoadAddr c env PrtnParams.DstnCpu PrtnParams.DeviceCopy.DestAddr
      PrtnParams.DeviceCopy.Len
    if XST_SUCCESS ≠ g.1 then (g.1, tr)
    else
      XLoader_ProcessElf_copy c env PdiPtr PrtnHdr
        { PrtnParams with DeviceCopy := { PrtnParams.DeviceCopy with DestAddr := g.2 } }
        SecureParams tr
  else
    XLoader_ProcessElf_copy c env PdiPtr PrtnHdr PrtnParams SecureParams tr

/-- Delay-load loop of `XLoader_ProcessPrtn` (lines 695-710): the partition is
read from the boot device in chunks and discarded.  Returns the status on exit
and the trace; the status is the one held before the loop when no chunk is
read. -/
def XLoader_ProcessPrtn_delayLoop (c : XLoader_Consts) (env : XLoader_Env) (PdiPtr : XilPdi)
    (Status : Int) (Len SrcAddr : Nat) (tr : List XLoader_Call) : Int × List XLoader_Call :=
  if _h : Len > 0 then
    let TrfLen := if Len > c.XLOADER_CHUNK_SIZE then c.XLOADER_CHUNK_SIZE else Len
    let r := env.call tr (.DeviceCopy PdiPtr.DeviceCopy SrcAddr c.XPLMI_LOADER_CHUNK_MEMORY TrfLen 0)
    if r.1 ≠ XST_SUCCESS then
      (env.XPlmi_UpdateStatus c.XLOADER_ERR_DELAY_LOAD r.1, r.2)
    else
      XLoader_ProcessPrtn_delayLoop c env PdiPtr r.1 (Len - TrfLen) (u64 (SrcAddr + TrfLen)) r.2
  else
    (Status, tr)
termination_by Len
decreasing_by
  have := c.XLOADER_CHUNK_SIZE_pos
  split <;> omega

/-- Loading part of `XLoader_ProcessPrtn` (lines 720-758): security
initialisation, the copy that fits the partition type, and the handoff update. -/
def XLoader_ProcessPrtn_load (c : XLoader_Consts) (env : XLoader_Env) (PdiPtr : XilPdi)
    (PrtnNum : Nat) (PrtnParams : XLoader_PrtnParams) (tr : List XLoader_Call) :
    Int × XilPdi × List XLoader_Call :=
  let PrtnHdr := PdiPtr.MetaHdr.PrtnHdr PrtnNum
  let PrtnType := env.XilPdi_GetPrtnType PrtnHdr
  let SecureParams := env.secureParams tr PrtnNum
  let s := env.call tr (.XLoader_SecureInit PrtnNum)
  if s.1 ≠ XST_SUCCESS then (s.1, PdiPtr, s.2)
  else
    let PrtnParams :=
      if PdiPtr.PdiType ≠ c.XLOADER_PDI_TYPE_FULL ∧ PdiPtr.PdiSrc = .XLOADER_PDI_SRC_DDR then
        { PrtnParams with DeviceCopy := { PrtnParams.DeviceCopy with IsDoubleBuffering := true } }
      else PrtnParams
    let r :=
      if PrtnType = c.XIH_PH_ATTRB_PRTN_TYPE_CDO then
        env.call s.2 (.XLoader_ProcessCdo PrtnParams.DeviceCopy SecureParams)
      else if PrtnType = c.XIH_PH_ATTRB_PRTN_TYPE_ELF then
        XLoader_ProcessElf c env PdiPtr PrtnHdr PrtnParams SecureParams s.2
      else
        XLoader_PrtnCopy env PdiPtr PrtnParams.DeviceCopy SecureParams s.2
    if r.1 ≠ XST_SUCCESS then (r.1, PdiPtr, r.2)
    else if PdiPtr.DelayHandoff = false then
      let h := XLoader_UpdateHandoffParam c env PdiPtr PrtnNum
      (h.1, h.2, r.2)
    else (r.1, PdiPtr, r.2)

/-- Label `END` of `XLoader_ProcessPrtn` (lines 760-767) for a partition that was
first stored in DDR: the boot source, the copy routines and the flash offset are
put back. -/
def XLoader_ProcessPrtn_END (PdiPtr : XilPdi) (PdiSrc : PdiSrc_t) (DevCopy : XLoader_CopyFn)
    (OfstAddr : Nat) : XilPdi :=
  { PdiPtr with
    PdiSrc := PdiSrc,
    DeviceCopy := DevCopy,
    MetaHdr := { PdiPtr.MetaHdr with DeviceCopy := DevCopy, FlashOfstAddr := OfstAddr } }

/-- Embedding of `XLoader_ProcessPrtn` (lines 629-768): the status, the PDI
instance on return and the trace of calls.  `Status` starts as `XST_FAILURE`
(line 631). -/
def XLoader_ProcessPrtn (c : XLoader_Consts) (env : XLoader_Env) (PdiPtr : XilPdi)
    (PrtnNum : Nat) (tr : List XLoader_Call) : Int × XilPdi × List XLoader_Call :=
  let Status : Int := XST_FAILURE
  let PrtnHdr := PdiPtr.MetaHdr.PrtnHdr PrtnNum
  let PdiPtr := { PdiPtr with CurPrtnId := PrtnHdr.PrtnId }
  let DestAddr := PrtnHdr.DstnLoadAddr
  let Len := u32 (PrtnHdr.TotalDataWordLen * c.XIH_PRTN_WORD_LEN)
  let SrcAddr :=
    if PdiPtr.PdiType = c.XLOADER_PDI_TYPE_RESTORE then PdiPtr.CopyToMemAddr
    else u64 (PdiPtr.MetaHdr.FlashOfstAddr + u64 (PrtnHdr.DataWordOfst * c.XIH_PRTN_WORD_LEN))
  let PdiPtr :=
    if PdiPtr.PdiType = c.XLOADER_PDI_TYPE_RESTORE then
      { PdiPtr with
        MetaHdr := { PdiPtr.MetaHdr with
          FlashOfstAddr :=
            u64sub PdiPtr.CopyToMemAddr (u64 (PrtnHdr.DataWordOfst * c.XIH_PRTN_WORD_LEN)) },
        CopyToMemAddr := u64 (PdiPtr.CopyToMemAddr + Len) }
    else PdiPtr
  let PrtnParams : XLoader_PrtnParams :=
    { DeviceCopy :=
        { SrcAddr := SrcAddr, DestAddr := DestAddr, Len := Len, Flags := 0,
          IsDoubleBuffering := false },
      DstnCpu := 0 }
  if PdiPtr.CopyToMem = true then
    let r := env.call tr (.DeviceCopy PdiPtr.DeviceCopy PrtnParams.DeviceCopy.SrcAddr
      PdiPtr.CopyToMemAddr PrtnParams.DeviceCopy.Len PrtnParams.DeviceCopy.Flags)
    if r.1 ≠ XST_SUCCESS then
      (env.XPlmi_UpdateStatus c.XLOADER_ERR_COPY_TO_MEM 0, PdiPtr, r.2)
    else
      let PdiPtr := { PdiPtr with CopyToMemAddr := u64 (PdiPtr.CopyToMemAddr + Len) }
      if PdiPtr.DelayLoad = true then (r.1, PdiPtr, r.2)
      else
        let PdiSrc := PdiPtr.PdiSrc
        let DevCopy := PdiPtr.DeviceCopy
        let OfstAddr := PdiPtr.MetaHdr.FlashOfstAddr
        let PdiPtr :=
          { PdiPtr with
            PdiSrc := .XLOADER_PDI_SRC_DDR,
            DeviceCopy := .XLoader_DdrCopy,
            MetaHdr := { PdiPtr.MetaHdr with
              DeviceCopy := .XLoader_DdrCopy,
              FlashOfstAddr :=
                u64sub (u64sub PdiPtr.CopyToMemAddr Len)
                  (u64 (PrtnHdr.DataWordOfst * c.XIH_PRTN_WORD_LEN)) } }
        let PrtnParams :=
          { PrtnParams with
            DeviceCopy := { PrtnParams.DeviceCopy with
              SrcAddr := PdiPtr.CopyToMemAddr, Flags := c.XPLMI_PMCDMA_0 } }
        let l := XLoader_ProcessPrtn_load c env PdiPtr PrtnNum PrtnParams r.2
        (l.1, XLoader_ProcessPrtn_END l.2.1 PdiSrc DevCopy OfstAddr, l.2.2)
  else if PdiPtr.DelayLoad = true then
    if PdiPtr.PdiSrc = .XLOADER_PDI_SRC_JTAG ∨ PdiPtr.PdiSrc = .XLOADER_PDI_SRC_SBI ∨
        PdiPtr.PdiSrc = .XLOADER_PDI_SRC_SMAP ∨ PdiPtr.PdiSrc = .XLOADER_PDI_SRC_PCIE then
      let d := XLoader_ProcessPrtn_delayLoop c env PdiPtr Status PrtnParams.DeviceCopy.Len
        PrtnParams.DeviceCopy.SrcAddr tr
      (d.1, PdiPtr, d.2)
    else (Status, PdiPtr, tr)
  else
    XLoader_ProcessPrtn_load c env PdiPtr PrtnNum PrtnParams tr

/-- Embedding of `XLoader_PrtnHdrValidation` (lines 186-211). -/
def XLoader_PrtnHdrValidation (c : XLoader_Consts) (env : XLoader_Env) (PdiPtr : XilPdi)
    (PrtnNum : Nat) : Int :=
  let PrtnHdr := PdiPtr.MetaHdr.PrtnHdr PrtnNum
  if env.XilPdi_GetPrtnOwner PrtnHdr ≠ c.XIH_PH_ATTRB_PRTN_OWNER_PLM then
    XLOADER_SUCCESS_NOT_PRTN_OWNER
  else
    env.XilPdi_ValidatePrtnHdr PrtnHdr

/-- Steps taken by `XLoader_LoadImagePrtns`, with the partition number and the
status the step returned. -/
inductive XLoader_Step where
  | validated (PrtnNum : Nat) (Status : Int)
  | processed (PrtnNum : Nat) (Status : Int)
  deriving DecidableEq, Repr

/-- Result of `XLoader_LoadImagePrtns`: status, PDI instance, trace of outside
calls, and the validation and processing steps in the order they were taken. -/
structure XLoader_LoadResult where
  Status : Int
  PdiPtr : XilPdi
  trace : List XLoader_Call
  steps : List XLoader_Step

/-- Loop of `XLoader_LoadImagePrtns` (lines 124-169) with `n` iterations left.
The printing and timing calls are left out. -/
def XLoader_LoadImagePrtns_loop (c : XLoader_Consts) (env : XLoader_Env) :
    (n : Nat) → (PdiPtr : XilPdi) → (PrtnNum : Nat) → (tr : List XLoader_Call) →
    (steps : List XLoader_Step) → XLoader_LoadResult
  | 0, PdiPtr, _, tr, steps => ⟨XST_SUCCESS, PdiPtr, tr, steps⟩
  | n + 1, PdiPtr, PrtnNum, tr, steps =>
    let Status := XLoader_PrtnHdrValidation c env PdiPtr PrtnNum
    let steps := steps ++ [.validated PrtnNum Status]
    if Status = XLOADER_SUCCESS_NOT_PRTN_OWNER then
      ⟨XST_SUCCESS, PdiPtr, tr, steps⟩
    else if XST_SUCCESS ≠ Status then
      ⟨Status, PdiPtr, tr, steps⟩
    else
      let p := XLoader_ProcessPrtn c env PdiPtr PrtnNum tr
      let steps := steps ++ [.processed PrtnNum p.1]
      if XST_SUCCESS ≠ p.1 then
        ⟨p.1, p.2.1, p.2.2, steps⟩
      else
        XLoader_LoadImagePrtns_loop c env n p.2.1 (u32 (PrtnNum + 1)) p.2.2 steps

/-- Embedding of `XLoader_LoadImagePrtns` (lines 91-174).  The loop bound
`NoOfPrtns` of the image is read once: no code of the file writes the image
headers. -/
def XLoader_LoadImagePrtns (c : XLoader_Consts) (env : XLoader_Env) (PdiPtr : XilPdi)
    (ImgNum PrtnNum : Nat) (tr : List XLoader_Call) : XLoader_LoadResult :=
  XLoader_LoadImagePrtns_loop c env (PdiPtr.MetaHdr.NoOfPrtns ImgNum) PdiPtr PrtnNum tr []

/-- Projection: the status a step returned. -/
def XLoader_Step.Status : XLoader_Step → Int
  | .validated _ s => s
  | .processed _ s => s

/-- Projection: the partition a step worked on. -/
def XLoader_Step.PrtnNum : XLoader_Step → Nat
  | .validated k _ => k
  | .processed k _ => k

/-- Projection: whether the step is a header validation. -/
def XLoader_Step.isValidation : XLoader_Step → Bool
  | .validated _ _ => true
  | .processed _ _ => false

/-! ## xloader_prtn_load.c : sample instances -/

/-- Sample constants for evaluating the embedding on concrete inputs. -/
def XLoader_sampleConsts : XLoader_Consts where
  XIH_PH_ATTRB_PRTN_OWNER_PLM := 0
  XIH_PH_ATTRB_PRTN_TYPE_CDO := 0x2000000
  XIH_PH_ATTRB_PRTN_TYPE_ELF := 0x1000000
  XIH_PH_ATTRB_DSTN_CPU_NONE := 0x000
  XIH_PH_ATTRB_DSTN_CPU_A72_0 := 0x100
  XIH_PH_ATTRB_DSTN_CPU_A72_1 := 0x200
  XIH_PH_ATTRB_DSTN_CPU_R5_0 := 0x500
  XIH_PH_ATTRB_DSTN_CPU_R5_1 := 0x600
  XIH_PH_ATTRB_DSTN_CPU_R5_L := 0x700
  XIH_PH_ATTRB_DSTN_CPU_PSM := 0x800
  XIH_PH_ATTRB_DSTN_CPU_MASK := 0xF00
  XIH_PRTN_WORD_LEN := 4
  XLOADER_MAX_HANDOFF_CPUS := 10
  XLOADER_R5_TCMA_LOAD_ADDRESS := 0x0
  XLOADER_R5_TCMB_LOAD_ADDRESS := 0x20000
  XLOADER_R5_TCM_BANK_LENGTH := 0x10000
  XLOADER_R5_0_TCMA_BASE_ADDR := 0xFFE00000
  XLOADER_R5_1_TCMA_BASE_ADDR := 0xFFE90000
  XLOADER_CHUNK_SIZE := 0x10000
  XLOADER_CHUNK_SIZE_pos := by decide
  XLOADER_PDI_TYPE_FULL := 1
  XLOADER_PDI_TYPE_RESTORE := 3
  XPLMI_LOADER_CHUNK_MEMORY := 0xF2100000
  XPLMI_PMCDMA_0 := 0x100
  XLOADER_ERR_COPY_TO_MEM := 0x30A
  XLOADER_ERR_DELAY_LOAD := 0x30B
  XLOADER_ERR_NUM_HANDOFF_CPUS := 0x30C
  XLOADER_ERR_TCM_ADDR_OUTOF_RANGE := 0x30D

/-- Sample environment: the header accessors mask the attribute word, every
header is valid and every outside call reports success. -/
def XLoader_sampleEnv : XLoader_Env where
  XilPdi_GetPrtnOwner := fun h => Nat.land h.PrtnAttrb 0x30000
  XilPdi_GetPrtnType := fun h => Nat.land h.PrtnAttrb 0x7000000
  XilPdi_GetDstnCpu := fun h => Nat.land h.PrtnAttrb 0xF00
  XilPdi_GetA72ExecState := fun h => Nat.land h.PrtnAttrb 0x8
  XilPdi_GetVecLocation := fun h => Nat.land h.PrtnAttrb 0x800000
  XilPdi_ValidatePrtnHdr := fun _ => XST_SUCCESS
  XPlmi_UpdateStatus := fun major minor => (major : Int) * 65536 + minor
  status := fun _ _ => XST_SUCCESS
  secureParams := fun _ _ => ⟨false, false, false⟩

/-- Sample partition header with the given attribute word. -/
def XLoader_samplePrtnHdr (attrb : Nat) : XilPdi_PrtnHdr :=
  { PrtnId := 1, PrtnAttrb := attrb, DstnLoadAddr := 0x1000, DstnExecutionAddr := 0x1000,
    TotalDataWordLen := 16, DataWordOfst := 64 }

/-- Sample PDI instance for a boot from QSPI: the image has two partitions whose
attribute words are given by `attrb`. -/
def XLoader_samplePdi (attrb : Nat → Nat) : XilPdi :=
  { PdiSrc := .XLOADER_PDI_SRC_QSPI24, PdiType := 1, CopyToMem := false, DelayLoad := false,
    DelayHandoff := false, CopyToMemAddr := 0, CurPrtnId := 0, DeviceCopy := .bootDevice 1,
    MetaHdr :=
      { NoOfPrtns := fun _ => 2, PrtnHdr := fun k => XLoader_samplePrtnHdr (attrb k),
        ImgHdrTblVersion := 4, FlashOfstAddr := 0, DeviceCopy := .bootDevice 1 },
    NoOfHandoffCpus := 0, HandoffParam := fun _ => ⟨0, 0⟩ }

/-- Attribute words of an image whose first partition is owned by another
loader (owner field 1) and whose second partition is an ELF of the PLM for
the first A72 core. -/
def XLoader_sampleAttrbForeignFirst : Nat → Nat
  | 0 => 0x10000
  | _ => 0x1000100

/-! ## xclk_wiz.c : data model -/

/-- Search limits of one platform (xclk_wiz.h is not part of the sources, so the
values are parameters).  The loop counters of the divider search are 32-bit and
the output divider divides the VCO frequency, so the upper limits are below
`0xFFFFFFFF` and the smallest output divider is positive. -/
structure XClk_Wiz_Limits where
  VcoMin : Nat
  VcoMax : Nat
  Mmin : Nat
  Mmax : Nat
  Dmin : Nat
  Dmax : Nat
  Omin : Nat
  Omax : Nat
  Mmax_lt : Mmax < 2 ^ 32 - 1
  Dmax_lt : Dmax < 2 ^ 32 - 1
  Omax_lt : Omax < 2 ^ 32 - 1
  Omin_pos : 0 < Omin

/-- Constants of xclk_wiz.h and xclk_wiz_hw.h used by xclk_wiz.c (headers outside
the sources): search limits `XCLK_*` of Versal and `XCLK_US_*` of the other
platforms, register offsets, bit fields. -/
structure XClk_Wiz_Consts where
  XIL_COMPONENT_IS_READY : Nat
  XCLK_MHZ : Nat
  versal : XClk_Wiz_Limits
  us : XClk_Wiz_Limits
  XCLK_WIZ_STATUS_OFFSET : Nat
  XCLK_WIZ_ZYNQMP_REG0_OFFSET : Nat
  XCLK_WIZ_ZYNQMP_REG2_OFFSET : Nat
  XCLK_WIZ_REG1_OFFSET : Nat
  XCLK_WIZ_REG2_OFFSET : Nat
  XCLK_WIZ_REG3_OFFSET : Nat
  XCLK_WIZ_REG4_OFFSET : Nat
  XCLK_WIZ_REG11_OFFSET : Nat
  XCLK_WIZ_REG12_OFFSET : Nat
  XCLK_WIZ_REG13_OFFSET : Nat
  XCLK_WIZ_REG14_OFFSET : Nat
  XCLK_WIZ_REG15_OFFSET : Nat
  XCLK_WIZ_REG16_OFFSET : Nat
  XCLK_WIZ_REG17_OFFSET : Nat
  XCLK_WIZ_REG19_OFFSET : Nat
  XCLK_WIZ_REG25_OFFSET : Nat
  XCLK_WIZ_REG26_OFFSET : Nat
  XCLK_WIZ_REG3_PREDIV2 : Nat
  XCLK_WIZ_REG3_USED : Nat
  XCLK_WIZ_REG3_MX : Nat
  XCLK_WIZ_CLKOUT0_P5EN_SHIFT : Nat
  XCLK_WIZ_CLKOUT0_P5FEDGE_SHIFT : Nat
  XCLK_WIZ_REG12_EDGE_SHIFT : Nat
  XCLK_WIZ_REG1_PREDIV2 : Nat
  XCLK_WIZ_REG1_EN : Nat
  XCLK_WIZ_REG1_MX : Nat
  XCLK_WIZ_REG1_EDGE_SHIFT : Nat
  XCLK_WIZ_REG0_DIV_MASK : Nat
  XCLK_WIZ_REG0_FBMULT_MASK : Nat
  XCLK_WIZ_REG0_FBMULT_SHIFT : Nat
  XCLK_WIZ_REG1_EDGE_MASK : Nat
  XCLK_WIZ_CLKFBOUT_L_MASK : Nat
  XCLK_WIZ_CLKFBOUT_H_MASK : Nat
  XCLK_WIZ_CLKFBOUT_H_SHIFT : Nat
  XCLK_WIZ_EDGE_MASK : Nat
  XCLK_WIZ_LOCK : Nat

/-- Platform dependent part of xclk_wiz.c: `isVersal` is the outcome of
`XGetPlatform_Info() == XPLAT_VERSAL`. -/
structure XClk_Wiz_Env where
  isVersal : Bool

/-- Configuration of an instance (`XClk_Wiz_Config`), the fields used here.
The declaration of `Config.PrimInClkFreq` is in xclk_wiz.h, outside the sources;
the field receives the `double Rate` of `XClk_Wiz_SetInputRate` (line 812).  The
embedding covers input clocks that are whole numbers: `PrimInClkFreq` is that
number, which is also the value of `(u64)Config.PrimInClkFreq`. -/
structure XClk_Wiz_Config where
  BaseAddr : Nat
  NumClocks : Nat
  PrimInClkFreq : Nat
  deriving DecidableEq, Repr

/-- Driver instance (`XClk_Wiz`), the fields used here. -/
structure XClk_Wiz where
  Config : XClk_Wiz_Config
  MVal : Nat
  DVal : Nat
  OVal : Nat
  MinErr : Nat
  IsReady : Nat
  deriving DecidableEq, Repr

/-- Register space of the device: the value held at each address and the list of
writes (address, value) in the order they were made. -/
structure XClk_Wiz_Hw where
  regs : Nat → Nat
  writes : List (Nat × Nat)

/-- Register write `XClk_Wiz_WriteReg(BaseAddr, RegOffset, Data)`. -/
def XClk_Wiz_WriteReg (hw : XClk_Wiz_Hw) (BaseAddr RegOffset Data : Nat) : XClk_Wiz_Hw :=
  { regs := Function.update hw.regs (BaseAddr + RegOffset) (u32 Data),
    writes := hw.writes ++ [(BaseAddr + RegOffset, u32 Data)] }

/-- Register read `XClk_Wiz_ReadReg(BaseAddr, RegOffset)`. -/
def XClk_Wiz_ReadReg (hw : XClk_Wiz_Hw) (BaseAddr RegOffset : Nat) : Nat :=
  hw.regs (BaseAddr + RegOffset)

/-- Limits selected by the platform test (lines 148-166 and 245-263). -/
def XClk_Wiz_limits (k : XClk_Wiz_Consts) (env : XClk_Wiz_Env) : XClk_Wiz_Limits :=
  if env.isVersal then k.versal else k.us

/-! ## xclk_wiz.c : divider search -/

/-- VCO expression of line 175 (build without `SDT`), in MHz:
`Config.PrimInClkFreq * m / d` stored in the 64-bit `Fvco`.  For a whole input
clock, `0 < d < 2 ^ 32` and a product below `2 ^ 52` the value is the integer
quotient, whether the field is a `double` (the product is exact and the rounded
quotient stays below the next whole number, so its conversion to `u64` is the
integer quotient) or an unsigned 64-bit integer. -/
def XClk_Wiz_Fvco (PrimInClkFreq m d : Nat) : Nat :=
  PrimInClkFreq * m / d

/-- VCO expression of line 272 (build without `SDT`), in Hz:
`Config.PrimInClkFreq * XCLK_MHZ * m / d` stored in the 64-bit `Fvco`, under the
same conditions as `XClk_Wiz_Fvco`. -/
def XClk_Wiz_FvcoHz (k : XClk_Wiz_Consts) (PrimInClkFreq m d : Nat) : Nat :=
  PrimInClkFreq * k.XCLK_MHZ * m / d

/-- Absolute difference computed at lines 184-188 and 281-285. -/
def XClk_Wiz_Diff (Freq SetRate : Nat) : Nat :=
  if Freq > SetRate then Freq - SetRate else SetRate - Freq

/-- Innermost loop of `XClk_Wiz_CalculateDivisorsHz` (lines 278-293) with `n`
iterations left: the first output divider from `Div` on whose frequency is
closer to `SetRate` than `Minerr`. -/
def XClk_Wiz_CalculateDivisorsHz_loopO (SetRate Minerr Fvco : Nat) :
    (n : Nat) → (Div : Nat) → Option Nat
  | 0, _ => none
  | n + 1, Div =>
    let Freq := Fvco / Div
    let Diff := XClk_Wiz_Diff Freq SetRate
    if Diff < Minerr then some Div
    else XClk_Wiz_CalculateDivisorsHz_loopO SetRate Minerr Fvco n (Div + 1)

/-- Body of the loop over `d` of `XClk_Wiz_CalculateDivisorsHz` (lines 271-294)
for one pair `m`, `d`. -/
def XClk_Wiz_CalculateDivisorsHz_body (k : XClk_Wiz_Consts) (env : XClk_Wiz_Env)
    (PrimInClkFreq : Nat)
    (SetRate Minerr : Nat) (m d : Nat) : Option Nat :=
  let lim := XClk_Wiz_limits k env
  let Fvco := u64 (XClk_Wiz_FvcoHz k PrimInClkFreq m d)
  if Fvco ≥ u64 (lim.VcoMin * k.XCLK_MHZ) ∧ Fvco ≤ u64 (lim.VcoMax * k.XCLK_MHZ) then
    XClk_Wiz_CalculateDivisorsHz_loopO SetRate Minerr Fvco (lim.Omax + 1 - lim.Omin) lim.Omin
  else none

/-- Loop over `d` of `XClk_Wiz_CalculateDivisorsHz` (line 270) with `n`
iterations left. -/
def XClk_Wiz_CalculateDivisorsHz_loopD (k : XClk_Wiz_Consts) (env : XClk_Wiz_Env)
    (PrimInClkFreq : Nat)
    (SetRate Minerr : Nat) (m : Nat) : (n : Nat) → (d : Nat) → Option (Nat × Nat)
  | 0, _ => none
  | n + 1, d =>
    match XClk_Wiz_CalculateDivisorsHz_body k env PrimInClkFreq SetRate Minerr m d with
    | some Div => some (d, Div)
    | none => XClk_Wiz_CalculateDivisorsHz_loopD k env PrimInClkFreq SetRate Minerr m n (d + 1)

/-- Loop over `m` of `XClk_Wiz_CalculateDivisorsHz` (line 269) with `n`
iterations left. -/
def XClk_Wiz_CalculateDivisorsHz_loopM (k : XClk_Wiz_Consts) (env : XClk_Wiz_Env)
    (PrimInClkFreq : Nat)
    (SetRate Minerr : Nat) : (n : Nat) → (m : Nat) → Option (Nat × Nat × Nat)
  | 0, _ => none
  | n + 1, m =>
    let lim := XClk_Wiz_limits k env
    match XClk_Wiz_CalculateDivisorsHz_loopD k env PrimInClkFreq SetRate Minerr m
        (lim.Dmax + 1 - lim.Dmin) lim.Dmin with
    | some (d, Div) => some (m, d, Div)
    | none => XClk_Wiz_CalculateDivisorsHz_loopM k env PrimInClkFreq SetRate Minerr n (m + 1)

/-- Embedding of `XClk_Wiz_CalculateDivisorsHz` (lines 223-298): `none` when an
assertion fails or when the first pair of the search has `d = 0` (the VCO
expression of line 272 then divides by zero), otherwise the status and the
instance on return. -/
def XClk_Wiz_CalculateDivisorsHz (k : XClk_Wiz_Consts) (env : XClk_Wiz_Env)
    (InstancePtr : XClk_Wiz) (SetRate : Nat) : Option (Int × XClk_Wiz) :=
  let Minerr := InstancePtr.MinErr
  let lim := XClk_Wiz_limits k env
  if InstancePtr.IsReady ≠ k.XIL_COMPONENT_IS_READY then none
  else if SetRate = 0 then none
  else if lim.Mmin ≤ lim.Mmax ∧ lim.Dmin = 0 then none
  else
    match XClk_Wiz_CalculateDivisorsHz_loopM k env InstancePtr.Config.PrimInClkFreq SetRate
        Minerr (lim.Mmax + 1 - lim.Mmin) lim.Mmin with
    | some (m, d, Div) =>
      some (XST_SUCCESS, { InstancePtr with MVal := m, DVal := d, OVal := Div })
    | none => some (XST_FAILURE, InstancePtr)

/-- State of the search of `XClk_Wiz_CalculateDivisors`: the smallest error so
far, the dividers stored in the instance, the status, and whether the function
has returned from inside the loops (exact match, line 193). -/
structure XClk_Wiz_Search where
  Minerr : Nat
  MVal : Nat
  DVal : Nat
  OVal : Nat
  Status : Int
  returned : Bool
  deriving DecidableEq, Repr

/-- Innermost loop of `XClk_Wiz_CalculateDivisors` (lines 181-202). -/
def XClk_Wiz_CalculateDivisors_loopO (SetRate Fvco m d : Nat) :
    (n : Nat) → (Div : Nat) → XClk_Wiz_Search → XClk_Wiz_Search
  | 0, _, s => s
  | n + 1, Div, s =>
    let Freq := Fvco / Div
    let Diff := XClk_Wiz_Diff Freq SetRate
    if Diff = 0 then
      { s with MVal := m, DVal := d, OVal := Div, Status := XST_SUCCESS, returned := true }
    else if Diff < s.Minerr then
      XClk_Wiz_CalculateDivisors_loopO SetRate Fvco m d n (Div + 1)
        { s with Minerr := Diff, MVal := m, DVal := d, OVal := Div, Status := XST_SUCCESS }
    else
      XClk_Wiz_CalculateDivisors_loopO SetRate Fvco m d n (Div + 1) s

/-- Loop over `d` of `XClk_Wiz_CalculateDivisors` (lines 173-204). -/
def XClk_Wiz_CalculateDivisors_loopD (k : XClk_Wiz_Consts) (env : XClk_Wiz_Env)
    (PrimInClkFreq : Nat)
    (SetRate m : Nat) : (n : Nat) → (d : Nat) → XClk_Wiz_Search → XClk_Wiz_Search
  | 0, _, s => s
  | n + 1, d, s =>
    let lim := XClk_Wiz_limits k env
    let Fvco := u64 (XClk_Wiz_Fvco PrimInClkFreq m d)
    let s :=
      if Fvco ≥ lim.VcoMin ∧ Fvco ≤ lim.VcoMax then
        XClk_Wiz_CalculateDivisors_loopO SetRate Fvco m d (lim.Omax + 1 - lim.Omin) lim.Omin s
      else s
    if s.returned then s
    else XClk_Wiz_CalculateDivisors_loopD k env PrimInClkFreq SetRate m n (d + 1) s

/-- Loop over `m` of `XClk_Wiz_CalculateDivisors` (lines 172-205). -/
def XClk_Wiz_CalculateDivisors_loopM (k : XClk_Wiz_Consts) (env : XClk_Wiz_Env)
    (PrimInClkFreq : Nat)
    (SetRate : Nat) : (n : Nat) → (m : Nat) → XClk_Wiz_Search → XClk_Wiz_Search
  | 0, _, s => s
  | n + 1, m, s =>
    let lim := XClk_Wiz_limits k env
    let s := XClk_Wiz_CalculateDivisors_loopD k env PrimInClkFreq SetRate m
      (lim.Dmax + 1 - lim.Dmin) lim.Dmin s
    if s.returned then s
    else XClk_Wiz_CalculateDivisors_loopM k env PrimInClkFreq SetRate n (m + 1) s

/-- Embedding of `XClk_Wiz_CalculateDivisors` (lines 126-207): `none` when an
assertion fails or when the first pair of the search has `d = 0` (the VCO
expression of line 175 then divides by zero), otherwise the status and the
instance on return. -/
def XClk_Wiz_CalculateDivisors (k : XClk_Wiz_Consts) (env : XClk_Wiz_Env)
    (InstancePtr : XClk_Wiz) (SetRate : Nat) : Option (Int × XClk_Wiz) :=
  let lim := XClk_Wiz_limits k env
  if InstancePtr.IsReady ≠ k.XIL_COMPONENT_IS_READY then none
  else if SetRate = 0 then none
  else if lim.Mmin ≤ lim.Mmax ∧ lim.Dmin = 0 then none
  else
    let s := XClk_Wiz_CalculateDivisors_loopM k env InstancePtr.Config.PrimInClkFreq SetRate
      (lim.Mmax + 1 - lim.Mmin) lim.Mmin
      { Minerr := 1000, MVal := InstancePtr.MVal, DVal := InstancePtr.DVal,
        OVal := InstancePtr.OVal, Status := XST_FAILURE, returned := false }
    some (s.Status, { InstancePtr with MVal := s.MVal, DVal := s.DVal, OVal := s.OVal })

/-! ## xclk_wiz.c : register programming -/

/-- Register offset of the output clock `ClockId` (lines 330-334). -/
def XClk_Wiz_RegisterOffsetO (k : XClk_Wiz_Consts) (ClockId : Nat) : Nat :=
  if ClockId < 3 then u32 (k.XCLK_WIZ_REG3_OFFSET + u32 (ClockId * 8))
  else u32 (k.XCLK_WIZ_REG19_OFFSET + u32 (ClockId * 8))

/-- Embedding of `XClk_Wiz_UpdateO` (lines 317-350): the instance (its `OVal`
is capped at `XCLK_O_MAX`) and the register space after the two writes. -/
def XClk_Wiz_UpdateO (k : XClk_Wiz_Consts) (InstancePtr : XClk_Wiz) (hw : XClk_Wiz_Hw)
    (ClockId : Nat) : XClk_Wiz × XClk_Wiz_Hw :=
  let InstancePtr :=
    if InstancePtr.OVal > k.versal.Omax then { InstancePtr with OVal := k.versal.Omax }
    else InstancePtr
  let RegisterOffset := XClk_Wiz_RegisterOffsetO k ClockId
  let HighTime := InstancePtr.OVal / 4
  let Reg := Nat.lor (Nat.lor k.XCLK_WIZ_REG3_PREDIV2 k.XCLK_WIZ_REG3_USED) k.XCLK_WIZ_REG3_MX
  let DivEdge := if InstancePtr.OVal % 4 ≤ 1 then 0 else 1
  let Reg := Nat.lor Reg (u32 (DivEdge <<< 8))
  let P5fEdge := InstancePtr.OVal % 2
  let P5Enable := InstancePtr.OVal % 2
  let Reg := Nat.lor (Nat.lor Reg (u32 (P5Enable <<< k.XCLK_WIZ_CLKOUT0_P5EN_SHIFT)))
    (u32 (P5fEdge <<< k.XCLK_WIZ_CLKOUT0_P5FEDGE_SHIFT))
  let hw := XClk_Wiz_WriteReg hw InstancePtr.Config.BaseAddr RegisterOffset Reg
  let Reg := Nat.lor HighTime (u32 (HighTime <<< 8))
  let RegisterOffset := u32 (RegisterOffset + 4)
  (InstancePtr, XClk_Wiz_WriteReg hw InstancePtr.Config.BaseAddr RegisterOffset Reg)

/-- Embedding of `XClk_Wiz_UpdateD` (lines 351-366). -/
def XClk_Wiz_UpdateD (k : XClk_Wiz_Consts) (InstancePtr : XClk_Wiz) (hw : XClk_Wiz_Hw) :
    XClk_Wiz_Hw :=
  let HighTime := InstancePtr.DVal / 2
  let Reg := 0
  let Reg := Nat.land Reg (Nat.xor (2 ^ 32 - 1) (u32 (1 <<< k.XCLK_WIZ_REG12_EDGE_SHIFT)))
  let DivEdge := InstancePtr.DVal % 2
  let Reg := Nat.lor Reg (u32 (DivEdge <<< k.XCLK_WIZ_REG12_EDGE_SHIFT))
  let hw := XClk_Wiz_WriteReg hw InstancePtr.Config.BaseAddr k.XCLK_WIZ_REG12_OFFSET Reg
  let Reg := Nat.lor HighTime (u32 (HighTime <<< 8))
  XClk_Wiz_WriteReg hw InstancePtr.Config.BaseAddr k.XCLK_WIZ_REG13_OFFSET Reg

/-- Embedding of `XClk_Wiz_UpdateM` (lines 367-386). -/
def XClk_Wiz_UpdateM (k : XClk_Wiz_Consts) (InstancePtr : XClk_Wiz) (hw : XClk_Wiz_Hw) :
    XClk_Wiz_Hw :=
  let hw := XClk_Wiz_WriteReg hw InstancePtr.Config.BaseAddr k.XCLK_WIZ_REG25_OFFSET 0
  let DivEdge := InstancePtr.MVal % 2
  let HighTime := InstancePtr.MVal / 2
  let Reg := Nat.lor HighTime (u32 (HighTime <<< 8))
  let hw := XClk_Wiz_WriteReg hw InstancePtr.Config.BaseAddr k.XCLK_WIZ_REG2_OFFSET Reg
  let Reg := Nat.lor (Nat.lor k.XCLK_WIZ_REG1_PREDIV2 k.XCLK_WIZ_REG1_EN) k.XCLK_WIZ_REG1_MX
  let Reg :=
    if DivEdge ≠ 0 then Nat.lor Reg (u32 (1 <<< k.XCLK_WIZ_REG1_EDGE_SHIFT))
    else Nat.land Reg (Nat.xor (2 ^ 32 - 1) (u32 (1 <<< k.XCLK_WIZ_REG1_EDGE_SHIFT)))
  XClk_Wiz_WriteReg hw InstancePtr.Config.BaseAddr k.XCLK_WIZ_REG1_OFFSET Reg

/-- Register writes shared by `XClk_Wiz_SetRateHz` (lines 419-444) and
`XClk_Wiz_SetRate` (lines 652-674) once the dividers are known. -/
def XClk_Wiz_SetRate_program (k : XClk_Wiz_Consts) (env : XClk_Wiz_Env)
    (InstancePtr : XClk_Wiz) (hw : XClk_Wiz_Hw) : Int × XClk_Wiz × XClk_Wiz_Hw :=
  let BaseAddr := InstancePtr.Config.BaseAddr
  if ¬ env.isVersal then
    let Reg := Nat.lor (u32 (InstancePtr.MVal <<< 8)) InstancePtr.DVal
    let hw := XClk_Wiz_WriteReg hw BaseAddr k.XCLK_WIZ_ZYNQMP_REG0_OFFSET Reg
    let Reg := InstancePtr.OVal
    let hw := XClk_Wiz_WriteReg hw BaseAddr k.XCLK_WIZ_ZYNQMP_REG2_OFFSET Reg
    (XST_SUCCESS, InstancePtr, hw)
  else
    let o := XClk_Wiz_UpdateO k InstancePtr hw 0
    let hw := XClk_Wiz_UpdateD k o.1 o.2
    let hw := XClk_Wiz_UpdateM k o.1 hw
    let hw := XClk_Wiz_WriteReg hw BaseAddr k.XCLK_WIZ_REG11_OFFSET 0x2e
    let hw := XClk_Wiz_WriteReg hw BaseAddr k.XCLK_WIZ_REG14_OFFSET 0xe80
    let hw := XClk_Wiz_WriteReg hw BaseAddr k.XCLK_WIZ_REG15_OFFSET 0x4271
    let hw := XClk_Wiz_WriteReg hw BaseAddr k.XCLK_WIZ_REG16_OFFSET 0x43e9
    let hw := XClk_Wiz_WriteReg hw BaseAddr k.XCLK_WIZ_REG17_OFFSET 0x001C
    let hw := XClk_Wiz_WriteReg hw BaseAddr k.XCLK_WIZ_REG26_OFFSET 0x0001
    (XST_SUCCESS, o.1, hw)

/-- Embedding of `XClk_Wiz_SetRateHz` (lines 400-445): `none` when an assertion
fails, otherwise the status, the instance and the register space on return. -/
def XClk_Wiz_SetRateHz (k : XClk_Wiz_Consts) (env : XClk_Wiz_Env) (InstancePtr : XClk_Wiz)
    (hw : XClk_Wiz_Hw) (SetRate : Nat) : Option (Int × XClk_Wiz × XClk_Wiz_Hw) :=
  let Status : Int := XST_FAILURE
  if InstancePtr.IsReady ≠ k.XIL_COMPONENT_IS_READY then none
  else if SetRate = 0 then none
  else if InstancePtr.Config.NumClocks ≠ 1 then some (Status, InstancePtr, hw)
  else
    match XClk_Wiz_CalculateDivisorsHz k env InstancePtr SetRate with
    | none => none
    | some (Status, InstancePtr) =>
      if Status ≠ XST_SUCCESS then some (Status, InstancePtr, hw)
      else some (XClk_Wiz_SetRate_program k env InstancePtr hw)

/-- Embedding of `XClk_Wiz_SetRate` (lines 631-675). -/
def XClk_Wiz_SetRate (k : XClk_Wiz_Consts) (env : XClk_Wiz_Env) (InstancePtr : XClk_Wiz)
    (hw : XClk_Wiz_Hw) (SetRate : Nat) : Option (Int × XClk_Wiz × XClk_Wiz_Hw) :=
  let Status : Int := XST_FAILURE
  if InstancePtr.IsReady ≠ k.XIL_COMPONENT_IS_READY then none
  else if SetRate = 0 then none
  else if InstancePtr.Config.NumClocks ≠ 1 then some (Status, InstancePtr, hw)
  else
    match XClk_Wiz_CalculateDivisors k env InstancePtr SetRate with
    | none => none
    | some (Status, InstancePtr) =>
      if Status ≠ XST_SUCCESS then some (Status, InstancePtr, hw)
      else some (XClk_Wiz_SetRate_program k env InstancePtr hw)

/-- C expression `!!x`. -/
def XClk_Wiz_boolOf (x : Nat) : Nat := if x = 0 then 0 else 1

/-- Embedding of `XClk_Wiz_GetVco` (lines 447-494), build without `SDT`: the VCO
frequency recomputed from the multiplier and divider registers. -/
def XClk_Wiz_GetVco (k : XClk_Wiz_Consts) (env : XClk_Wiz_Env) (InstancePtr : XClk_Wiz)
    (hw : XClk_Wiz_Hw) : Nat :=
  let BaseAddr := InstancePtr.Config.BaseAddr
  let md : Nat × Nat :=
    if ¬ env.isVersal then
      let Reg := XClk_Wiz_ReadReg hw BaseAddr k.XCLK_WIZ_ZYNQMP_REG0_OFFSET
      let Div := Nat.land Reg k.XCLK_WIZ_REG0_DIV_MASK
      let Mult := (Nat.land Reg k.XCLK_WIZ_REG0_FBMULT_MASK) >>> k.XCLK_WIZ_REG0_FBMULT_SHIFT
      (Mult, Div)
    else
      let Reg := XClk_Wiz_ReadReg hw BaseAddr k.XCLK_WIZ_REG1_OFFSET
      let Edge := XClk_Wiz_boolOf (Nat.land Reg k.XCLK_WIZ_REG1_EDGE_MASK)
      let Reg := XClk_Wiz_ReadReg hw BaseAddr k.XCLK_WIZ_REG2_OFFSET
      let Low := Nat.land Reg k.XCLK_WIZ_CLKFBOUT_L_MASK
      let High := (Nat.land Reg k.XCLK_WIZ_CLKFBOUT_H_MASK) >>> k.XCLK_WIZ_CLKFBOUT_H_SHIFT
      let Mult := u32 (Low + High + Edge)
      let Reg := XClk_Wiz_ReadReg hw BaseAddr k.XCLK_WIZ_REG13_OFFSET
      let Low := Nat.land Reg k.XCLK_WIZ_CLKFBOUT_L_MASK
      let High := (Nat.land Reg k.XCLK_WIZ_CLKFBOUT_H_MASK) >>> k.XCLK_WIZ_CLKFBOUT_H_SHIFT
      let Reg := XClk_Wiz_ReadReg hw BaseAddr k.XCLK_WIZ_REG12_OFFSET
      let Edge := XClk_Wiz_boolOf (Nat.land Reg k.XCLK_WIZ_EDGE_MASK)
      let Div := u32 (Low + High + Edge)
      (Mult, Div)
  let Mult := if md.1 = 0 then 1 else md.1
  let Div := if md.2 = 0 then 1 else md.2
  let Fvco := u64 InstancePtr.Config.PrimInClkFreq
  u64 (u64 (Fvco * Mult) * k.XCLK_MHZ) / Div

/-- Embedding of `XClk_Wiz_SetLeafRateHz` (lines 581-617): `none` when an
assertion fails, otherwise the status, the instance and the register space on
return.  `DivO` is a 32-bit variable, so the 64-bit quotient is cut to 32 bits
when it is stored (line 602). -/
def XClk_Wiz_SetLeafRateHz (k : XClk_Wiz_Consts) (env : XClk_Wiz_Env) (InstancePtr : XClk_Wiz)
    (hw : XClk_Wiz_Hw) (ClockId SetRate : Nat) : Option (Int × XClk_Wiz × XClk_Wiz_Hw) :=
  if InstancePtr.IsReady ≠ k.XIL_COMPONENT_IS_READY then none
  else if SetRate = 0 then none
  else
    let Fvco := XClk_Wiz_GetVco k env InstancePtr hw
    if ¬ env.isVersal then
      if SetRate > Fvco then some (XST_FAILURE, InstancePtr, hw)
      else
        let RegisterOffset := u32 (k.XCLK_WIZ_ZYNQMP_REG2_OFFSET + u32 (ClockId * 12))
        let DivO := u32 (Fvco / SetRate)
        let DivO := if DivO > k.us.Omax then k.us.Omax else DivO
        let DivO := if DivO < k.us.Omin then k.us.Omin else DivO
        some (XST_SUCCESS, InstancePtr,
          XClk_Wiz_WriteReg hw InstancePtr.Config.BaseAddr RegisterOffset DivO)
    else
      let InstancePtr := { InstancePtr with OVal := u32 (Fvco / SetRate) }
      let o := XClk_Wiz_UpdateO k InstancePtr hw ClockId
      some (XST_SUCCESS, o.1, o.2)

/-- Result of `XClk_Wiz_WaitForLock`: the status, the number of register reads
and the number of `usleep(100)` calls made. -/
structure XClk_Wiz_LockResult where
  Status : Int
  reads : Nat
  sleeps : Nat
  deriving DecidableEq, Repr

/-- Loop of `XClk_Wiz_WaitForLock` (lines 785-792).  `read i` is the value
returned by the register read number `i` (from 0).  The loop condition is the C
expression `!ReadReg(..) & XCLK_WIZ_LOCK`, where `!` applies to the value read
before the mask is applied.  `fuel` bounds the iterations; `none` when it runs
out. -/
def XClk_Wiz_WaitForLock_loop (k : XClk_Wiz_Consts) (read : Nat → Nat) :
    (fuel : Nat) → (Count : Nat) → Option XClk_Wiz_LockResult
  | 0, _ => none
  | fuel + 1, Count =>
    let Reg := read Count
    let notReg := if Reg = 0 then 1 else 0
    if Nat.land notReg k.XCLK_WIZ_LOCK ≠ 0 then
      if Count = 10000 then some ⟨XST_FAILURE, Count + 1, Count⟩
      else XClk_Wiz_WaitForLock_loop k read fuel (Count + 1)
    else some ⟨XST_SUCCESS, Count + 1, Count⟩

/-- Embedding of `XClk_Wiz_WaitForLock` (lines 768-794).  `readSeq off i` is the
value of read number `i` of the register at offset `off`; the register is the
status register, or register 4 on Versal.  `none` when an assertion fails. -/
def XClk_Wiz_WaitForLock (k : XClk_Wiz_Consts) (env : XClk_Wiz_Env) (InstancePtr : XClk_Wiz)
    (readSeq : Nat → Nat → Nat) : Option XClk_Wiz_LockResult :=
  if InstancePtr.IsReady ≠ k.XIL_COMPONENT_IS_READY then none
  else
    let RegisterOffset :=
      if ¬ env.isVersal then k.XCLK_WIZ_STATUS_OFFSET else k.XCLK_WIZ_REG4_OFFSET
    XClk_Wiz_WaitForLock_loop k (readSeq RegisterOffset) 10001 0

/-! ## xclk_wiz.c : sample instances -/

/-- Sample limits of the Versal platform. -/
def XClk_Wiz_sampleVersal : XClk_Wiz_Limits where
  VcoMin := 2160
  VcoMax := 4320
  Mmin := 4
  Mmax := 432
  Dmin := 1
  Dmax := 123
  Omin := 2
  Omax := 511
  Mmax_lt := by decide
  Dmax_lt := by decide
  Omax_lt := by decide
  Omin_pos := by decide

/-- Sample limits of the other platforms. -/
def XClk_Wiz_sampleUs : XClk_Wiz_Limits where
  VcoMin := 800
  VcoMax := 1600
  Mmin := 2
  Mmax := 128
  Dmin := 1
  Dmax := 106
  Omin := 1
  Omax := 128
  Mmax_lt := by decide
  Dmax_lt := by decide
  Omax_lt := by decide
  Omin_pos := by decide

/-- Sample constants for evaluating the embedding on concrete inputs. -/
def XClk_Wiz_sampleConsts : XClk_Wiz_Consts where
  XIL_COMPONENT_IS_READY := 0x11111111
  XCLK_MHZ := 1000000
  versal := XClk_Wiz_sampleVersal
  us := XClk_Wiz_sampleUs
  XCLK_WIZ_STATUS_OFFSET := 0x4
  XCLK_WIZ_ZYNQMP_REG0_OFFSET := 0x200
  XCLK_WIZ_ZYNQMP_REG2_OFFSET := 0x208
  XCLK_WIZ_REG1_OFFSET := 0x330
  XCLK_WIZ_REG2_OFFSET := 0x334
  XCLK_WIZ_REG3_OFFSET := 0x338
  XCLK_WIZ_REG4_OFFSET := 0x33C
  XCLK_WIZ_REG11_OFFSET := 0x378
  XCLK_WIZ_REG12_OFFSET := 0x380
  XCLK_WIZ_REG13_OFFSET := 0x384
  XCLK_WIZ_REG14_OFFSET := 0x398
  XCLK_WIZ_REG15_OFFSET := 0x39C
  XCLK_WIZ_REG16_OFFSET := 0x3A0
  XCLK_WIZ_REG17_OFFSET := 0x3A8
  XCLK_WIZ_REG19_OFFSET := 0x3CC
  XCLK_WIZ_REG25_OFFSET := 0x3F0
  XCLK_WIZ_REG26_OFFSET := 0x3FC
  XCLK_WIZ_REG3_PREDIV2 := 0x800
  XCLK_WIZ_REG3_USED := 0x1000
  XCLK_WIZ_REG3_MX := 0x200
  XCLK_WIZ_CLKOUT0_P5EN_SHIFT := 13
  XCLK_WIZ_CLKOUT0_P5FEDGE_SHIFT := 15
  XCLK_WIZ_REG12_EDGE_SHIFT := 10
  XCLK_WIZ_REG1_PREDIV2 := 0x800
  XCLK_WIZ_REG1_EN := 0x1000
  XCLK_WIZ_REG1_MX := 0x200
  XCLK_WIZ_REG1_EDGE_SHIFT := 8
  XCLK_WIZ_REG0_DIV_MASK := 0xFF
  XCLK_WIZ_REG0_FBMULT_MASK := 0xFF00
  XCLK_WIZ_REG0_FBMULT_SHIFT := 8
  XCLK_WIZ_REG1_EDGE_MASK := 0x100
  XCLK_WIZ_CLKFBOUT_L_MASK := 0xFF
  XCLK_WIZ_CLKFBOUT_H_MASK := 0xFF00
  XCLK_WIZ_CLKFBOUT_H_SHIFT := 8
  XCLK_WIZ_EDGE_MASK := 0x400
  XCLK_WIZ_LOCK := 1

/-- Sample environment of a platform other than Versal. -/
def XClk_Wiz_sampleEnvUs : XClk_Wiz_Env where
  isVersal := false

/-- Sample instance: ready, one output clock, input clock of 100 MHz. -/
def XClk_Wiz_sampleInst : XClk_Wiz :=
  { Config := { BaseAddr := 0xA0000000, NumClocks := 1, PrimInClkFreq := 100 },
    MVal := 0, DVal := 0, OVal := 0, MinErr := 500000, IsReady := 0x11111111 }

/-- Sample register space: every register holds `v`, no write made yet. -/
def XClk_Wiz_sampleHw (v : Nat) : XClk_Wiz_Hw :=
  { regs := fun _ => v, writes := [] }

/-! ## xv_frmbufrd_l2.c : data model -/

/-- Colour formats (`XVidC_ColorFormat`) named in xv_frmbufrd_l2.c: the stream
formats, the memory formats, the value `(XVidC_ColorFormat)~0` returned by
`RdMemory2Live` for an unknown memory format, and `other` for every enumerator
the file does not name. -/
inductive XVidC_ColorFormat where
  | XVIDC_CSF_RGB
  | XVIDC_CSF_YCRCB_444
  | XVIDC_CSF_YCRCB_422
  | XVIDC_CSF_YCRCB_420
  | XVIDC_CSF_RGBA
  | XVIDC_CSF_YCRCBA_444
  | XVIDC_CSF_YONLY
  | XVIDC_CSF_MEM_RGBX8
  | XVIDC_CSF_MEM_YUVX8
  | XVIDC_CSF_MEM_YUYV8
  | XVIDC_CSF_MEM_RGBA8
  | XVIDC_CSF_MEM_YUVA8
  | XVIDC_CSF_MEM_RGBX10
  | XVIDC_CSF_MEM_YUVX10
  | XVIDC_CSF_MEM_Y_UV8
  | XVIDC_CSF_MEM_Y_UV8_420
  | XVIDC_CSF_MEM_RGB8
  | XVIDC_CSF_MEM_YUV8
  | XVIDC_CSF_MEM_Y_UV10
  | XVIDC_CSF_MEM_Y_UV10_420
  | XVIDC_CSF_MEM_Y8
  | XVIDC_CSF_MEM_Y10
  | XVIDC_CSF_MEM_BGRA8
  | XVIDC_CSF_MEM_BGRX8
  | XVIDC_CSF_MEM_UYVY8
  | XVIDC_CSF_MEM_BGR8
  | XVIDC_CSF_MEM_RGBX12
  | XVIDC_CSF_MEM_YUVX12
  | XVIDC_CSF_MEM_Y_UV12
  | XVIDC_CSF_MEM_Y_UV12_420
  | XVIDC_CSF_MEM_Y12
  | XVIDC_CSF_MEM_RGB16
  | XVIDC_CSF_MEM_YUV16
  | XVIDC_CSF_MEM_Y_UV16
  | XVIDC_CSF_MEM_Y_UV16_420
  | XVIDC_CSF_MEM_Y16
  | XVIDC_CSF_MEM_Y_U_V8
  | XVIDC_CSF_MEM_Y_U_V10
  | XVIDC_CSF_MEM_Y_U_V8_420
  | XVIDC_CSF_MEM_Y_U_V12
  | allOnes
  | other (n : Nat)
  deriving DecidableEq, Repr

/-- Embedding of `RdMemory2Live` (lines 67-176). -/
def RdMemory2Live : XVidC_ColorFormat → XVidC_ColorFormat
  | .XVIDC_CSF_MEM_RGBX8 => .XVIDC_CSF_RGB
  | .XVIDC_CSF_MEM_YUVX8 => .XVIDC_CSF_YCRCB_444
  | .XVIDC_CSF_MEM_YUYV8 => .XVIDC_CSF_YCRCB_422
  | .XVIDC_CSF_MEM_RGBA8 => .XVIDC_CSF_RGBA
  | .XVIDC_CSF_MEM_YUVA8 => .XVIDC_CSF_YCRCBA_444
  | .XVIDC_CSF_MEM_RGBX10 => .XVIDC_CSF_RGB
  | .XVIDC_CSF_MEM_YUVX10 => .XVIDC_CSF_YCRCB_444
  | .XVIDC_CSF_MEM_Y_UV8 => .XVIDC_CSF_YCRCB_422
  | .XVIDC_CSF_MEM_Y_UV8_420 => .XVIDC_CSF_YCRCB_420
  | .XVIDC_CSF_MEM_RGB8 => .XVIDC_CSF_RGB
  | .XVIDC_CSF_MEM_YUV8 => .XVIDC_CSF_YCRCB_444
  | .XVIDC_CSF_MEM_Y_UV10 => .XVIDC_CSF_YCRCB_422
  | .XVIDC_CSF_MEM_Y_UV10_420 => .XVIDC_CSF_YCRCB_420
  | .XVIDC_CSF_MEM_Y8 => .XVIDC_CSF_YONLY
  | .XVIDC_CSF_MEM_Y10 => .XVIDC_CSF_YONLY
  | .XVIDC_CSF_MEM_BGRA8 => .XVIDC_CSF_RGBA
  | .XVIDC_CSF_MEM_BGRX8 => .XVIDC_CSF_RGB
  | .XVIDC_CSF_MEM_UYVY8 => .XVIDC_CSF_YCRCB_422
  | .XVIDC_CSF_MEM_BGR8 => .XVIDC_CSF_RGB
  | .XVIDC_CSF_MEM_RGBX12 => .XVIDC_CSF_RGB
  | .XVIDC_CSF_MEM_YUVX12 => .XVIDC_CSF_YCRCB_444
  | .XVIDC_CSF_MEM_Y_UV12 => .XVIDC_CSF_YCRCB_422
  | .XVIDC_CSF_MEM_Y_UV12_420 => .XVIDC_CSF_YCRCB_420
  | .XVIDC_CSF_MEM_Y12 => .XVIDC_CSF_YONLY
  | .XVIDC_CSF_MEM_RGB16 => .XVIDC_CSF_RGB
  | .XVIDC_CSF_MEM_YUV16 => .XVIDC_CSF_YCRCB_444
  | .XVIDC_CSF_MEM_Y_UV16 => .XVIDC_CSF_YCRCB_422
  | .XVIDC_CSF_MEM_Y_UV16_420 => .XVIDC_CSF_YCRCB_420
  | .XVIDC_CSF_MEM_Y16 => .XVIDC_CSF_YONLY
  | .XVIDC_CSF_MEM_Y_U_V8 => .XVIDC_CSF_YCRCB_444
  | .XVIDC_CSF_MEM_Y_U_V10 => .XVIDC_CSF_YCRCB_444
  | .XVIDC_CSF_MEM_Y_U_V8_420 => .XVIDC_CSF_YCRCB_420
  | .XVIDC_CSF_MEM_Y_U_V12 => .XVIDC_CSF_YCRCB_444
  | _ => .allOnes

/-- Hardware configuration of the core (`XV_frmbufrd_Config`), the fields read
through `InstancePtr->FrmbufRd.Config`: samples per clock and one enable word
per memory format, laid out as in the configuration of the write core
(xv_frmbufwr.h lines 46-96). -/
structure XV_frmbufrd_Config where
  PixPerClk : Nat
  RGBX8En : Nat
  YUVX8En : Nat
  YUYV8En : Nat
  RGBA8En : Nat
  YUVA8En : Nat
  RGBX10En : Nat
  YUVX10En : Nat
  Y_UV8En : Nat
  Y_UV8_420En : Nat
  RGB8En : Nat
  YUV8En : Nat
  Y_UV10En : Nat
  Y_UV10_420En : Nat
  Y8En : Nat
  Y10En : Nat
  BGRA8En : Nat
  BGRX8En : Nat
  UYVY8En : Nat
  BGR8En : Nat
  RGBX12En : Nat
  YUVX12En : Nat
  Y_UV12En : Nat
  Y_UV12_420En : Nat
  Y12En : Nat
  RGB16En : Nat
  YUV16En : Nat
  Y_UV16En : Nat
  Y_UV16_420En : Nat
  Y16En : Nat
  Y_U_V8En : Nat
  Y_U_V10En : Nat
  Y_U_V8_420En : Nat
  Y_U_V12En : Nat
  deriving DecidableEq, Repr

/-- Video timing, the fields used here. -/
structure XVidC_VideoTiming where
  HActive : Nat
  VActive : Nat
  deriving DecidableEq, Repr

/-- Video stream (`XVidC_VideoStream`), the fields used here. -/
structure XVidC_VideoStream where
  ColorFormatId : XVidC_ColorFormat
  Timing : XVidC_VideoTiming
  deriving DecidableEq, Repr

/-- Registers of the core written by `XVFrmbufRd_SetMemFormat`; `none` while a
register has not been written. -/
structure XV_frmbufrd_Regs where
  HwReg_width : Option Nat
  HwReg_height : Option Nat
  HwReg_stride : Option Nat
  HwReg_video_format : Option XVidC_ColorFormat
  deriving DecidableEq, Repr

/-- Layer 2 driver instance (`XV_FrmbufRd_l2`): configuration, registers of the
core, and the stream stored in the instance. -/
structure XV_FrmbufRd_l2 where
  Config : XV_frmbufrd_Config
  Regs : XV_frmbufrd_Regs
  Stream : XVidC_VideoStream
  deriving DecidableEq, Repr

/-- Error codes of xv_frmbufrd_l2.h used by `XVFrmbufRd_SetMemFormat` (header
outside the sources). -/
structure XVFrmbufRd_ErrorCodes where
  XVFRMBUFRD_ERR_FRAME_SIZE_INVALID : Int
  XVFRMBUFRD_ERR_STRIDE_MISALIGNED : Int
  XVFRMBUFRD_ERR_VIDEO_FORMAT_MISMATCH : Int
  XVFRMBUFRD_ERR_DISABLED_IN_HW : Int
  deriving DecidableEq, Repr

/-! ## xv_frmbufrd_l2.c : functions -/

/-- Switch of `XVFrmbufRd_SetMemFormat` (lines 433-602): the value of `FmtValid`.
Each `XVFrmbufRd_Is...Enabled(InstancePtr)` test reads the enable word of the
format in the hardware configuration. -/
def XVFrmbufRd_SetMemFormat_FmtValid (Config : XV_frmbufrd_Config) :
    XVidC_ColorFormat → Bool
  | .XVIDC_CSF_MEM_RGBX8 => decide (Config.RGBX8En ≠ 0)
  | .XVIDC_CSF_MEM_YUVX8 => decide (Config.YUVX8En ≠ 0)
  | .XVIDC_CSF_MEM_YUYV8 => decide (Config.YUYV8En ≠ 0)
  | .XVIDC_CSF_MEM_RGBA8 => decide (Config.RGBA8En ≠ 0)
  | .XVIDC_CSF_MEM_YUVA8 => decide (Config.YUVA8En ≠ 0)
  | .XVIDC_CSF_MEM_RGBX10 => decide (Config.RGBX10En ≠ 0)
  | .XVIDC_CSF_MEM_YUVX10 => decide (Config.YUVX10En ≠ 0)
  | .XVIDC_CSF_MEM_Y_UV8 => decide (Config.Y_UV8En ≠ 0)
  | .XVIDC_CSF_MEM_Y_UV8_420 => decide (Config.Y_UV8_420En ≠ 0)
  | .XVIDC_CSF_MEM_RGB8 => decide (Config.RGB8En ≠ 0)
  | .XVIDC_CSF_MEM_YUV8 => decide (Config.YUV8En ≠ 0)
  | .XVIDC_CSF_MEM_Y_UV10 => decide (Config.Y_UV10En ≠ 0)
  | .XVIDC_CSF_MEM_Y_UV10_420 => decide (Config.Y_UV10_420En ≠ 0)
  | .XVIDC_CSF_MEM_Y8 => decide (Config.Y8En ≠ 0)
  | .XVIDC_CSF_MEM_Y10 => decide (Config.Y10En ≠ 0)
  | .XVIDC_CSF_MEM_BGRA8 => decide (Config.BGRA8En ≠ 0)
  | .XVIDC_CSF_MEM_BGRX8 => decide (Config.BGRX8En ≠ 0)
  | .XVIDC_CSF_MEM_UYVY8 => decide (Config.UYVY8En ≠ 0)
  | .XVIDC_CSF_MEM_BGR8 => decide (Config.BGR8En ≠ 0)
  | .XVIDC_CSF_MEM_RGBX12 => decide (Config.RGBX12En ≠ 0)
  | .XVIDC_CSF_MEM_RGB16 => decide (Config.RGB16En ≠ 0)
  | .XVIDC_CSF_MEM_YUVX12 => decide (Config.YUVX12En ≠ 0)
  | .XVIDC_CSF_MEM_YUV16 => decide (Config.YUV16En ≠ 0)
  | .XVIDC_CSF_MEM_Y_UV12 => decide (Config.Y_UV12En ≠ 0)
  | .XVIDC_CSF_MEM_Y_UV16 => decide (Config.Y_UV16En ≠ 0)
  | .XVIDC_CSF_MEM_Y_UV12_420 => decide (Config.Y_UV12_420En ≠ 0)
  | .XVIDC_CSF_MEM_Y_UV16_420 => decide (Config.Y_UV16_420En ≠ 0)
  | .XVIDC_CSF_MEM_Y12 => decide (Config.Y12En ≠ 0)
  | .XVIDC_CSF_MEM_Y16 => decide (Config.Y16En ≠ 0)
  | .XVIDC_CSF_MEM_Y_U_V8 => decide (Config.Y_U_V8En ≠ 0)
  | .XVIDC_CSF_MEM_Y_U_V10 => decide (Config.Y_U_V10En ≠ 0)
  | .XVIDC_CSF_MEM_Y_U_V8_420 => decide (Config.Y_U_V8_420En ≠ 0)
  | .XVIDC_CSF_MEM_Y_U_V12 => decide (Config.Y_U_V12En ≠ 0)
  | _ => false

/-- Embedding of `XVFrmbufRd_SetMemFormat` (lines 392-617): `none` when
`PixPerClk` is zero (the remainder of line 407 is then undefined) or when the
assertion on the width fails (line 407), otherwise the status and the instance
on return.  The stream is copied into the instance first (line 405). -/
def XVFrmbufRd_SetMemFormat (e : XVFrmbufRd_ErrorCodes) (InstancePtr : XV_FrmbufRd_l2)
    (StrideInBytes : Nat) (MemFmt : XVidC_ColorFormat) (StrmOut : XVidC_VideoStream) :
    Option (Int × XV_FrmbufRd_l2) :=
  let InstancePtr := { InstancePtr with Stream := StrmOut }
  let PixPerClk := InstancePtr.Config.PixPerClk
  if PixPerClk = 0 then none
  else if StrmOut.Timing.HActive % PixPerClk ≠ 0 then none
  else if (RdMemory2Live MemFmt = .XVIDC_CSF_YCRCB_422 ∨
      RdMemory2Live MemFmt = .XVIDC_CSF_YCRCB_420) ∧ StrmOut.Timing.HActive % 2 ≠ 0 then
    some (e.XVFRMBUFRD_ERR_FRAME_SIZE_INVALID, InstancePtr)
  else if RdMemory2Live MemFmt = .XVIDC_CSF_YCRCB_420 ∧ StrmOut.Timing.VActive % 2 ≠ 0 then
    some (e.XVFRMBUFRD_ERR_FRAME_SIZE_INVALID, InstancePtr)
  else if StrideInBytes % (2 * PixPerClk * 4) ≠ 0 then
    some (e.XVFRMBUFRD_ERR_STRIDE_MISALIGNED, InstancePtr)
  else if StrmOut.ColorFormatId ≠ RdMemory2Live MemFmt then
    some (e.XVFRMBUFRD_ERR_VIDEO_FORMAT_MISMATCH, InstancePtr)
  else if XVFrmbufRd_SetMemFormat_FmtValid InstancePtr.Config MemFmt = true then
    some (XST_SUCCESS,
      { InstancePtr with
        Regs :=
          { HwReg_width := some StrmOut.Timing.HActive,
            HwReg_height := some StrmOut.Timing.VActive,
            HwReg_stride := some StrideInBytes,
            HwReg_video_format := some MemFmt } })
  else
    some (e.XVFRMBUFRD_ERR_DISABLED_IN_HW, InstancePtr)

/-! ## xv_frmbufrd_l2.c : sample instances -/

/-- Sample error codes. -/
def XVFrmbufRd_sampleErrorCodes : XVFrmbufRd_ErrorCodes :=
  { XVFRMBUFRD_ERR_FRAME_SIZE_INVALID := 1, XVFRMBUFRD_ERR_STRIDE_MISALIGNED := 2,
    XVFRMBUFRD_ERR_VIDEO_FORMAT_MISMATCH := 4, XVFRMBUFRD_ERR_DISABLED_IN_HW := 5 }

/-- Sample configuration: two samples per clock, every memory format enabled. -/
def XVFrmbufRd_sampleConfig : XV_frmbufrd_Config :=
  { PixPerClk := 2,
    RGBX8En := 1, YUVX8En := 1, YUYV8En := 1, RGBA8En := 1, YUVA8En := 1, RGBX10En := 1,
    YUVX10En := 1, Y_UV8En := 1, Y_UV8_420En := 1, RGB8En := 1, YUV8En := 1, Y_UV10En := 1,
    Y_UV10_420En := 1, Y8En := 1, Y10En := 1, BGRA8En := 1, BGRX8En := 1, UYVY8En := 1,
    BGR8En := 1, RGBX12En := 1, YUVX12En := 1, Y_UV12En := 1, Y_UV12_420En := 1, Y12En := 1,
    RGB16En := 1, YUV16En := 1, Y_UV16En := 1, Y_UV16_420En := 1, Y16En := 1, Y_U_V8En := 1,
    Y_U_V10En := 1, Y_U_V8_420En := 1, Y_U_V12En := 1 }

/-- Sample instance with no register written yet. -/
def XVFrmbufRd_sampleInst : XV_FrmbufRd_l2 :=
  { Config := XVFrmbufRd_sampleConfig,
    Regs := { HwReg_width := none, HwReg_height := none, HwReg_stride := none,
              HwReg_video_format := none },
    Stream := { ColorFormatId := .XVIDC_CSF_RGB, Timing := { HActive := 0, VActive := 0 } } }

/-- Sample instance whose hardware configuration has the format Y_UV8_420
disabled. -/
def XVFrmbufRd_sampleInstNoY_UV8_420 : XV_FrmbufRd_l2 :=
  { XVFrmbufRd_sampleInst with
    Config := { XVFrmbufRd_sampleConfig with Y_UV8_420En := 0 } }

/-! ## Notions used to state the properties -/

/-- Kind and partition number of a step, without its status. -/
def XLoader_Step.key (s : XLoader_Step) : Bool × Nat := (s.isValidation, s.PrtnNum)

/-- The order in which `n` partitions starting at partition `p` are handled one
by one: validation of `p`, processing of `p`, validation of `p + 1`, and so
on.  `true` marks a validation. -/
def XLoader_stepOrder : (n : Nat) → (p : Nat) → List (Bool × Nat)
  | 0, _ => []
  | n + 1, p => (true, p) :: (false, p) :: XLoader_stepOrder n (p + 1)

/-- Address test of `XLoader_GetLoadAddr` for the destinations R5_0 and R5_1
(lines 790-794 and 804-808): the address lies below the end of the TCM-A load
window, or inside the TCM-B load window. -/
def XLoader_inTcmWindow (c : XLoader_Consts) (Address : Nat) : Prop :=
  Address < u32 (c.XLOADER_R5_TCMA_LOAD_ADDRESS + c.XLOADER_R5_TCM_BANK_LENGTH) ∨
  (c.XLOADER_R5_TCMB_LOAD_ADDRESS ≤ Address ∧
    Address < u32 (c.XLOADER_R5_TCMB_LOAD_ADDRESS + c.XLOADER_R5_TCM_BANK_LENGTH))

/-- A CPU is recorded in the handoff table when one of the first
`NoOfHandoffCpus` entries carries it in the CPU field of its settings. -/
def XLoader_cpuRecorded (c : XLoader_Consts) (PdiPtr : XilPdi) (DstnCpu : Nat) : Prop :=
  ∃ i, i < PdiPtr.NoOfHandoffCpus ∧
    Nat.land (PdiPtr.HandoffParam i).CpuSettings c.XIH_PH_ATTRB_DSTN_CPU_MASK = DstnCpu

/-- Memory formats with their support word in the hardware configuration: the
configuration structure has one word per memory format, documented as the
support of that format (in the layout of xv_frmbufwr.h, lines 57-89). -/
def XVFrmbufRd_supportWords (Config : XV_frmbufrd_Config) : List (XVidC_ColorFormat × Nat) :=
  [(.XVIDC_CSF_MEM_RGBX8, Config.RGBX8En),
   (.XVIDC_CSF_MEM_YUVX8, Config.YUVX8En),
   (.XVIDC_CSF_MEM_YUYV8, Config.YUYV8En),
   (.XVIDC_CSF_MEM_RGBA8, Config.RGBA8En),
   (.XVIDC_CSF_MEM_YUVA8, Config.YUVA8En),
   (.XVIDC_CSF_MEM_BGRA8, Config.BGRA8En),
   (.XVIDC_CSF_MEM_RGBX10, Config.RGBX10En),
   (.XVIDC_CSF_MEM_YUVX10, Config.YUVX10En),
   (.XVIDC_CSF_MEM_Y_UV8, Config.Y_UV8En),
   (.XVIDC_CSF_MEM_Y_UV8_420, Config.Y_UV8_420En),
   (.XVIDC_CSF_MEM_RGB8, Config.RGB8En),
   (.XVIDC_CSF_MEM_YUV8, Config.YUV8En),
   (.XVIDC_CSF_MEM_Y_UV10, Config.Y_UV10En),
   (.XVIDC_CSF_MEM_Y_UV10_420, Config.Y_UV10_420En),
   (.XVIDC_CSF_MEM_Y8, Config.Y8En),
   (.XVIDC_CSF_MEM_Y10, Config.Y10En),
   (.XVIDC_CSF_MEM_BGRX8, Config.BGRX8En),
   (.XVIDC_CSF_MEM_UYVY8, Config.UYVY8En),
   (.XVIDC_CSF_MEM_BGR8, Config.BGR8En),
   (.XVIDC_CSF_MEM_RGBX12, Config.RGBX12En),
   (.XVIDC_CSF_MEM_RGB16, Config.RGB16En),
   (.XVIDC_CSF_MEM_YUVX12, Config.YUVX12En),
   (.XVIDC_CSF_MEM_Y_UV12, Config.Y_UV12En),
   (.XVIDC_CSF_MEM_Y_UV12_420, Config.Y_UV12_420En),
   (.XVIDC_CSF_MEM_Y12, Config.Y12En),
   (.XVIDC_CSF_MEM_YUV16, Config.YUV16En),
   (.XVIDC_CSF_MEM_Y_UV16, Config.Y_UV16En),
   (.XVIDC_CSF_MEM_Y_UV16_420, Config.Y_UV16_420En),
   (.XVIDC_CSF_MEM_Y16, Config.Y16En),
   (.XVIDC_CSF_MEM_Y_U_V8, Config.Y_U_V8En),
   (.XVIDC_CSF_MEM_Y_U_V10, Config.Y_U_V10En),
   (.XVIDC_CSF_MEM_Y_U_V8_420, Config.Y_U_V8_420En),
   (.XVIDC_CSF_MEM_Y_U_V12, Config.Y_U_V12En)]

/-- A memory format is enabled in the hardware configuration when the
configuration has a support word for it and that word is not zero. -/
def XVFrmbufRd_enabledInHw (Config : XV_frmbufrd_Config) (MemFmt : XVidC_ColorFormat) : Prop :=
  ∃ p ∈ XVFrmbufRd_supportWords Config, p.1 = MemFmt ∧ p.2 ≠ 0

/-- Clamp of a quotient into the divider range `[XCLK_US_O_MIN, XCLK_US_O_MAX]`
in the order the driver applies the two limits (lines 603-608). -/
def XClk_Wiz_clampUs (k : XClk_Wiz_Consts) (q : Nat) : Nat :=
  let q := if q > k.us.Omax then k.us.Omax else q
  if q < k.us.Omin then k.us.Omin else q

/-! ## xv_frmbufrd_l2.c : frame buffer addresses -/

/-- Frame buffer address registers of the core with the value written to them:
the luma or packed plane (`frm_buffer_V`), the chroma plane (`frm_buffer2_V`)
and the V plane of three-planar formats (`frm_buffer3_V`). -/
inductive XV_frmbufrd_BufWrite where
  | HwReg_frm_buffer_V (Data : Nat)
  | HwReg_frm_buffer2_V (Data : Nat)
  | HwReg_frm_buffer3_V (Data : Nat)
  deriving DecidableEq, Repr

/-- Embedding of `XVFrmbufRd_SetBufferAddr` (lines 645-667): `none` when the
assertion `Addr != 0` fails or when `Align` is zero (the remainder of line 656
is then undefined), otherwise the status and the register writes made.
`XVFRMBUFRD_ERR_MEM_ADDR_MISALIGNED` is an error code of xv_frmbufrd_l2.h, a
header outside the sources. -/
def XVFrmbufRd_SetBufferAddr (XVFRMBUFRD_ERR_MEM_ADDR_MISALIGNED : Int)
    (InstancePtr : XV_FrmbufRd_l2) (Addr : Nat) : Option (Int × List XV_frmbufrd_BufWrite) :=
  let Status : Int := XST_FAILURE
  if Addr = 0 then none
  else
    let Align := 2 * InstancePtr.Config.PixPerClk * 4
    if Align = 0 then none
    else
      let v : Bool × Int :=
        if Addr % Align ≠ 0 then (false, XVFRMBUFRD_ERR_MEM_ADDR_MISALIGNED) else (true, Status)
      if v.1 then some (XST_SUCCESS, [.HwReg_frm_buffer_V Addr])
      else some (v.2, [])

/-- Embedding of `XVFrmbufRd_SetVChromaBufferAddr` (lines 700-721). -/
def XVFrmbufRd_SetVChromaBufferAddr (XVFRMBUFRD_ERR_MEM_ADDR_MISALIGNED : Int)
    (InstancePtr : XV_FrmbufRd_l2) (Addr : Nat) : Option (Int × List XV_frmbufrd_BufWrite) :=
  let Status : Int := XST_FAILURE
  if Addr = 0 then none
  else
    let Align := 2 * InstancePtr.Config.PixPerClk * 4
    if Align = 0 then none
    else
      let v : Bool × Int :=
        if Addr % Align ≠ 0 then (false, XVFRMBUFRD_ERR_MEM_ADDR_MISALIGNED) else (true, Status)
      if v.1 then some (XST_SUCCESS, [.HwReg_frm_buffer3_V Addr])
      else some (v.2, [])

/-- Embedding of `XVFrmbufRd_SetChromaBufferAddr` (lines 754-777). -/
def XVFrmbufRd_SetChromaBufferAddr (XVFRMBUFRD_ERR_MEM_ADDR_MISALIGNED : Int)
    (InstancePtr : XV_FrmbufRd_l2) (Addr : Nat) : Option (Int × List XV_frmbufrd_BufWrite) :=
  let Status : Int := XST_FAILURE
  if Addr = 0 then none
  else
    let Align := 2 * InstancePtr.Config.PixPerClk * 4
    if Align = 0 then none
    else
      let v : Bool × Int :=
        if Addr % Align ≠ 0 then (false, XVFRMBUFRD_ERR_MEM_ADDR_MISALIGNED) else (true, Status)
      if v.1 then some (XST_SUCCESS, [.HwReg_frm_buffer2_V Addr])
      else some (v.2, [])

/-- Sample value of the error code for a misaligned address. -/
def XVFrmbufRd_sampleErrMemAddrMisaligned : Int := 3

/-- A buffer address function accepts exactly the aligned addresses: it returns;
it returns `XST_SUCCESS` and writes `Addr` to its register `reg` if and only if
`Addr` is a multiple of `Align`; the write itself happens if and only if `Addr`
is a multiple of `Align`, and otherwise no register is written; the status
`XST_SUCCESS` alone also marks the aligned addresses as long as the error code
`err` of the misaligned case is not `XST_SUCCESS`. -/
def XVFrmbufRd_acceptsAligned (err : Int) (result : Option (Int × List XV_frmbufrd_BufWrite))
    (reg : Nat → XV_frmbufrd_BufWrite) (Align Addr : Nat) : Prop :=
  ∃ Status writes, result = some (Status, writes) ∧
    ((Status = XST_SUCCESS ∧ writes = [reg Addr]) ↔ Align ∣ Addr) ∧
    (writes = [reg Addr] ↔ Align ∣ Addr) ∧
    (¬ Align ∣ Addr → writes = []) ∧
    (err ≠ XST_SUCCESS → (Status = XST_SUCCESS ↔ Align ∣ Addr))

/-! ## xloader_prtn_load.c : CDO partitions -/

/-- Further constants of xloader.h and the xplmi headers used by
`XLoader_ProcessCdo` (headers outside the sources). -/
structure XLoader_CdoConsts where
  XLOADER_SECURE_CHUNK_SIZE : Nat
  XLOADER_PDI_VERSION_1 : Nat
  XLOADER_PDI_VERSION_2 : Nat
  XPLMI_LOADER_CHUNK_MEMORY_1 : Nat
  XPLMI_WORD_LEN : Nat
  XLOADER_DEVICE_COPY_STATE_BLK : Nat
  XLOADER_DEVICE_COPY_STATE_INITIATE : Nat
  XLOADER_DEVICE_COPY_STATE_WAIT_DONE : Nat
  XLOADER_SSIT_MASTER_SLR : Nat
  XLOADER_ERR_DEFERRED_CDO_PROCESS : Nat
  XLOADER_SUCCESS : Int

/-- Fields of the PDI instance that only `XLoader_ProcessCdo` reads, next to the
instance itself. -/
structure XilPdi_Cdo where
  Pdi : XilPdi
  CurImgId : Nat
  IpiMask : Nat
  SlrType : Nat

/-- Security parameters as `XLoader_ProcessCdo` uses them: the fields of
`XLoader_SecureParams` and the chunk data of the security library. -/
structure XLoader_SecureParams_Cdo extends XLoader_SecureParams where
  IsNextChunkCopyStarted : Bool
  SecureData : Nat
  SecureDataLen : Nat
  deriving DecidableEq, Repr

/-- Key hole parameters of a CDO command (`Cdo.Cmd.KeyHoleParams`); `PdiSrc` is
`none` while it has not been set. -/
structure XPlmi_KeyHoleParams where
  PdiSrc : Option PdiSrc_t
  SrcAddr : Nat
  Func : XLoader_CopyFn
  InChunkCopy : Bool
  ExtraWords : Nat
  deriving DecidableEq, Repr

/-- CDO instance (`XPlmiCdo`), the fields used by `XLoader_ProcessCdo`. -/
structure XPlmiCdo where
  BufPtr : Nat
  BufLen : Nat
  ImgId : Nat
  PrtnId : Nat
  IpiMask : Nat
  KeyHoleParams : XPlmi_KeyHoleParams
  DeferredError : Bool
  deriving DecidableEq, Repr

/-- Calls made by `XLoader_ProcessCdo` to code outside the file. -/
inductive XLoader_CdoCall where
  | XPlmi_InitCdo
  | DeviceCopy (fn : XLoader_CopyFn) (SrcAddr DestAddr Len Flags : Nat)
  | XLoader_ProcessSecurePrtn (SecureParams : XLoader_SecureParams_Cdo) (ChunkLen : Nat)
      (LastChunk : Bool)
  | XLoader_StartNextChunkCopy (SecureParams : XLoader_SecureParams_Cdo) (Len ChunkLen : Nat)
  | XPlmi_ProcessCdo (Cdo : XPlmiCdo)
  deriving DecidableEq, Repr

/-- Functions called by `XLoader_ProcessCdo` whose code is outside the sources.
`status` is the status of a call and may depend on the calls made before;
`secureOut` is the value of `SecureParams` left by a call of the security
library, `cdoOut` the CDO instance left by `XPlmi_ProcessCdo`, `initCdo` the one
left by `XPlmi_InitCdo`. -/
structure XLoader_CdoEnv where
  initCdo : XPlmiCdo
  status : List XLoader_CdoCall → XLoader_CdoCall → Int
  secureOut : List XLoader_CdoCall → XLoader_CdoCall → XLoader_SecureParams_Cdo
  cdoOut : List XLoader_CdoCall → XPlmiCdo → XPlmiCdo
  XPlmi_UpdateStatus : Nat → Int → Int

/-- Chunk length and the flag `Is32kChunk` chosen at lines 474-485. -/
def XLoader_ProcessCdo_chunking (c : XLoader_Consts) (k : XLoader_CdoConsts) (PdiVer : Nat)
    (DeviceCopy : XLoader_DeviceCopy) (SecureParams : XLoader_SecureParams_Cdo) : Nat × Bool :=
  if DeviceCopy.IsDoubleBuffering = true then
    (c.XLOADER_CHUNK_SIZE / 2, false)
  else if SecureParams.SecureEn = true ∧ PdiVer ≠ k.XLOADER_PDI_VERSION_1 ∧
      PdiVer ≠ k.XLOADER_PDI_VERSION_2 then
    (k.XLOADER_SECURE_CHUNK_SIZE, true)
  else
    (c.XLOADER_CHUNK_SIZE, false)

/-- Security parameters after lines 487-496: the double buffering flag is set
under the test of line 491, then `IsCdo` is set. -/
def XLoader_ProcessCdo_secureSetup (c : XLoader_Consts) (k : XLoader_CdoConsts) (PdiVer : Nat)
    (DeviceCopy : XLoader_DeviceCopy) (SecureParams : XLoader_SecureParams_Cdo) :
    XLoader_SecureParams_Cdo :=
  let ch := XLoader_ProcessCdo_chunking c k PdiVer DeviceCopy SecureParams
  let ChunkLen := ch.1
  let Is32kChunk := ch.2
  let SecureParams :=
    if DeviceCopy.IsDoubleBuffering = true ∧ Is32kChunk = true ∧
        u32 (ChunkLen * 2) ≤ c.XLOADER_CHUNK_SIZE then
      { SecureParams with IsDoubleBuffering := true }
    else SecureParams
  { SecureParams with IsCdo := true }

/-- Variables of the chunk loop of `XLoader_ProcessCdo`. -/
structure XLoader_CdoState where
  DeviceCopy : XLoader_DeviceCopy
  SecureParams : XLoader_SecureParams_Cdo
  Cdo : XPlmiCdo
  ChunkLen : Nat
  ChunkAddr : Nat
  LastChunk : Bool
  IsNextChunkCopyStarted : Bool
  trace : List XLoader_CdoCall

/-- One call leaving the file from the chunk loop: status and extended trace. -/
def XLoader_CdoEnv.call (env : XLoader_CdoEnv) (tr : List XLoader_CdoCall)
    (cl : XLoader_CdoCall) : Int × List XLoader_CdoCall :=
  (env.status tr cl, tr ++ [cl])

/-- Copy of one chunk without security (lines 505-571): the chunk is copied to
the chunk memory, the key hole parameters are filled in, and with double
buffering the copy of the next chunk is initiated.  The statuses of the device
copies are discarded by the C code. -/
def XLoader_ProcessCdo_plainChunk (c : XLoader_Consts) (k : XLoader_CdoConsts)
    (env : XLoader_CdoEnv) (PdiPtr : XilPdi_Cdo) (s : XLoader_CdoState) : XLoader_CdoState :=
  let Flags :=
    if s.IsNextChunkCopyStarted = true then
      Nat.lor s.DeviceCopy.Flags k.XLOADER_DEVICE_COPY_STATE_WAIT_DONE
    else Nat.lor s.DeviceCopy.Flags k.XLOADER_DEVICE_COPY_STATE_BLK
  let tr := (env.call s.trace
    (.DeviceCopy PdiPtr.Pdi.DeviceCopy s.DeviceCopy.SrcAddr s.ChunkAddr s.ChunkLen Flags)).2
  let Cdo : XPlmiCdo :=
    { s.Cdo with BufPtr := s.ChunkAddr, BufLen := s.ChunkLen / c.XIH_PRTN_WORD_LEN }
  let DeviceCopy : XLoader_DeviceCopy :=
    { s.DeviceCopy with
      SrcAddr := u64 (s.DeviceCopy.SrcAddr + s.ChunkLen),
      Len := u32sub s.DeviceCopy.Len s.ChunkLen }
  let src := PdiPtr.Pdi.PdiSrc
  let KeyHole : XPlmi_KeyHoleParams :=
    if src = .XLOADER_PDI_SRC_QSPI24 ∨ src = .XLOADER_PDI_SRC_QSPI32 ∨
        src = .XLOADER_PDI_SRC_OSPI ∨ src = .XLOADER_PDI_SRC_SMAP ∨
        src = .XLOADER_PDI_SRC_JTAG ∨ src = .XLOADER_PDI_SRC_SBI then
      { Cdo.KeyHoleParams with
        PdiSrc := some src, SrcAddr := DeviceCopy.SrcAddr, Func := PdiPtr.Pdi.DeviceCopy }
    else if src = .XLOADER_PDI_SRC_DDR then
      { Cdo.KeyHoleParams with PdiSrc := some src, SrcAddr := DeviceCopy.SrcAddr }
    else Cdo.KeyHoleParams
  let KeyHole : XPlmi_KeyHoleParams :=
    if src = .XLOADER_PDI_SRC_QSPI24 ∨ src = .XLOADER_PDI_SRC_QSPI32 ∨
        src = .XLOADER_PDI_SRC_OSPI ∨ PdiPtr.SlrType = k.XLOADER_SSIT_MASTER_SLR then
      { KeyHole with InChunkCopy := true }
    else KeyHole
  let Cdo : XPlmiCdo := { Cdo with KeyHoleParams := KeyHole }
  let s : XLoader_CdoState :=
    { s with DeviceCopy := DeviceCopy, Cdo := Cdo, IsNextChunkCopyStarted := false, trace := tr }
  if DeviceCopy.IsDoubleBuffering = true ∧ s.LastChunk ≠ true then
    let ChunkAddr :=
      if s.ChunkAddr = c.XPLMI_LOADER_CHUNK_MEMORY then k.XPLMI_LOADER_CHUNK_MEMORY_1
      else c.XPLMI_LOADER_CHUNK_MEMORY
    let last : Bool × Nat :=
      if DeviceCopy.Len ≤ s.ChunkLen then (true, DeviceCopy.Len) else (s.LastChunk, s.ChunkLen)
    let tr := (env.call s.trace
      (.DeviceCopy PdiPtr.Pdi.DeviceCopy DeviceCopy.SrcAddr ChunkAddr last.2
        (Nat.lor DeviceCopy.Flags k.XLOADER_DEVICE_COPY_STATE_INITIATE))).2
    { s with
      ChunkAddr := ChunkAddr, LastChunk := last.1, ChunkLen := last.2,
      IsNextChunkCopyStarted := true, trace := tr }
  else s

/-- Processing of one chunk with security (lines 573-590): `some Status` when the
function leaves through `END` with that status. -/
def XLoader_ProcessCdo_secureChunk (c : XLoader_Consts) (k : XLoader_CdoConsts)
    (env : XLoader_CdoEnv) (s : XLoader_CdoState) : Option Int × XLoader_CdoState :=
  let cl := XLoader_CdoCall.XLoader_ProcessSecurePrtn s.SecureParams s.ChunkLen s.LastChunk
  let SecureParams := env.secureOut s.trace cl
  let r := env.call s.trace cl
  if r.1 ≠ XST_SUCCESS then
    (some r.1, { s with SecureParams := SecureParams, trace := r.2 })
  else
    let Cdo : XPlmiCdo :=
      { s.Cdo with
        BufPtr := SecureParams.SecureData,
        BufLen := SecureParams.SecureDataLen / c.XIH_PRTN_WORD_LEN }
    let DeviceCopy : XLoader_DeviceCopy :=
      { s.DeviceCopy with
        SrcAddr := u64 (s.DeviceCopy.SrcAddr + s.ChunkLen),
        Len := u32sub s.DeviceCopy.Len s.ChunkLen }
    let s : XLoader_CdoState :=
      { s with SecureParams := SecureParams, Cdo := Cdo, DeviceCopy := DeviceCopy, trace := r.2 }
    if SecureParams.IsDoubleBuffering = true ∧ s.LastChunk ≠ true then
      let cl2 := XLoader_CdoCall.XLoader_StartNextChunkCopy SecureParams DeviceCopy.Len s.ChunkLen
      let SecureParams2 := env.secureOut s.trace cl2
      let r2 := env.call s.trace cl2
      if r2.1 ≠ k.XLOADER_SUCCESS then
        (some r2.1, { s with SecureParams := SecureParams2, trace := r2.2 })
      else (none, { s with SecureParams := SecureParams2, trace := r2.2 })
    else (none, s)

/-- Interpretation of the chunk (lines 592-604): the CDO interpreter runs on the
buffer; extra words it consumed beyond the chunk are taken off the length, and
a started copy of the next chunk is given up.  `some Status` when the function
leaves through `END` with that status. -/
def XLoader_ProcessCdo_interpret (k : XLoader_CdoConsts) (env : XLoader_CdoEnv)
    (s : XLoader_CdoState) : Option Int × XLoader_CdoState :=
  let cl := XLoader_CdoCall.XPlmi_ProcessCdo s.Cdo
  let Cdo : XPlmiCdo := env.cdoOut s.trace s.Cdo
  let p := env.call s.trace cl
  let s : XLoader_CdoState := { s with Cdo := Cdo, trace := p.2 }
  if p.1 ≠ XST_SUCCESS then (some p.1, s)
  else if Cdo.KeyHoleParams.ExtraWords ≠ 0 then
    let ExtraWords := u32 (Cdo.KeyHoleParams.ExtraWords * k.XPLMI_WORD_LEN)
    (none,
      { s with
        DeviceCopy :=
          { s.DeviceCopy with
            Len := u32sub s.DeviceCopy.Len ExtraWords,
            SrcAddr := u64 (s.DeviceCopy.SrcAddr + ExtraWords) },
        IsNextChunkCopyStarted := false,
        SecureParams := { s.SecureParams with IsNextChunkCopyStarted := false },
        Cdo := { Cdo with KeyHoleParams := { Cdo.KeyHoleParams with ExtraWords := 0 } } })
  else (none, s)

/-- Update of the length for the last chunk at the top of the loop body (lines
498-502). -/
def XLoader_ProcessCdo_lastChunk (s : XLoader_CdoState) : XLoader_CdoState :=
  if s.DeviceCopy.Len ≤ s.ChunkLen then
    { s with LastChunk := true, ChunkLen := s.DeviceCopy.Len }
  else s

/-- Body of the chunk loop of `XLoader_ProcessCdo` (lines 498-604): `some Status`
when the function leaves through `END` with that status, `none` when the loop
goes on. -/
def XLoader_ProcessCdo_chunk (c : XLoader_Consts) (k : XLoader_CdoConsts)
    (env : XLoader_CdoEnv) (PdiPtr : XilPdi_Cdo) (s : XLoader_CdoState) :
    Option Int × XLoader_CdoState :=
  let s := XLoader_ProcessCdo_lastChunk s
  if s.SecureParams.SecureEn ≠ true then
    XLoader_ProcessCdo_interpret k env (XLoader_ProcessCdo_plainChunk c k env PdiPtr s)
  else
    match XLoader_ProcessCdo_secureChunk c k env s with
    | (some Status, s) => (some Status, s)
    | (none, s) => XLoader_ProcessCdo_interpret k env s

/-- Chunk loop of `XLoader_ProcessCdo` (lines 497-612) with the end of the
function.  The extra words reported by the CDO interpreter decide how fast the
length shrinks, so the number of iterations is bounded by `fuel`; `none` when it
runs out. -/
def XLoader_ProcessCdo_loop (c : XLoader_Consts) (k : XLoader_CdoConsts) (env : XLoader_CdoEnv)
    (PdiPtr : XilPdi_Cdo) : (fuel : Nat) → XLoader_CdoState → Option (Int × XLoader_CdoState)
  | 0, _ => none
  | fuel + 1, s =>
    if s.DeviceCopy.Len > 0 then
      match XLoader_ProcessCdo_chunk c k env PdiPtr s with
      | (some Status, s) => some (Status, s)
      | (none, s) => XLoader_ProcessCdo_loop c k env PdiPtr fuel s
    else if s.Cdo.DeferredError = true then
      some (env.XPlmi_UpdateStatus k.XLOADER_ERR_DEFERRED_CDO_PROCESS 0, s)
    else some (XST_SUCCESS, s)

/-- Embedding of `XLoader_ProcessCdo` (lines 447-616): `none` when `fuel` does
not cover the chunks, otherwise the status and the variables at the end, with
the trace of the calls made. -/
def XLoader_ProcessCdo (c : XLoader_Consts) (k : XLoader_CdoConsts) (env : XLoader_CdoEnv)
    (PdiPtr : XilPdi_Cdo) (DeviceCopy : XLoader_DeviceCopy)
    (SecureParams : XLoader_SecureParams_Cdo) (fuel : Nat) :
    Option (Int × XLoader_CdoState) :=
  let tr := (env.call [] .XPlmi_InitCdo).2
  let Cdo : XPlmiCdo :=
    { env.initCdo with
      ImgId := PdiPtr.CurImgId, PrtnId := PdiPtr.Pdi.CurPrtnId, IpiMask := PdiPtr.IpiMask }
  let PdiVer := PdiPtr.Pdi.MetaHdr.ImgHdrTblVersion
  let ch := XLoader_ProcessCdo_chunking c k PdiVer DeviceCopy SecureParams
  XLoader_ProcessCdo_loop c k env PdiPtr fuel
    { DeviceCopy := DeviceCopy,
      SecureParams := XLoader_ProcessCdo_secureSetup c k PdiVer DeviceCopy SecureParams,
      Cdo := Cdo,
      ChunkLen := ch.1,
      ChunkAddr := c.XPLMI_LOADER_CHUNK_MEMORY,
      LastChunk := false,
      IsNextChunkCopyStarted := false,
      trace := tr }

/-- Sample values of the further constants (32K secure chunks, 64K chunk memory
split in two halves for double buffering). -/
def XLoader_sampleCdoConsts : XLoader_CdoConsts where
  XLOADER_SECURE_CHUNK_SIZE := 0x8000
  XLOADER_PDI_VERSION_1 := 0x30000
  XLOADER_PDI_VERSION_2 := 0x40000
  XPLMI_LOADER_CHUNK_MEMORY_1 := 0xF2108000
  XPLMI_WORD_LEN := 4
  XLOADER_DEVICE_COPY_STATE_BLK := 0
  XLOADER_DEVICE_COPY_STATE_INITIATE := 0x200
  XLOADER_DEVICE_COPY_STATE_WAIT_DONE := 0x400
  XLOADER_SSIT_MASTER_SLR := 1
  XLOADER_ERR_DEFERRED_CDO_PROCESS := 0x30E
  XLOADER_SUCCESS := 0

/-- Sample environment of the CDO path: every call succeeds, the security
library hands back the chunk it was given (and notes a started copy), the CDO
interpreter consumes each chunk without extra words or deferred errors. -/
def XLoader_sampleCdoEnv : XLoader_CdoEnv where
  initCdo :=
    { BufPtr := 0, BufLen := 0, ImgId := 0, PrtnId := 0, IpiMask := 0,
      KeyHoleParams :=
        { PdiSrc := none, SrcAddr := 0, Func := .NULL, InChunkCopy := false, ExtraWords := 0 },
      DeferredError := false }
  status := fun _ _ => XST_SUCCESS
  secureOut := fun _ cl =>
    match cl with
    | .XLoader_ProcessSecurePrtn sp len _ =>
      { sp with SecureData := 0xF2100000, SecureDataLen := len }
    | .XLoader_StartNextChunkCopy sp _ _ => { sp with IsNextChunkCopyStarted := true }
    | _ =>
      { SecureEn := false, IsDoubleBuffering := false, IsCdo := false,
        IsNextChunkCopyStarted := false, SecureData := 0, SecureDataLen := 0 }
  cdoOut := fun _ cdo => cdo
  XPlmi_UpdateStatus := fun major minor => (major : Int) * 65536 + minor

/-- Sample PDI instance of a partial PDI read from DDR, with image header table
version 4. -/
def XLoader_sampleCdoPdi : XilPdi_Cdo :=
  { Pdi := { XLoader_samplePdi (fun _ => 0x2000000) with
             PdiSrc := .XLOADER_PDI_SRC_DDR, PdiType := 2, DeviceCopy := .XLoader_DdrCopy },
    CurImgId := 1, IpiMask := 0, SlrType := 0 }

/-- Sample copy parameters of a CDO partition of three half chunks (0x18000
bytes) for which double buffering is requested. -/
def XLoader_sampleCdoDeviceCopy : XLoader_DeviceCopy :=
  { SrcAddr := 0x1000, DestAddr := 0, Len := 0x18000, Flags := 0, IsDoubleBuffering := true }

/-- Sample security parameters: security enabled, double buffering flag clear. -/
def XLoader_sampleCdoSecureParams : XLoader_SecureParams_Cdo :=
  { SecureEn := true, IsDoubleBuffering := false, IsCdo := false,
    IsNextChunkCopyStarted := false, SecureData := 0, SecureDataLen := 0 }

/-- Whether a call is a call of `XLoader_StartNextChunkCopy`. -/
def XLoader_CdoCall.isStartNextChunkCopy : XLoader_CdoCall → Bool
  | .XLoader_StartNextChunkCopy _ _ _ => true
  | _ => false

/-- State of the chunk loop in which the copy of a next chunk was never started:
the double buffering flag of the security parameters is clear and the trace
holds no call of `XLoader_StartNextChunkCopy`. -/
def XLoader_CdoState.noStart (s : XLoader_CdoState) : Prop :=
  s.SecureParams.IsDoubleBuffering = false ∧
  ∀ cl ∈ s.trace, cl.isStartNextChunkCopy = false

/-- Security library that leaves the double buffering flag of the security
parameters as it finds it when it processes a chunk. -/
def XLoader_CdoEnv.keepsDoubleBuffering (env : XLoader_CdoEnv) : Prop :=
  ∀ tr SecureParams ChunkLen LastChunk,
    (env.secureOut tr
      (.XLoader_ProcessSecurePrtn SecureParams ChunkLen LastChunk)).IsDoubleBuffering
      = SecureParams.IsDoubleBuffering

/-- Number of calls of `XLoader_ProcessSecurePrtn` in a trace. -/
def XLoader_CdoCall.countSecurePrtn (tr : List XLoader_CdoCall) : Nat :=
  (tr.filter fun cl =>
    match cl with
    | .XLoader_ProcessSecurePrtn _ _ _ => true
    | _ => false).length

/-! ## xclk_wiz.c : rate read-back -/

/-- Further constants of xclk_wiz_hw.h used by `XClk_Wiz_GetRate` (header outside
the sources). -/
structure XClk_Wiz_RateConsts where
  XCLK_WIZ_CLKOUT0_P5FEDGE_MASK : Nat
  XCLK_WIZ_P5EN_MASK : Nat
  XCLK_WIZ_REG2_DIV_MASK : Nat

/-- Divider `DivO` that `XClk_Wiz_GetRate` reconstructs on Versal from the two
registers of the output clock `ClockId` (lines 540-557), before the test for
zero. -/
def XClk_Wiz_GetRate_DivO (k : XClk_Wiz_Consts) (r : XClk_Wiz_RateConsts)
    (InstancePtr : XClk_Wiz) (hw : XClk_Wiz_Hw) (ClockId : Nat) : Nat :=
  let BaseAddr := InstancePtr.Config.BaseAddr
  let RegisterOffset := XClk_Wiz_RegisterOffsetO k ClockId
  let Reg := XClk_Wiz_ReadReg hw BaseAddr RegisterOffset
  let Edge := XClk_Wiz_boolOf (Nat.land Reg r.XCLK_WIZ_CLKOUT0_P5FEDGE_MASK)
  let P5en := XClk_Wiz_boolOf (Nat.land Reg r.XCLK_WIZ_P5EN_MASK)
  let Prediv := XClk_Wiz_boolOf (Nat.land Reg k.XCLK_WIZ_REG3_PREDIV2)
  let RegisterOffset := u32 (RegisterOffset + 4)
  let Reg := XClk_Wiz_ReadReg hw BaseAddr RegisterOffset
  let Low := Nat.land Reg k.XCLK_WIZ_CLKFBOUT_L_MASK
  let High := (Nat.land Reg k.XCLK_WIZ_CLKFBOUT_H_MASK) >>> k.XCLK_WIZ_CLKFBOUT_H_SHIFT
  let Leaf := u32 (u32 (High + Low) + Edge)
  u32 (u32 ((Prediv + 1) * Leaf) + u32 (Prediv * P5en))

/-- Embedding of `XClk_Wiz_GetRate` (lines 508-566): the status returned and the
value stored in `*Rate` (`none` when nothing is stored).  The result is `none`
when the function divides by zero (other platforms than Versal with a zero
divider field). -/
def XClk_Wiz_GetRate (k : XClk_Wiz_Consts) (r : XClk_Wiz_RateConsts) (env : XClk_Wiz_Env)
    (InstancePtr : XClk_Wiz) (hw : XClk_Wiz_Hw) (ClockId : Nat) : Option (Int × Option Nat) :=
  if InstancePtr.Config.NumClocks < ClockId then some (XST_FAILURE, none)
  else
    let Fvco := XClk_Wiz_GetVco k env InstancePtr hw
    if ¬ env.isVersal then
      let RegisterOffset := u32 (k.XCLK_WIZ_ZYNQMP_REG2_OFFSET + u32 (ClockId * 12))
      let Reg := XClk_Wiz_ReadReg hw InstancePtr.Config.BaseAddr RegisterOffset
      let DivO := Nat.land Reg r.XCLK_WIZ_REG2_DIV_MASK
      if DivO = 0 then none
      else some (XST_SUCCESS, some (Fvco / DivO))
    else
      let DivO := XClk_Wiz_GetRate_DivO k r InstancePtr hw ClockId
      let DivO := if DivO = 0 then 1 else DivO
      some (XST_SUCCESS, some (Fvco / DivO))

/-- Modelled from the spec: xclk_wiz_hw.h is missing from the sources; these are
the conventions on its masks and shifts under which the read-back is stated.
The masks of the P5EN and P5FEDGE fields are the single bits written
through their shifts, the low and high time are bits 7:0 and 15:8, the P5EN and
P5FEDGE bits are distinct from each other, from the divider edge bit 8 and from
the PREDIV2, USED and MX bits, PREDIV2 is a bit of the 32-bit register, and the
high time of the largest divider fits its eight bits. -/
def XClk_Wiz_maskConventions (k : XClk_Wiz_Consts) (r : XClk_Wiz_RateConsts) : Prop :=
  r.XCLK_WIZ_P5EN_MASK = 1 <<< k.XCLK_WIZ_CLKOUT0_P5EN_SHIFT ∧
  r.XCLK_WIZ_CLKOUT0_P5FEDGE_MASK = 1 <<< k.XCLK_WIZ_CLKOUT0_P5FEDGE_SHIFT ∧
  k.XCLK_WIZ_CLKFBOUT_L_MASK = 0xFF ∧
  k.XCLK_WIZ_CLKFBOUT_H_MASK = 0xFF00 ∧
  k.XCLK_WIZ_CLKFBOUT_H_SHIFT = 8 ∧
  k.XCLK_WIZ_CLKOUT0_P5EN_SHIFT < 32 ∧
  k.XCLK_WIZ_CLKOUT0_P5FEDGE_SHIFT < 32 ∧
  k.XCLK_WIZ_CLKOUT0_P5EN_SHIFT ≠ k.XCLK_WIZ_CLKOUT0_P5FEDGE_SHIFT ∧
  k.XCLK_WIZ_CLKOUT0_P5EN_SHIFT ≠ 8 ∧
  k.XCLK_WIZ_CLKOUT0_P5FEDGE_SHIFT ≠ 8 ∧
  (Nat.lor (Nat.lor k.XCLK_WIZ_REG3_PREDIV2 k.XCLK_WIZ_REG3_USED) k.XCLK_WIZ_REG3_MX).testBit
    k.XCLK_WIZ_CLKOUT0_P5EN_SHIFT = false ∧
  (Nat.lor (Nat.lor k.XCLK_WIZ_REG3_PREDIV2 k.XCLK_WIZ_REG3_USED) k.XCLK_WIZ_REG3_MX).testBit
    k.XCLK_WIZ_CLKOUT0_P5FEDGE_SHIFT = false ∧
  0 < k.XCLK_WIZ_REG3_PREDIV2 ∧
  k.XCLK_WIZ_REG3_PREDIV2 < 2 ^ 32 ∧
  k.versal.Omax < 1024

/-- Sample values of the further constants: P5FEDGE is bit 15, P5EN is bit 13,
the divider field of the other platforms is bits 7:0. -/
def XClk_Wiz_sampleRateConsts : XClk_Wiz_RateConsts where
  XCLK_WIZ_CLKOUT0_P5FEDGE_MASK := 0x8000
  XCLK_WIZ_P5EN_MASK := 0x2000
  XCLK_WIZ_REG2_DIV_MASK := 0xFF

/-- Sample environment of the Versal platform. -/
def XClk_Wiz_sampleEnvVersal : XClk_Wiz_Env :=
  { XClk_Wiz_sampleEnvUs with isVersal := true }

/-- Sample instance whose output divider is 5. -/
def XClk_Wiz_sampleInst5 : XClk_Wiz :=
  { XClk_Wiz_sampleInst with OVal := 5 }

/-! ## xloader_prtn_load.c : partitions handled one by one -/

/-- PDI instance and trace of outside calls after `XLoader_ProcessPrtn` has
processed `j` partitions one after the other, starting with partition `PrtnNum`
on the instance `PdiPtr` and the trace `tr`. -/
def XLoader_processedUpTo (c : XLoader_Consts) (env : XLoader_Env) :
    (j : Nat) → XilPdi → Nat → List XLoader_Call → XilPdi × List XLoader_Call
  | 0, PdiPtr, _, tr => (PdiPtr, tr)
  | j + 1, PdiPtr, PrtnNum, tr =>
    XLoader_processedUpTo c env j (XLoader_ProcessPrtn c env PdiPtr PrtnNum tr).2.1
      (PrtnNum + 1) (XLoader_ProcessPrtn c env PdiPtr PrtnNum tr).2.2

/-- Status that `XLoader_PrtnHdrValidation` returns for the partition
`PrtnNum + j` once the `j` partitions before it have been processed. -/
def XLoader_validationStatus (c : XLoader_Consts) (env : XLoader_Env) (PdiPtr : XilPdi)
    (PrtnNum : Nat) (tr : List XLoader_Call) (j : Nat) : Int :=
  XLoader_PrtnHdrValidation c env (XLoader_processedUpTo c env j PdiPtr PrtnNum tr).1
    (PrtnNum + j)

/-- Status that `XLoader_ProcessPrtn` returns for the partition `PrtnNum + j`
once the `j` partitions before it have been processed. -/
def XLoader_processingStatus (c : XLoader_Consts) (env : XLoader_Env) (PdiPtr : XilPdi)
    (PrtnNum : Nat) (tr : List XLoader_Call) (j : Nat) : Int :=
  (XLoader_ProcessPrtn c env (XLoader_processedUpTo c env j PdiPtr PrtnNum tr).1
    (PrtnNum + j) (XLoader_processedUpTo c env j PdiPtr PrtnNum tr).2).1

/-- The validation and processing steps of the first `j` partitions from
`PrtnNum` on, one partition after the other in increasing partition number,
each with the status it returned. -/
def XLoader_stepsUpTo (c : XLoader_Consts) (env : XLoader_Env) (PdiPtr : XilPdi)
    (PrtnNum : Nat) (tr : List XLoader_Call) : (j : Nat) → List XLoader_Step
  | 0 => []
  | j + 1 =>
    XLoader_stepsUpTo c env PdiPtr PrtnNum tr j ++
      [.validated (PrtnNum + j) (XLoader_validationStatus c env PdiPtr PrtnNum tr j),
       .processed (PrtnNum + j) (XLoader_processingStatus c env PdiPtr PrtnNum tr j)]

/-- Sample environment whose header validation returns 0x100 for every header,
the value of the marker `XLOADER_SUCCESS_NOT_PRTN_OWNER`. -/
def XLoader_sampleEnvMarker : XLoader_Env :=
  { XLoader_sampleEnv with XilPdi_ValidatePrtnHdr := fun _ => 0x100 }

/-! # Properties -/

/-! ## Partition loader -/

/-- `XLoader_UpdateHandoffParam` leaves the meta header as it is. -/
theorem XLoader_UpdateHandoffParam_MetaHdr (c : XLoader_Consts) (env : XLoader_Env)
    (PdiPtr : XilPdi) (PrtnNum : Nat) :
    (XLoader_UpdateHandoffParam c env PdiPtr PrtnNum).2.MetaHdr = PdiPtr.MetaHdr := by
  unfold XLoader_UpdateHandoffParam
  simp only []
  split_ifs <;> rfl

/-- The loading part of `XLoader_ProcessPrtn` leaves the meta header as it is. -/
theorem XLoader_ProcessPrtn_load_MetaHdr (c : XLoader_Consts) (env : XLoader_Env)
    (PdiPtr : XilPdi) (PrtnNum : Nat) (PrtnParams : XLoader_PrtnParams)
    (tr : List XLoader_Call) :
    (XLoader_ProcessPrtn_load c env PdiPtr PrtnNum PrtnParams tr).2.1.MetaHdr
      = PdiPtr.MetaHdr := by
  unfold XLoader_ProcessPrtn_load
  simp only []
  split_ifs <;> first | rfl | exact XLoader_UpdateHandoffParam_MetaHdr c env PdiPtr PrtnNum

/-- No path of `XLoader_ProcessPrtn` writes a partition header. -/
theorem XLoader_ProcessPrtn_PrtnHdr (c : XLoader_Consts) (env : XLoader_Env)
    (PdiPtr : XilPdi) (PrtnNum : Nat) (tr : List XLoader_Call) :
    (XLoader_ProcessPrtn c env PdiPtr PrtnNum tr).2.1.MetaHdr.PrtnHdr
      = PdiPtr.MetaHdr.PrtnHdr := by
  unfold XLoader_ProcessPrtn
  simp only []
  split_ifs <;>
    simp [XLoader_ProcessPrtn_END, XLoader_ProcessPrtn_load_MetaHdr]

/-- The loop of `XLoader_LoadImagePrtns` on partitions that all belong to the
PLM: the steps it adds, in terms of the steps already taken. -/
theorem XLoader_LoadImagePrtns_loop_owned (c : XLoader_Consts) (env : XLoader_Env) (n : Nat) :
    ∀ (PdiPtr : XilPdi) (PrtnNum : Nat) (tr : List XLoader_Call) (steps : List XLoader_Step),
    PrtnNum + n ≤ 2 ^ 32 →
    (∀ j, j < n → env.XilPdi_GetPrtnOwner (PdiPtr.MetaHdr.PrtnHdr (PrtnNum + j))
        = c.XIH_PH_ATTRB_PRTN_OWNER_PLM) →
    (∀ j, j < n → env.XilPdi_ValidatePrtnHdr (PdiPtr.MetaHdr.PrtnHdr (PrtnNum + j))
        ≠ XLOADER_SUCCESS_NOT_PRTN_OWNER) →
    ∃ new : List XLoader_Step,
      (XLoader_LoadImagePrtns_loop c env n PdiPtr PrtnNum tr steps).steps = steps ++ new ∧
      (∃ rest, new.map XLoader_Step.key ++ rest = XLoader_stepOrder n PrtnNum) ∧
      ((XLoader_LoadImagePrtns_loop c env n PdiPtr PrtnNum tr steps).Status = XST_SUCCESS ↔
        ∀ s ∈ new, s.Status = XST_SUCCESS) ∧
      ((XLoader_LoadImagePrtns_loop c env n PdiPtr PrtnNum tr steps).Status = XST_SUCCESS →
        new.map XLoader_Step.key = XLoader_stepOrder n PrtnNum) ∧
      ((XLoader_LoadImagePrtns_loop c env n PdiPtr PrtnNum tr steps).Status ≠ XST_SUCCESS →
        ∃ pre last, new = pre ++ [last] ∧ (∀ s ∈ pre, s.Status = XST_SUCCESS) ∧
          last.Status = (XLoader_LoadImagePrtns_loop c env n PdiPtr PrtnNum tr steps).Status) ∧
      (∀ k s, XLoader_Step.validated k s ∈ new →
        s = env.XilPdi_ValidatePrtnHdr (PdiPtr.MetaHdr.PrtnHdr k)) := by
  induction n with
  | zero =>
    intro PdiPtr PrtnNum tr steps _ _ _
    refine ⟨[], ?_, ⟨[], ?_⟩, ?_, ?_, ?_, ?_⟩ <;>
      simp [XLoader_LoadImagePrtns_loop, XLoader_stepOrder]
  | succ n ih =>
    intro PdiPtr PrtnNum tr steps hfit hown hval
    have hown0 := hown 0 (Nat.succ_pos n)
    have hval0 := hval 0 (Nat.succ_pos n)
    simp only [Nat.add_zero] at hown0 hval0
    have hV : XLoader_PrtnHdrValidation c env PdiPtr PrtnNum
        = env.XilPdi_ValidatePrtnHdr (PdiPtr.MetaHdr.PrtnHdr PrtnNum) := by
      simp [XLoader_PrtnHdrValidation, hown0]
    unfold XLoader_LoadImagePrtns_loop
    simp only [hV]
    rw [if_neg hval0]
    by_cases hs : XST_SUCCESS = env.XilPdi_ValidatePrtnHdr (PdiPtr.MetaHdr.PrtnHdr PrtnNum)
    · rw [if_neg (not_not.mpr hs)]
      by_cases hp : XST_SUCCESS = (XLoader_ProcessPrtn c env PdiPtr PrtnNum tr).1
      · rw [if_neg (not_not.mpr hp)]
        have hhdr := XLoader_ProcessPrtn_PrtnHdr c env PdiPtr PrtnNum tr
        have h32 : ∀ (Q : XilPdi) (t : List XLoader_Call) (st : List XLoader_Step),
            XLoader_LoadImagePrtns_loop c env n Q (u32 (PrtnNum + 1)) t st
              = XLoader_LoadImagePrtns_loop c env n Q (PrtnNum + 1) t st := by
          intro Q t st
          cases n with
          | zero => simp [XLoader_LoadImagePrtns_loop]
          | succ m =>
            have : u32 (PrtnNum + 1) = PrtnNum + 1 := by
              unfold u32; apply Nat.mod_eq_of_lt; omega
            rw [this]
        rw [h32]
        obtain ⟨new, h1, ⟨rest, h2⟩, h3, h4, h5, h6⟩ :=
          ih (XLoader_ProcessPrtn c env PdiPtr PrtnNum tr).2.1 (PrtnNum + 1)
            (XLoader_ProcessPrtn c env PdiPtr PrtnNum tr).2.2
            ((steps ++ [XLoader_Step.validated PrtnNum
                (env.XilPdi_ValidatePrtnHdr (PdiPtr.MetaHdr.PrtnHdr PrtnNum))]) ++
              [XLoader_Step.processed PrtnNum (XLoader_ProcessPrtn c env PdiPtr PrtnNum tr).1])
            (by omega)
            (by intro j hj; rw [hhdr]; have := hown (j + 1) (by omega)
                rwa [show PrtnNum + (j + 1) = PrtnNum + 1 + j by omega] at this)
            (by intro j hj; rw [hhdr]; have := hval (j + 1) (by omega)
                rwa [show PrtnNum + (j + 1) = PrtnNum + 1 + j by omega] at this)
        refine ⟨XLoader_Step.validated PrtnNum
            (env.XilPdi_ValidatePrtnHdr (PdiPtr.MetaHdr.PrtnHdr PrtnNum)) ::
          XLoader_Step.processed PrtnNum (XLoader_ProcessPrtn c env PdiPtr PrtnNum tr).1 :: new,
          ?_, ⟨rest, ?_⟩, ?_, ?_, ?_, ?_⟩
        · rw [h1]; simp
        · simp [XLoader_stepOrder, XLoader_Step.key, XLoader_Step.isValidation,
            XLoader_Step.PrtnNum, ← h2]
        · rw [h3]; simp [XLoader_Step.Status, ← hs, ← hp]
        · intro h; simp [XLoader_stepOrder, XLoader_Step.key, XLoader_Step.isValidation,
            XLoader_Step.PrtnNum, h4 h]
        · intro h
          obtain ⟨pre, last, e1, e2, e3⟩ := h5 h
          refine ⟨XLoader_Step.validated PrtnNum
              (env.XilPdi_ValidatePrtnHdr (PdiPtr.MetaHdr.PrtnHdr PrtnNum)) ::
            XLoader_Step.processed PrtnNum (XLoader_ProcessPrtn c env PdiPtr PrtnNum tr).1 ::
              pre, last, ?_, ?_, e3⟩
          · rw [e1]; simp
          · intro s hsm
            simp only [List.mem_cons] at hsm
            rcases hsm with h | h | h
            · rw [h]; simp [XLoader_Step.Status, ← hs]
            · rw [h]; simp [XLoader_Step.Status, ← hp]
            · exact e2 s h
        · intro k s hm
          simp only [List.mem_cons] at hm
          rcases hm with h | h | h
          · injection h with hk hs2; rw [hs2, hk]
          · exact absurd h (by simp)
          · have := h6 k s h; rwa [hhdr] at this
      · rw [if_pos hp]
        refine ⟨[XLoader_Step.validated PrtnNum
            (env.XilPdi_ValidatePrtnHdr (PdiPtr.MetaHdr.PrtnHdr PrtnNum)),
          XLoader_Step.processed PrtnNum (XLoader_ProcessPrtn c env PdiPtr PrtnNum tr).1],
          ?_, ⟨XLoader_stepOrder n (PrtnNum + 1), ?_⟩, ?_, ?_, ?_, ?_⟩
        · simp
        · simp [XLoader_stepOrder, XLoader_Step.key, XLoader_Step.isValidation,
            XLoader_Step.PrtnNum]
        · simp only [List.mem_cons, List.mem_singleton, List.not_mem_nil, or_false]
          constructor
          · intro h; exact absurd h.symm hp
          · intro h; exact (h _ (Or.inr rfl))
        · intro h; exact absurd h.symm hp
        · intro _
          exact ⟨[XLoader_Step.validated PrtnNum
            (env.XilPdi_ValidatePrtnHdr (PdiPtr.MetaHdr.PrtnHdr PrtnNum))], _, rfl,
            by simp [XLoader_Step.Status, ← hs], rfl⟩
        · intro k s hm
          simp only [List.mem_cons, List.mem_singleton, List.not_mem_nil, or_false] at hm
          rcases hm with h | h
          · injection h with hk hs2; rw [hs2, hk]
          · exact absurd h (by simp)
    · rw [if_pos hs]
      refine ⟨[XLoader_Step.validated PrtnNum
          (env.XilPdi_ValidatePrtnHdr (PdiPtr.MetaHdr.PrtnHdr PrtnNum))],
        rfl, ⟨(false, PrtnNum) :: XLoader_stepOrder n (PrtnNum + 1), ?_⟩, ?_, ?_, ?_, ?_⟩
      · simp [XLoader_stepOrder, XLoader_Step.key, XLoader_Step.isValidation,
          XLoader_Step.PrtnNum]
      · simp only [List.mem_singleton]
        constructor
        · intro h; exact absurd h.symm hs
        · intro h; exact (h _ rfl)
      · intro h; exact absurd h.symm hs
      · intro _
        exact ⟨[], _, rfl, by simp, rfl⟩
      · intro k s hm
        simp only [List.mem_singleton] at hm
        injection hm with hk hs2; rw [hs2, hk]

/-- Whenever the first partition handled does not belong to the PLM,
`XLoader_LoadImagePrtns` returns `XST_SUCCESS` right after its validation: no
partition is processed and no later partition is validated, however many
partitions the image has. -/
theorem XLoader_LoadImagePrtns_not_owner_exit (c : XLoader_Consts) (env : XLoader_Env)
    (PdiPtr : XilPdi) (ImgNum PrtnNum : Nat) (tr : List XLoader_Call)
    (hn : 0 < PdiPtr.MetaHdr.NoOfPrtns ImgNum)
    (hown : env.XilPdi_GetPrtnOwner (PdiPtr.MetaHdr.PrtnHdr PrtnNum)
      ≠ c.XIH_PH_ATTRB_PRTN_OWNER_PLM) :
    (XLoader_LoadImagePrtns c env PdiPtr ImgNum PrtnNum tr).Status = XST_SUCCESS ∧
    (XLoader_LoadImagePrtns c env PdiPtr ImgNum PrtnNum tr).steps
      = [XLoader_Step.validated PrtnNum XLOADER_SUCCESS_NOT_PRTN_OWNER] ∧
    (XLoader_LoadImagePrtns c env PdiPtr ImgNum PrtnNum tr).trace = tr := by
  unfold XLoader_LoadImagePrtns
  obtain ⟨n, hn2⟩ := Nat.exists_eq_succ_of_ne_zero (Nat.pos_iff_ne_zero.mp hn)
  rw [hn2]
  have hV : XLoader_PrtnHdrValidation c env PdiPtr PrtnNum = XLOADER_SUCCESS_NOT_PRTN_OWNER := by
    simp [XLoader_PrtnHdrValidation, hown]
  simp [XLoader_LoadImagePrtns_loop, hV]

/-- C1 (evaluation of the code): an image of two partitions whose first
partition belongs to another owner and whose second partition belongs to the
PLM and has a valid header.  `XLoader_LoadImagePrtns` returns `XST_SUCCESS`
after the validation of partition 0 alone: partition 1 is neither validated nor
processed and no outside call is made. -/
theorem XLoader_LoadImagePrtns_foreign_first :
    (XLoader_samplePdi XLoader_sampleAttrbForeignFirst).MetaHdr.NoOfPrtns 0 = 2 ∧
    XLoader_PrtnHdrValidation XLoader_sampleConsts XLoader_sampleEnv
      (XLoader_samplePdi XLoader_sampleAttrbForeignFirst) 0 = XLOADER_SUCCESS_NOT_PRTN_OWNER ∧
    XLoader_PrtnHdrValidation XLoader_sampleConsts XLoader_sampleEnv
      (XLoader_samplePdi XLoader_sampleAttrbForeignFirst) 1 = XST_SUCCESS ∧
    (XLoader_LoadImagePrtns XLoader_sampleConsts XLoader_sampleEnv
      (XLoader_samplePdi XLoader_sampleAttrbForeignFirst) 0 0 []).Status = XST_SUCCESS ∧
    (XLoader_LoadImagePrtns XLoader_sampleConsts XLoader_sampleEnv
      (XLoader_samplePdi XLoader_sampleAttrbForeignFirst) 0 0 []).steps
        = [XLoader_Step.validated 0 XLOADER_SUCCESS_NOT_PRTN_OWNER] ∧
    (XLoader_LoadImagePrtns XLoader_sampleConsts XLoader_sampleEnv
      (XLoader_samplePdi XLoader_sampleAttrbForeignFirst) 0 0 []).trace = [] := by
  decide

/-- Validation status of a later partition, seen from the state after the first
partition has been processed. -/
theorem XLoader_validationStatus_succ (c : XLoader_Consts) (env : XLoader_Env) (PdiPtr : XilPdi)
    (PrtnNum : Nat) (tr : List XLoader_Call) (j : Nat) :
    XLoader_validationStatus c env PdiPtr PrtnNum tr (j + 1) =
      XLoader_validationStatus c env (XLoader_ProcessPrtn c env PdiPtr PrtnNum tr).2.1
        (PrtnNum + 1) (XLoader_ProcessPrtn c env PdiPtr PrtnNum tr).2.2 j := by
  unfold XLoader_validationStatus
  rw [show PrtnNum + (j + 1) = PrtnNum + 1 + j by omega]
  rfl

/-- Processing status of a later partition, seen from the state after the first
partition has been processed. -/
theorem XLoader_processingStatus_succ (c : XLoader_Consts) (env : XLoader_Env) (PdiPtr : XilPdi)
    (PrtnNum : Nat) (tr : List XLoader_Call) (j : Nat) :
    XLoader_processingStatus c env PdiPtr PrtnNum tr (j + 1) =
      XLoader_processingStatus c env (XLoader_ProcessPrtn c env PdiPtr PrtnNum tr).2.1
        (PrtnNum + 1) (XLoader_ProcessPrtn c env PdiPtr PrtnNum tr).2.2 j := by
  unfold XLoader_processingStatus
  rw [show PrtnNum + (j + 1) = PrtnNum + 1 + j by omega]
  rfl

/-- Steps of `j + 1` partitions: those of the first partition, then the steps of
the `j` partitions after it. -/
theorem XLoader_stepsUpTo_succ (c : XLoader_Consts) (env : XLoader_Env) (PdiPtr : XilPdi)
    (PrtnNum : Nat) (tr : List XLoader_Call) (j : Nat) :
    XLoader_stepsUpTo c env PdiPtr PrtnNum tr (j + 1) =
      XLoader_Step.validated PrtnNum (XLoader_PrtnHdrValidation c env PdiPtr PrtnNum) ::
      XLoader_Step.processed PrtnNum (XLoader_ProcessPrtn c env PdiPtr PrtnNum tr).1 ::
      XLoader_stepsUpTo c env (XLoader_ProcessPrtn c env PdiPtr PrtnNum tr).2.1
        (PrtnNum + 1) (XLoader_ProcessPrtn c env PdiPtr PrtnNum tr).2.2 j := by
  induction j with
  | zero =>
    simp [XLoader_stepsUpTo, XLoader_validationStatus, XLoader_processingStatus,
      XLoader_processedUpTo]
  | succ j ih =>
    rw [XLoader_stepsUpTo, ih, XLoader_validationStatus_succ, XLoader_processingStatus_succ]
    rw [show PrtnNum + (j + 1) = PrtnNum + 1 + j by omega]
    simp [XLoader_stepsUpTo]

/-- The loop of `XLoader_LoadImagePrtns` on partitions that all belong to the
PLM, against the run that handles the partitions one after the other: result
when every step succeeds, when a validation is the first step to fail, and when
a processing is the first step to fail. -/
theorem XLoader_LoadImagePrtns_loop_run (c : XLoader_Consts) (env : XLoader_Env) (n : Nat) :
    ∀ (PdiPtr : XilPdi) (PrtnNum : Nat) (tr : List XLoader_Call) (st : List XLoader_Step),
    PrtnNum + n ≤ 2 ^ 32 →
    (∀ j, j < n → env.XilPdi_GetPrtnOwner (PdiPtr.MetaHdr.PrtnHdr (PrtnNum + j))
        = c.XIH_PH_ATTRB_PRTN_OWNER_PLM) →
    (∀ j, j < n → env.XilPdi_ValidatePrtnHdr (PdiPtr.MetaHdr.PrtnHdr (PrtnNum + j))
        ≠ XLOADER_SUCCESS_NOT_PRTN_OWNER) →
    ((∀ j, j < n → XLoader_validationStatus c env PdiPtr PrtnNum tr j = XST_SUCCESS ∧
        XLoader_processingStatus c env PdiPtr PrtnNum tr j = XST_SUCCESS) →
      (XLoader_LoadImagePrtns_loop c env n PdiPtr PrtnNum tr st).Status = XST_SUCCESS ∧
      (XLoader_LoadImagePrtns_loop c env n PdiPtr PrtnNum tr st).PdiPtr
        = (XLoader_processedUpTo c env n PdiPtr PrtnNum tr).1 ∧
      (XLoader_LoadImagePrtns_loop c env n PdiPtr PrtnNum tr st).trace
        = (XLoader_processedUpTo c env n PdiPtr PrtnNum tr).2 ∧
      (XLoader_LoadImagePrtns_loop c env n PdiPtr PrtnNum tr st).steps
        = st ++ XLoader_stepsUpTo c env PdiPtr PrtnNum tr n) ∧
    (∀ j, j < n →
      (∀ i, i < j → XLoader_validationStatus c env PdiPtr PrtnNum tr i = XST_SUCCESS ∧
        XLoader_processingStatus c env PdiPtr PrtnNum tr i = XST_SUCCESS) →
      XLoader_validationStatus c env PdiPtr PrtnNum tr j ≠ XST_SUCCESS →
      (XLoader_LoadImagePrtns_loop c env n PdiPtr PrtnNum tr st).Status
        = XLoader_validationStatus c env PdiPtr PrtnNum tr j ∧
      (XLoader_LoadImagePrtns_loop c env n PdiPtr PrtnNum tr st).PdiPtr
        = (XLoader_processedUpTo c env j PdiPtr PrtnNum tr).1 ∧
      (XLoader_LoadImagePrtns_loop c env n PdiPtr PrtnNum tr st).trace
        = (XLoader_processedUpTo c env j PdiPtr PrtnNum tr).2 ∧
      (XLoader_LoadImagePrtns_loop c env n PdiPtr PrtnNum tr st).steps
        = st ++ (XLoader_stepsUpTo c env PdiPtr PrtnNum tr j ++
            [XLoader_Step.validated (PrtnNum + j)
              (XLoader_validationStatus c env PdiPtr PrtnNum tr j)])) ∧
    (∀ j, j < n →
      (∀ i, i < j → XLoader_validationStatus c env PdiPtr PrtnNum tr i = XST_SUCCESS ∧
        XLoader_processingStatus c env PdiPtr PrtnNum tr i = XST_SUCCESS) →
      XLoader_validationStatus c env PdiPtr PrtnNum tr j = XST_SUCCESS →
      XLoader_processingStatus c env PdiPtr PrtnNum tr j ≠ XST_SUCCESS →
      (XLoader_LoadImagePrtns_loop c env n PdiPtr PrtnNum tr st).Status
        = XLoader_processingStatus c env PdiPtr PrtnNum tr j ∧
      (XLoader_LoadImagePrtns_loop c env n PdiPtr PrtnNum tr st).PdiPtr
        = (XLoader_processedUpTo c env (j + 1) PdiPtr PrtnNum tr).1 ∧
      (XLoader_LoadImagePrtns_loop c env n PdiPtr PrtnNum tr st).trace
        = (XLoader_processedUpTo c env (j + 1) PdiPtr PrtnNum tr).2 ∧
      (XLoader_LoadImagePrtns_loop c env n PdiPtr PrtnNum tr st).steps
        = st ++ XLoader_stepsUpTo c env PdiPtr PrtnNum tr (j + 1)) := by
  induction n with
  | zero =>
    intro PdiPtr PrtnNum tr st _ _ _
    refine ⟨fun _ => ?_, fun j hj => absurd hj (Nat.not_lt_zero j),
      fun j hj => absurd hj (Nat.not_lt_zero j)⟩
    simp [XLoader_LoadImagePrtns_loop, XLoader_processedUpTo, XLoader_stepsUpTo]
  | succ n ih =>
    intro PdiPtr PrtnNum tr st hfit hown hval
    have hown0 := hown 0 (Nat.succ_pos n)
    have hval0 := hval 0 (Nat.succ_pos n)
    simp only [Nat.add_zero] at hown0 hval0
    have hV : XLoader_PrtnHdrValidation c env PdiPtr PrtnNum
        = env.XilPdi_ValidatePrtnHdr (PdiPtr.MetaHdr.PrtnHdr PrtnNum) := by
      simp [XLoader_PrtnHdrValidation, hown0]
    have hV0 : XLoader_validationStatus c env PdiPtr PrtnNum tr 0
        = XLoader_PrtnHdrValidation c env PdiPtr PrtnNum := rfl
    have hP0 : XLoader_processingStatus c env PdiPtr PrtnNum tr 0
        = (XLoader_ProcessPrtn c env PdiPtr PrtnNum tr).1 := rfl
    have hmark : ¬ XLoader_PrtnHdrValidation c env PdiPtr PrtnNum
        = XLOADER_SUCCESS_NOT_PRTN_OWNER := by rw [hV]; exact hval0
    unfold XLoader_LoadImagePrtns_loop
    simp only []
    rw [if_neg hmark]
    by_cases hs : XST_SUCCESS = XLoader_PrtnHdrValidation c env PdiPtr PrtnNum
    · rw [if_neg (not_not.mpr hs)]
      by_cases hp : XST_SUCCESS = (XLoader_ProcessPrtn c env PdiPtr PrtnNum tr).1
      · rw [if_neg (not_not.mpr hp)]
        have hhdr := XLoader_ProcessPrtn_PrtnHdr c env PdiPtr PrtnNum tr
        have h32 : ∀ (Q : XilPdi) (t : List XLoader_Call) (s : List XLoader_Step),
            XLoader_LoadImagePrtns_loop c env n Q (u32 (PrtnNum + 1)) t s
              = XLoader_LoadImagePrtns_loop c env n Q (PrtnNum + 1) t s := by
          intro Q t s
          cases n with
          | zero => simp [XLoader_LoadImagePrtns_loop]
          | succ m =>
            have : u32 (PrtnNum + 1) = PrtnNum + 1 := by
              unfold u32; apply Nat.mod_eq_of_lt; omega
            rw [this]
        rw [h32]
        obtain ⟨ihA, ihB, ihC⟩ :=
          ih (XLoader_ProcessPrtn c env PdiPtr PrtnNum tr).2.1 (PrtnNum + 1)
            (XLoader_ProcessPrtn c env PdiPtr PrtnNum tr).2.2
            ((st ++ [XLoader_Step.validated PrtnNum
                (XLoader_PrtnHdrValidation c env PdiPtr PrtnNum)]) ++
              [XLoader_Step.processed PrtnNum (XLoader_ProcessPrtn c env PdiPtr PrtnNum tr).1])
            (by omega)
            (by intro j hj; rw [hhdr]; have := hown (j + 1) (by omega)
                rwa [show PrtnNum + (j + 1) = PrtnNum + 1 + j by omega] at this)
            (by intro j hj; rw [hhdr]; have := hval (j + 1) (by omega)
                rwa [show PrtnNum + (j + 1) = PrtnNum + 1 + j by omega] at this)
        refine ⟨?_, ?_, ?_⟩
        · intro hall
          have := ihA (fun j hj => by
            have h := hall (j + 1) (by omega)
            rwa [XLoader_validationStatus_succ, XLoader_processingStatus_succ] at h)
          obtain ⟨a1, a2, a3, a4⟩ := this
          refine ⟨a1, a2, a3, ?_⟩
          rw [a4, XLoader_stepsUpTo_succ]; simp
        · intro j hj hpre hfail
          cases j with
          | zero => exact absurd hs.symm (by rw [← hV0]; exact hfail)
          | succ j =>
            rw [XLoader_validationStatus_succ] at hfail
            have := ihB j (by omega) (fun i hi => by
              have h := hpre (i + 1) (by omega)
              rwa [XLoader_validationStatus_succ, XLoader_processingStatus_succ] at h) hfail
            obtain ⟨a1, a2, a3, a4⟩ := this
            rw [XLoader_validationStatus_succ]
            refine ⟨a1, a2, a3, ?_⟩
            rw [a4, XLoader_stepsUpTo_succ, show PrtnNum + (j + 1) = PrtnNum + 1 + j by omega]
            simp
        · intro j hj hpre hok hfail
          cases j with
          | zero => exact absurd hp.symm (by rw [← hP0]; exact hfail)
          | succ j =>
            rw [XLoader_validationStatus_succ] at hok
            rw [XLoader_processingStatus_succ] at hfail
            have := ihC j (by omega) (fun i hi => by
              have h := hpre (i + 1) (by omega)
              rwa [XLoader_validationStatus_succ, XLoader_processingStatus_succ] at h) hok hfail
            obtain ⟨a1, a2, a3, a4⟩ := this
            rw [XLoader_processingStatus_succ]
            refine ⟨a1, a2, a3, ?_⟩
            rw [a4, XLoader_stepsUpTo_succ (j := j + 1)]; simp
      · rw [if_pos hp]
        refine ⟨?_, ?_, ?_⟩
        · intro hall
          exact absurd ((hall 0 (Nat.succ_pos n)).2.symm) (by rw [hP0]; exact hp)
        · intro j hj hpre hfail
          cases j with
          | zero => exact absurd hs.symm (by rw [← hV0]; exact hfail)
          | succ j =>
            exact absurd ((hpre 0 (Nat.succ_pos j)).2.symm) (by rw [hP0]; exact hp)
        · intro j hj hpre hok hfail
          cases j with
          | zero =>
            refine ⟨rfl, rfl, rfl, ?_⟩
            rw [XLoader_stepsUpTo_succ]; simp [XLoader_stepsUpTo]
          | succ j =>
            exact absurd ((hpre 0 (Nat.succ_pos j)).2.symm) (by rw [hP0]; exact hp)
    · rw [if_pos hs]
      refine ⟨?_, ?_, ?_⟩
      · intro hall
        exact absurd ((hall 0 (Nat.succ_pos n)).1.symm) (by rw [hV0]; exact hs)
      · intro j hj hpre hfail
        cases j with
        | zero =>
          refine ⟨rfl, rfl, rfl, ?_⟩
          simp [XLoader_stepsUpTo, hV0]
        | succ j =>
          exact absurd ((hpre 0 (Nat.succ_pos j)).1.symm) (by rw [hV0]; exact hs)
      · intro j hj hpre hok hfail
        cases j with
        | zero => exact absurd (hV0 ▸ hok).symm hs
        | succ j =>
          exact absurd ((hpre 0 (Nat.succ_pos j)).1.symm) (by rw [hV0]; exact hs)

/-- C2 (amended): on an image whose `NoOfPrtns` partitions from `PrtnNum` on all
belong to the PLM and whose header validation never returns the marker
`XLOADER_SUCCESS_NOT_PRTN_OWNER`, `XLoader_LoadImagePrtns` validates and
processes the partitions one by one in increasing partition number.  It returns
`XST_SUCCESS` exactly when every validation by `XLoader_PrtnHdrValidation` and
every processing by `XLoader_ProcessPrtn` returned `XST_SUCCESS`; the instance
and the outside calls are then those of processing all the partitions in turn.
Otherwise it returns the status of the first failing step, and the steps, the
instance and the outside calls are those up to that step: no later partition is
validated or processed.  With zero partitions the result is `XST_SUCCESS` and
nothing is done. -/
theorem XLoader_LoadImagePrtns_all_owned (c : XLoader_Consts) (env : XLoader_Env)
    (PdiPtr : XilPdi) (ImgNum PrtnNum : Nat) (tr : List XLoader_Call)
    (hfit : PrtnNum + PdiPtr.MetaHdr.NoOfPrtns ImgNum ≤ 2 ^ 32)
    (hown : ∀ j, j < PdiPtr.MetaHdr.NoOfPrtns ImgNum →
      env.XilPdi_GetPrtnOwner (PdiPtr.MetaHdr.PrtnHdr (PrtnNum + j))
        = c.XIH_PH_ATTRB_PRTN_OWNER_PLM)
    (hval : ∀ j, j < PdiPtr.MetaHdr.NoOfPrtns ImgNum →
      env.XilPdi_ValidatePrtnHdr (PdiPtr.MetaHdr.PrtnHdr (PrtnNum + j))
        ≠ XLOADER_SUCCESS_NOT_PRTN_OWNER) :
    (∃ rest, (XLoader_LoadImagePrtns c env PdiPtr ImgNum PrtnNum tr).steps.map XLoader_Step.key
        ++ rest = XLoader_stepOrder (PdiPtr.MetaHdr.NoOfPrtns ImgNum) PrtnNum) ∧
    ((XLoader_LoadImagePrtns c env PdiPtr ImgNum PrtnNum tr).Status = XST_SUCCESS ↔
      ∀ j, j < PdiPtr.MetaHdr.NoOfPrtns ImgNum →
        XLoader_validationStatus c env PdiPtr PrtnNum tr j = XST_SUCCESS ∧
        XLoader_processingStatus c env PdiPtr PrtnNum tr j = XST_SUCCESS) ∧
    ((XLoader_LoadImagePrtns c env PdiPtr ImgNum PrtnNum tr).Status = XST_SUCCESS →
      (XLoader_LoadImagePrtns c env PdiPtr ImgNum PrtnNum tr).PdiPtr
        = (XLoader_processedUpTo c env (PdiPtr.MetaHdr.NoOfPrtns ImgNum) PdiPtr PrtnNum tr).1 ∧
      (XLoader_LoadImagePrtns c env PdiPtr ImgNum PrtnNum tr).trace
        = (XLoader_processedUpTo c env (PdiPtr.MetaHdr.NoOfPrtns ImgNum) PdiPtr PrtnNum tr).2 ∧
      (XLoader_LoadImagePrtns c env PdiPtr ImgNum PrtnNum tr).steps
        = XLoader_stepsUpTo c env PdiPtr PrtnNum tr (PdiPtr.MetaHdr.NoOfPrtns ImgNum)) ∧
    (∀ j, j < PdiPtr.MetaHdr.NoOfPrtns ImgNum →
      (∀ i, i < j → XLoader_validationStatus c env PdiPtr PrtnNum tr i = XST_SUCCESS ∧
        XLoader_processingStatus c env PdiPtr PrtnNum tr i = XST_SUCCESS) →
      XLoader_validationStatus c env PdiPtr PrtnNum tr j ≠ XST_SUCCESS →
      (XLoader_LoadImagePrtns c env PdiPtr ImgNum PrtnNum tr).Status
        = XLoader_validationStatus c env PdiPtr PrtnNum tr j ∧
      (XLoader_LoadImagePrtns c env PdiPtr ImgNum PrtnNum tr).PdiPtr
        = (XLoader_processedUpTo c env j PdiPtr PrtnNum tr).1 ∧
      (XLoader_LoadImagePrtns c env PdiPtr ImgNum PrtnNum tr).trace
        = (XLoader_processedUpTo c env j PdiPtr PrtnNum tr).2 ∧
      (XLoader_LoadImagePrtns c env PdiPtr ImgNum PrtnNum tr).steps
        = XLoader_stepsUpTo c env PdiPtr PrtnNum tr j ++
            [XLoader_Step.validated (PrtnNum + j)
              (XLoader_validationStatus c env PdiPtr PrtnNum tr j)]) ∧
    (∀ j, j < PdiPtr.MetaHdr.NoOfPrtns ImgNum →
      (∀ i, i < j → XLoader_validationStatus c env PdiPtr PrtnNum tr i = XST_SUCCESS ∧
        XLoader_processingStatus c env PdiPtr PrtnNum tr i = XST_SUCCESS) →
      XLoader_validationStatus c env PdiPtr PrtnNum tr j = XST_SUCCESS →
      XLoader_processingStatus c env PdiPtr PrtnNum tr j ≠ XST_SUCCESS →
      (XLoader_LoadImagePrtns c env PdiPtr ImgNum PrtnNum tr).Status
        = XLoader_processingStatus c env PdiPtr PrtnNum tr j ∧
      (XLoader_LoadImagePrtns c env PdiPtr ImgNum PrtnNum tr).PdiPtr
        = (XLoader_processedUpTo c env (j + 1) PdiPtr PrtnNum tr).1 ∧
      (XLoader_LoadImagePrtns c env PdiPtr ImgNum PrtnNum tr).trace
        = (XLoader_processedUpTo c env (j + 1) PdiPtr PrtnNum tr).2 ∧
      (XLoader_LoadImagePrtns c env PdiPtr ImgNum PrtnNum tr).steps
        = XLoader_stepsUpTo c env PdiPtr PrtnNum tr (j + 1)) ∧
    (PdiPtr.MetaHdr.NoOfPrtns ImgNum = 0 →
      (XLoader_LoadImagePrtns c env PdiPtr ImgNum PrtnNum tr).Status = XST_SUCCESS ∧
      (XLoader_LoadImagePrtns c env PdiPtr ImgNum PrtnNum tr).steps = [] ∧
      (XLoader_LoadImagePrtns c env PdiPtr ImgNum PrtnNum tr).PdiPtr = PdiPtr ∧
      (XLoader_LoadImagePrtns c env PdiPtr ImgNum PrtnNum tr).trace = tr) := by
  obtain ⟨new, h1, h2, _⟩ :=
    XLoader_LoadImagePrtns_loop_owned c env (PdiPtr.MetaHdr.NoOfPrtns ImgNum) PdiPtr PrtnNum tr []
      hfit hown hval
  obtain ⟨hA, hB, hC⟩ :=
    XLoader_LoadImagePrtns_loop_run c env (PdiPtr.MetaHdr.NoOfPrtns ImgNum) PdiPtr PrtnNum tr []
      hfit hown hval
  simp only [List.nil_append] at h1 hA hB hC
  have hall : (XLoader_LoadImagePrtns c env PdiPtr ImgNum PrtnNum tr).Status = XST_SUCCESS →
      ∀ j, j < PdiPtr.MetaHdr.NoOfPrtns ImgNum →
        XLoader_validationStatus c env PdiPtr PrtnNum tr j = XST_SUCCESS ∧
        XLoader_processingStatus c env PdiPtr PrtnNum tr j = XST_SUCCESS := by
    intro hS j
    induction j using Nat.strong_induction_on with
    | _ j ihj =>
      intro hj
      have hpre : ∀ i, i < j →
          XLoader_validationStatus c env PdiPtr PrtnNum tr i = XST_SUCCESS ∧
          XLoader_processingStatus c env PdiPtr PrtnNum tr i = XST_SUCCESS :=
        fun i hi => ihj i hi (by omega)
      by_cases hv : XLoader_validationStatus c env PdiPtr PrtnNum tr j = XST_SUCCESS
      · by_cases hp : XLoader_processingStatus c env PdiPtr PrtnNum tr j = XST_SUCCESS
        · exact ⟨hv, hp⟩
        · have := (hC j hj hpre hv hp).1
          unfold XLoader_LoadImagePrtns at hS
          rw [hS] at this
          exact absurd this.symm hp
      · have := (hB j hj hpre hv).1
        unfold XLoader_LoadImagePrtns at hS
        rw [hS] at this
        exact absurd this.symm hv
  unfold XLoader_LoadImagePrtns at hall ⊢
  refine ⟨?_, ⟨hall, fun h => (hA h).1⟩, fun h => (hA (hall h)).2, hB, hC, ?_⟩
  · rw [h1]; exact h2
  · intro h0
    rw [h0]
    simp [XLoader_LoadImagePrtns_loop]

/-- C2, concrete instance: an image of two ELF partitions of the PLM read from
QSPI with every outside call succeeding.  Both partitions are validated and
processed, in this order, with six outside calls in all, and the result is
`XST_SUCCESS`. -/
theorem XLoader_LoadImagePrtns_all_owned_witness :
    (XLoader_LoadImagePrtns XLoader_sampleConsts XLoader_sampleEnv
        (XLoader_samplePdi (fun _ => 0x1000100)) 0 0 []).Status = XST_SUCCESS ∧
    (XLoader_LoadImagePrtns XLoader_sampleConsts XLoader_sampleEnv
        (XLoader_samplePdi (fun _ => 0x1000100)) 0 0 []).steps
      = [XLoader_Step.validated 0 XST_SUCCESS, XLoader_Step.processed 0 XST_SUCCESS,
         XLoader_Step.validated 1 XST_SUCCESS, XLoader_Step.processed 1 XST_SUCCESS] ∧
    (XLoader_LoadImagePrtns XLoader_sampleConsts XLoader_sampleEnv
        (XLoader_samplePdi (fun _ => 0x1000100)) 0 0 []).trace
      = (XLoader_processedUpTo XLoader_sampleConsts XLoader_sampleEnv 2
          (XLoader_samplePdi (fun _ => 0x1000100)) 0 []).2 ∧
    (XLoader_LoadImagePrtns XLoader_sampleConsts XLoader_sampleEnv
        (XLoader_samplePdi (fun _ => 0x1000100)) 0 0 []).trace.length = 6 := by
  have h := XLoader_LoadImagePrtns_all_owned XLoader_sampleConsts XLoader_sampleEnv
    (XLoader_samplePdi (fun _ => 0x1000100)) 0 0 [] (by decide)
    (fun j _ => by
      show XLoader_sampleEnv.XilPdi_GetPrtnOwner (XLoader_samplePrtnHdr 0x1000100)
        = XLoader_sampleConsts.XIH_PH_ATTRB_PRTN_OWNER_PLM
      decide)
    (fun j _ => by
      show XLoader_sampleEnv.XilPdi_ValidatePrtnHdr (XLoader_samplePrtnHdr 0x1000100)
        ≠ XLOADER_SUCCESS_NOT_PRTN_OWNER
      decide)
  have hs : (XLoader_LoadImagePrtns XLoader_sampleConsts XLoader_sampleEnv
        (XLoader_samplePdi (fun _ => 0x1000100)) 0 0 []).Status = XST_SUCCESS :=
    h.2.1.mpr (by
      show ∀ j, j < 2 → _
      decide)
  obtain ⟨_, h3, h4⟩ := h.2.2.1 hs
  refine ⟨hs, ?_, h3, by decide⟩
  rw [h4]
  decide

/-- C2 (as stated, refuted by evaluation): an image of two ELF partitions that
both belong to the PLM, with a header validation `XilPdi_ValidatePrtnHdr` that
returns 0x100.  The validation of partition 0 returns 0x100, which is not
`XST_SUCCESS`, and `XLoader_LoadImagePrtns` returns `XST_SUCCESS` all the same:
the loop reads the value as its marker `XLOADER_SUCCESS_NOT_PRTN_OWNER`. -/
theorem XLoader_LoadImagePrtns_marker_collision :
    (∀ j, j < (XLoader_samplePdi (fun _ => 0x1000100)).MetaHdr.NoOfPrtns 0 →
      XLoader_sampleEnvMarker.XilPdi_GetPrtnOwner
        ((XLoader_samplePdi (fun _ => 0x1000100)).MetaHdr.PrtnHdr (0 + j))
        = XLoader_sampleConsts.XIH_PH_ATTRB_PRTN_OWNER_PLM) ∧
    XLoader_validationStatus XLoader_sampleConsts XLoader_sampleEnvMarker
      (XLoader_samplePdi (fun _ => 0x1000100)) 0 [] 0 = 0x100 ∧
    (0x100 : Int) ≠ XST_SUCCESS ∧
    (XLoader_LoadImagePrtns XLoader_sampleConsts XLoader_sampleEnvMarker
      (XLoader_samplePdi (fun _ => 0x1000100)) 0 0 []).Status = XST_SUCCESS ∧
    (XLoader_LoadImagePrtns XLoader_sampleConsts XLoader_sampleEnvMarker
      (XLoader_samplePdi (fun _ => 0x1000100)) 0 0 []).steps
        = [XLoader_Step.validated 0 0x100] ∧
    ¬ ((XLoader_LoadImagePrtns XLoader_sampleConsts XLoader_sampleEnvMarker
        (XLoader_samplePdi (fun _ => 0x1000100)) 0 0 []).Status = XST_SUCCESS ↔
      ∀ j, j < (XLoader_samplePdi (fun _ => 0x1000100)).MetaHdr.NoOfPrtns 0 →
        XLoader_validationStatus XLoader_sampleConsts XLoader_sampleEnvMarker
          (XLoader_samplePdi (fun _ => 0x1000100)) 0 [] j = XST_SUCCESS ∧
        XLoader_processingStatus XLoader_sampleConsts XLoader_sampleEnvMarker
          (XLoader_samplePdi (fun _ => 0x1000100)) 0 [] j = XST_SUCCESS) := by
  refine ⟨?_, by decide, by decide, by decide, by decide, ?_⟩
  · show ∀ j, j < 2 → _
    decide
  · show ¬ (_ ↔ ∀ j, j < 2 → _)
    decide

/-- The delay-load path of `XLoader_ProcessPrtn` for any PDI instance: with
`CopyToMem` clear, `DelayLoad` set and a boot source other than JTAG, SBI, SMAP
and PCIe, no outside call is made and the status is `XST_FAILURE`. -/
theorem XLoader_ProcessPrtn_delayLoad_skip (c : XLoader_Consts) (env : XLoader_Env)
    (PdiPtr : XilPdi) (PrtnNum : Nat) (tr : List XLoader_Call)
    (hcopy : PdiPtr.CopyToMem = false) (hdelay : PdiPtr.DelayLoad = true)
    (hsrc : PdiPtr.PdiSrc ≠ PdiSrc_t.XLOADER_PDI_SRC_JTAG ∧
      PdiPtr.PdiSrc ≠ PdiSrc_t.XLOADER_PDI_SRC_SBI ∧
      PdiPtr.PdiSrc ≠ PdiSrc_t.XLOADER_PDI_SRC_SMAP ∧
      PdiPtr.PdiSrc ≠ PdiSrc_t.XLOADER_PDI_SRC_PCIE) :
    (XLoader_ProcessPrtn c env PdiPtr PrtnNum tr).1 = XST_FAILURE ∧
    (XLoader_ProcessPrtn c env PdiPtr PrtnNum tr).2.2 = tr := by
  obtain ⟨h1, h2, h3, h4⟩ := hsrc
  simp [XLoader_ProcessPrtn, hcopy, hdelay, h1, h2, h3, h4]
  split_ifs <;> simp_all

/-- C3 (evaluation of the code): with `DelayLoad` set, `CopyToMem` clear and a
boot source other than JTAG, SBI, SMAP and PCIe (here QSPI), `XLoader_ProcessPrtn`
makes no outside call at all and returns `XST_FAILURE`, the initial value of
`Status`; the same holds for the source JTAG and a partition of length zero.
This holds for all constants and all behaviours of the outside functions. -/
theorem XLoader_ProcessPrtn_delayLoad_status (c : XLoader_Consts) (env : XLoader_Env)
    (attrb : Nat → Nat) (PrtnNum : Nat) (tr : List XLoader_Call) :
    ((XLoader_ProcessPrtn c env { XLoader_samplePdi attrb with DelayLoad := true }
        PrtnNum tr).1 = XST_FAILURE ∧
     (XLoader_ProcessPrtn c env { XLoader_samplePdi attrb with DelayLoad := true }
        PrtnNum tr).2.2 = tr) ∧
    ((XLoader_ProcessPrtn c env
        { XLoader_samplePdi attrb with
          DelayLoad := true, PdiSrc := PdiSrc_t.XLOADER_PDI_SRC_JTAG,
          MetaHdr := { (XLoader_samplePdi attrb).MetaHdr with
            PrtnHdr := fun k => { XLoader_samplePrtnHdr (attrb k) with TotalDataWordLen := 0 } } }
        PrtnNum tr).1 = XST_FAILURE ∧
     (XLoader_ProcessPrtn c env
        { XLoader_samplePdi attrb with
          DelayLoad := true, PdiSrc := PdiSrc_t.XLOADER_PDI_SRC_JTAG,
          MetaHdr := { (XLoader_samplePdi attrb).MetaHdr with
            PrtnHdr := fun k => { XLoader_samplePrtnHdr (attrb k) with TotalDataWordLen := 0 } } }
        PrtnNum tr).2.2 = tr) := by
  refine ⟨?_, ?_⟩
  · simp [XLoader_ProcessPrtn, XLoader_samplePdi]
    split_ifs <;> simp_all
  · have h0 : u32 (0 * c.XIH_PRTN_WORD_LEN) = 0 := by simp [u32]
    simp [XLoader_ProcessPrtn, XLoader_samplePdi, XLoader_samplePrtnHdr, h0]
    split_ifs <;> simp_all [XLoader_ProcessPrtn_delayLoop]

/-- C4: `XLoader_GetLoadAddr` by destination CPU.  For R5_0 (resp. R5_1) with the
address in the TCM-A or TCM-B load window and `Len` at most the bank length the
base address of TCM-A of R5_0 (resp. R5_1) is added; for R5_L with the address
below four bank lengths and `Len` at most four bank lengths the base address of
TCM-A of R5_0 is added; when `Len` exceeds the bound in one of these cases the
result is the status made from `XLOADER_ERR_TCM_ADDR_OUTOF_RANGE` and the load
address is unchanged; in every other case the result is `XST_SUCCESS` and the
load address is unchanged.  The three CPU codes are distinct constants. -/
theorem XLoader_GetLoadAddr_cases (c : XLoader_Consts) (env : XLoader_Env)
    (DstnCpu LoadAddr Len : Nat)
    (h01 : c.XIH_PH_ATTRB_DSTN_CPU_R5_0 ≠ c.XIH_PH_ATTRB_DSTN_CPU_R5_1)
    (h0L : c.XIH_PH_ATTRB_DSTN_CPU_R5_0 ≠ c.XIH_PH_ATTRB_DSTN_CPU_R5_L)
    (h1L : c.XIH_PH_ATTRB_DSTN_CPU_R5_1 ≠ c.XIH_PH_ATTRB_DSTN_CPU_R5_L) :
    (DstnCpu = c.XIH_PH_ATTRB_DSTN_CPU_R5_0 → XLoader_inTcmWindow c LoadAddr →
      Len ≤ c.XLOADER_R5_TCM_BANK_LENGTH →
      XLoader_GetLoadAddr c env DstnCpu LoadAddr Len
        = (XST_SUCCESS, u64 (LoadAddr + c.XLOADER_R5_0_TCMA_BASE_ADDR))) ∧
    (DstnCpu = c.XIH_PH_ATTRB_DSTN_CPU_R5_1 → XLoader_inTcmWindow c LoadAddr →
      Len ≤ c.XLOADER_R5_TCM_BANK_LENGTH →
      XLoader_GetLoadAddr c env DstnCpu LoadAddr Len
        = (XST_SUCCESS, u64 (LoadAddr + c.XLOADER_R5_1_TCMA_BASE_ADDR))) ∧
    (DstnCpu = c.XIH_PH_ATTRB_DSTN_CPU_R5_L →
      LoadAddr < u32 (c.XLOADER_R5_TCM_BANK_LENGTH * 4) →
      Len ≤ u32 (c.XLOADER_R5_TCM_BANK_LENGTH * 4) →
      XLoader_GetLoadAddr c env DstnCpu LoadAddr Len
        = (XST_SUCCESS, u64 (LoadAddr + c.XLOADER_R5_0_TCMA_BASE_ADDR))) ∧
    ((DstnCpu = c.XIH_PH_ATTRB_DSTN_CPU_R5_0 ∨ DstnCpu = c.XIH_PH_ATTRB_DSTN_CPU_R5_1) →
      XLoader_inTcmWindow c LoadAddr → c.XLOADER_R5_TCM_BANK_LENGTH < Len →
      XLoader_GetLoadAddr c env DstnCpu LoadAddr Len
        = (env.XPlmi_UpdateStatus c.XLOADER_ERR_TCM_ADDR_OUTOF_RANGE 0, LoadAddr)) ∧
    (DstnCpu = c.XIH_PH_ATTRB_DSTN_CPU_R5_L →
      LoadAddr < u32 (c.XLOADER_R5_TCM_BANK_LENGTH * 4) →
      u32 (c.XLOADER_R5_TCM_BANK_LENGTH * 4) < Len →
      XLoader_GetLoadAddr c env DstnCpu LoadAddr Len
        = (env.XPlmi_UpdateStatus c.XLOADER_ERR_TCM_ADDR_OUTOF_RANGE 0, LoadAddr)) ∧
    (¬ ((DstnCpu = c.XIH_PH_ATTRB_DSTN_CPU_R5_0 ∨ DstnCpu = c.XIH_PH_ATTRB_DSTN_CPU_R5_1) ∧
          XLoader_inTcmWindow c LoadAddr) →
      ¬ (DstnCpu = c.XIH_PH_ATTRB_DSTN_CPU_R5_L ∧
          LoadAddr < u32 (c.XLOADER_R5_TCM_BANK_LENGTH * 4)) →
      XLoader_GetLoadAddr c env DstnCpu LoadAddr Len = (XST_SUCCESS, LoadAddr)) := by
  unfold XLoader_inTcmWindow
  refine ⟨?_, ?_, ?_, ?_, ?_, ?_⟩
  · intro hc hw hl
    have hl2 : ¬ Len > c.XLOADER_R5_TCM_BANK_LENGTH := Nat.not_lt.mpr hl
    have hw2 : LoadAddr < u32 (c.XLOADER_R5_TCMA_LOAD_ADDRESS + c.XLOADER_R5_TCM_BANK_LENGTH) ∨
        LoadAddr ≥ c.XLOADER_R5_TCMB_LOAD_ADDRESS ∧
        LoadAddr < u32 (c.XLOADER_R5_TCMB_LOAD_ADDRESS + c.XLOADER_R5_TCM_BANK_LENGTH) := hw
    unfold XLoader_GetLoadAddr
    simp only []
    rw [if_pos ⟨hc, hw2⟩, if_neg hl2]
  · intro hc hw hl
    have hl2 : ¬ Len > c.XLOADER_R5_TCM_BANK_LENGTH := Nat.not_lt.mpr hl
    have hw2 : LoadAddr < u32 (c.XLOADER_R5_TCMA_LOAD_ADDRESS + c.XLOADER_R5_TCM_BANK_LENGTH) ∨
        LoadAddr ≥ c.XLOADER_R5_TCMB_LOAD_ADDRESS ∧
        LoadAddr < u32 (c.XLOADER_R5_TCMB_LOAD_ADDRESS + c.XLOADER_R5_TCM_BANK_LENGTH) := hw
    have hn : DstnCpu ≠ c.XIH_PH_ATTRB_DSTN_CPU_R5_0 := fun h => h01 (h.symm.trans hc)
    unfold XLoader_GetLoadAddr
    simp only []
    rw [if_neg (fun h => hn h.1), if_pos ⟨hc, hw2⟩, if_neg hl2]
  · intro hc ha hl
    have hl2 : ¬ Len > u32 (c.XLOADER_R5_TCM_BANK_LENGTH * 4) := Nat.not_lt.mpr hl
    have hn0 : DstnCpu ≠ c.XIH_PH_ATTRB_DSTN_CPU_R5_0 := fun h => h0L (h.symm.trans hc)
    have hn1 : DstnCpu ≠ c.XIH_PH_ATTRB_DSTN_CPU_R5_1 := fun h => h1L (h.symm.trans hc)
    unfold XLoader_GetLoadAddr
    simp only []
    rw [if_neg (fun h => hn0 h.1), if_neg (fun h => hn1 h.1), if_pos ⟨hc, ha⟩, if_neg hl2]
  · intro hc hw hl
    have hw2 : LoadAddr < u32 (c.XLOADER_R5_TCMA_LOAD_ADDRESS + c.XLOADER_R5_TCM_BANK_LENGTH) ∨
        LoadAddr ≥ c.XLOADER_R5_TCMB_LOAD_ADDRESS ∧
        LoadAddr < u32 (c.XLOADER_R5_TCMB_LOAD_ADDRESS + c.XLOADER_R5_TCM_BANK_LENGTH) := hw
    have hl2 : Len > c.XLOADER_R5_TCM_BANK_LENGTH := hl
    unfold XLoader_GetLoadAddr
    simp only []
    rcases hc with hc | hc
    · rw [if_pos ⟨hc, hw2⟩, if_pos hl2]
    · have hn : DstnCpu ≠ c.XIH_PH_ATTRB_DSTN_CPU_R5_0 := fun h => h01 (h.symm.trans hc)
      rw [if_neg (fun h => hn h.1), if_pos ⟨hc, hw2⟩, if_pos hl2]
  · intro hc ha hl
    have hl2 : Len > u32 (c.XLOADER_R5_TCM_BANK_LENGTH * 4) := hl
    have hn0 : DstnCpu ≠ c.XIH_PH_ATTRB_DSTN_CPU_R5_0 := fun h => h0L (h.symm.trans hc)
    have hn1 : DstnCpu ≠ c.XIH_PH_ATTRB_DSTN_CPU_R5_1 := fun h => h1L (h.symm.trans hc)
    unfold XLoader_GetLoadAddr
    simp only []
    rw [if_neg (fun h => hn0 h.1), if_neg (fun h => hn1 h.1), if_pos ⟨hc, ha⟩, if_pos hl2]
  · intro h1 h2
    unfold XLoader_GetLoadAddr
    simp only []
    rw [if_neg (fun h => h1 ⟨Or.inl h.1, h.2⟩), if_neg (fun h => h1 ⟨Or.inr h.1, h.2⟩),
      if_neg h2]

/-- C4, concrete instance: an R5_1 partition loaded at offset 0x20100 of 0x800
bytes is moved to 0xFFEB0100. -/
theorem XLoader_GetLoadAddr_cases_witness :
    XLoader_GetLoadAddr XLoader_sampleConsts XLoader_sampleEnv 0x600 0x20100 0x800
      = (XST_SUCCESS, 0xFFEB0100) :=
  (XLoader_GetLoadAddr_cases XLoader_sampleConsts XLoader_sampleEnv 0x600 0x20100 0x800
    (by decide) (by decide) (by decide)).2.1 rfl (by unfold XLoader_inTcmWindow; decide)
    (by decide)

/-- The search loop of `XLoader_CheckHandoffCpu` finds an entry exactly when one
of the entries `Index`, ..., `Index + n - 1` carries the CPU. -/
theorem XLoader_CheckHandoffCpu_loop_iff (c : XLoader_Consts) (PdiPtr : XilPdi) (DstnCpu : Nat)
    (n : Nat) : ∀ Index : Nat,
    XLoader_CheckHandoffCpu_loop c PdiPtr DstnCpu n Index = true ↔
      ∃ i, Index ≤ i ∧ i < Index + n ∧
        Nat.land (PdiPtr.HandoffParam i).CpuSettings c.XIH_PH_ATTRB_DSTN_CPU_MASK = DstnCpu := by
  induction n with
  | zero =>
    intro Index
    simp only [XLoader_CheckHandoffCpu_loop, Nat.add_zero]
    constructor
    · intro h; cases h
    · rintro ⟨i, h1, h2, _⟩; omega
  | succ n ih =>
    intro Index
    simp only [XLoader_CheckHandoffCpu_loop]
    split_ifs with h
    · simp only [true_iff]
      exact ⟨Index, le_refl _, by omega, h⟩
    · rw [ih (Index + 1)]
      constructor
      · rintro ⟨i, h1, h2, h3⟩
        exact ⟨i, by omega, by omega, h3⟩
      · rintro ⟨i, h1, h2, h3⟩
        have hne : i ≠ Index := by
          intro he; rw [he] at h3; exact h h3
        exact ⟨i, by omega, by omega, h3⟩

/-- `XLoader_CheckHandoffCpu` returns `XST_SUCCESS` exactly for a CPU that is not
recorded. -/
theorem XLoader_CheckHandoffCpu_iff (c : XLoader_Consts) (PdiPtr : XilPdi) (DstnCpu : Nat) :
    XLoader_CheckHandoffCpu c PdiPtr DstnCpu = XST_SUCCESS ↔
      ¬ XLoader_cpuRecorded c PdiPtr DstnCpu := by
  unfold XLoader_CheckHandoffCpu XLoader_cpuRecorded
  have h := XLoader_CheckHandoffCpu_loop_iff c PdiPtr DstnCpu PdiPtr.NoOfHandoffCpus 0
  simp only [Nat.zero_le, true_and, Nat.zero_add] at h
  by_cases hb : XLoader_CheckHandoffCpu_loop c PdiPtr DstnCpu PdiPtr.NoOfHandoffCpus 0 = true
  · rw [if_pos hb]
    have := h.mp hb
    simp [XST_SUCCESS, XST_FAILURE, this]
  · rw [if_neg hb]
    have : ¬ ∃ i, i < PdiPtr.NoOfHandoffCpus ∧
        Nat.land (PdiPtr.HandoffParam i).CpuSettings c.XIH_PH_ATTRB_DSTN_CPU_MASK = DstnCpu :=
      fun he => hb (h.mpr he)
    simp [this]

/-- C5: `XLoader_UpdateHandoffParam`.  For a handoff CPU (above `CPU_NONE`, at
most `CPU_PSM`) that is not recorded among the first `NoOfHandoffCpus` entries:
when the table is not full, exactly the entry number `NoOfHandoffCpus` is written
(settings = destination CPU | A72 execution state | vector location, handoff
address = `DstnExecutionAddr`), `NoOfHandoffCpus` grows by one, nothing else
changes and the status is `XST_SUCCESS`; when `XLOADER_MAX_HANDOFF_CPUS` entries
are recorded the status is the one made from `XLOADER_ERR_NUM_HANDOFF_CPUS` and
nothing changes.  In every other case the status is `XST_SUCCESS` and nothing
changes.  The table holds at most `XLOADER_MAX_HANDOFF_CPUS` entries, a 32-bit
constant. -/
theorem XLoader_UpdateHandoffParam_cases (c : XLoader_Consts) (env : XLoader_Env)
    (PdiPtr : XilPdi) (PrtnNum : Nat)
    (hcnt : PdiPtr.NoOfHandoffCpus ≤ c.XLOADER_MAX_HANDOFF_CPUS)
    (hmax : c.XLOADER_MAX_HANDOFF_CPUS < 2 ^ 32) :
    (c.XIH_PH_ATTRB_DSTN_CPU_NONE < env.XilPdi_GetDstnCpu (PdiPtr.MetaHdr.PrtnHdr PrtnNum) →
      env.XilPdi_GetDstnCpu (PdiPtr.MetaHdr.PrtnHdr PrtnNum) ≤ c.XIH_PH_ATTRB_DSTN_CPU_PSM →
      ¬ XLoader_cpuRecorded c PdiPtr (env.XilPdi_GetDstnCpu (PdiPtr.MetaHdr.PrtnHdr PrtnNum)) →
      PdiPtr.NoOfHandoffCpus ≠ c.XLOADER_MAX_HANDOFF_CPUS →
      XLoader_UpdateHandoffParam c env PdiPtr PrtnNum =
        (XST_SUCCESS,
          { PdiPtr with
            HandoffParam := Function.update PdiPtr.HandoffParam PdiPtr.NoOfHandoffCpus
              { CpuSettings :=
                  Nat.lor (Nat.lor (env.XilPdi_GetDstnCpu (PdiPtr.MetaHdr.PrtnHdr PrtnNum))
                    (env.XilPdi_GetA72ExecState (PdiPtr.MetaHdr.PrtnHdr PrtnNum)))
                    (env.XilPdi_GetVecLocation (PdiPtr.MetaHdr.PrtnHdr PrtnNum)),
                HandoffAddr := (PdiPtr.MetaHdr.PrtnHdr PrtnNum).DstnExecutionAddr },
            NoOfHandoffCpus := PdiPtr.NoOfHandoffCpus + 1 })) ∧
    (c.XIH_PH_ATTRB_DSTN_CPU_NONE < env.XilPdi_GetDstnCpu (PdiPtr.MetaHdr.PrtnHdr PrtnNum) →
      env.XilPdi_GetDstnCpu (PdiPtr.MetaHdr.PrtnHdr PrtnNum) ≤ c.XIH_PH_ATTRB_DSTN_CPU_PSM →
      ¬ XLoader_cpuRecorded c PdiPtr (env.XilPdi_GetDstnCpu (PdiPtr.MetaHdr.PrtnHdr PrtnNum)) →
      PdiPtr.NoOfHandoffCpus = c.XLOADER_MAX_HANDOFF_CPUS →
      XLoader_UpdateHandoffParam c env PdiPtr PrtnNum =
        (env.XPlmi_UpdateStatus c.XLOADER_ERR_NUM_HANDOFF_CPUS 0, PdiPtr)) ∧
    ((env.XilPdi_GetDstnCpu (PdiPtr.MetaHdr.PrtnHdr PrtnNum) ≤ c.XIH_PH_ATTRB_DSTN_CPU_NONE ∨
      c.XIH_PH_ATTRB_DSTN_CPU_PSM < env.XilPdi_GetDstnCpu (PdiPtr.MetaHdr.PrtnHdr PrtnNum) ∨
      XLoader_cpuRecorded c PdiPtr (env.XilPdi_GetDstnCpu (PdiPtr.MetaHdr.PrtnHdr PrtnNum))) →
      XLoader_UpdateHandoffParam c env PdiPtr PrtnNum = (XST_SUCCESS, PdiPtr)) := by
  refine ⟨?_, ?_, ?_⟩
  · intro h1 h2 h3 h4
    have hck := (XLoader_CheckHandoffCpu_iff c PdiPtr _).mpr h3
    have h32 : u32 (PdiPtr.NoOfHandoffCpus + 1) = PdiPtr.NoOfHandoffCpus + 1 := by
      unfold u32; apply Nat.mod_eq_of_lt; omega
    unfold XLoader_UpdateHandoffParam
    simp only []
    rw [if_pos ⟨h1, h2⟩, if_pos hck, if_neg h4, h32]
  · intro h1 h2 h3 h4
    have hck := (XLoader_CheckHandoffCpu_iff c PdiPtr _).mpr h3
    unfold XLoader_UpdateHandoffParam
    simp only []
    rw [if_pos ⟨h1, h2⟩, if_pos hck, if_pos h4]
  · intro h
    unfold XLoader_UpdateHandoffParam
    simp only []
    by_cases hr : env.XilPdi_GetDstnCpu (PdiPtr.MetaHdr.PrtnHdr PrtnNum) >
          c.XIH_PH_ATTRB_DSTN_CPU_NONE ∧
        env.XilPdi_GetDstnCpu (PdiPtr.MetaHdr.PrtnHdr PrtnNum) ≤ c.XIH_PH_ATTRB_DSTN_CPU_PSM
    · rw [if_pos hr]
      have hrec : XLoader_cpuRecorded c PdiPtr
          (env.XilPdi_GetDstnCpu (PdiPtr.MetaHdr.PrtnHdr PrtnNum)) := by
        rcases h with h | h | h
        · exact absurd hr.1 (Nat.not_lt.mpr h)
        · exact absurd hr.2 (Nat.not_le.mpr h)
        · exact h
      have hck : ¬ XLoader_CheckHandoffCpu c PdiPtr
          (env.XilPdi_GetDstnCpu (PdiPtr.MetaHdr.PrtnHdr PrtnNum)) = XST_SUCCESS :=
        fun hs => (XLoader_CheckHandoffCpu_iff c PdiPtr _).mp hs hrec
      rw [if_neg hck]
    · rw [if_neg hr]

/-- C5, concrete instance: the first partition of the sample image (an ELF for
the first A72 core) is recorded as entry 0 of an empty handoff table. -/
theorem XLoader_UpdateHandoffParam_cases_witness :
    (XLoader_UpdateHandoffParam XLoader_sampleConsts XLoader_sampleEnv
      (XLoader_samplePdi (fun _ => 0x1000100)) 0).1 = XST_SUCCESS ∧
    (XLoader_UpdateHandoffParam XLoader_sampleConsts XLoader_sampleEnv
      (XLoader_samplePdi (fun _ => 0x1000100)) 0).2.NoOfHandoffCpus = 1 ∧
    (XLoader_UpdateHandoffParam XLoader_sampleConsts XLoader_sampleEnv
      (XLoader_samplePdi (fun _ => 0x1000100)) 0).2.HandoffParam 0
        = { CpuSettings := 0x100, HandoffAddr := 0x1000 } := by
  have h := (XLoader_UpdateHandoffParam_cases XLoader_sampleConsts XLoader_sampleEnv
    (XLoader_samplePdi (fun _ => 0x1000100)) 0 (by decide) (by decide)).1
    (by decide) (by decide)
    (by unfold XLoader_cpuRecorded; rintro ⟨i, hi, _⟩; exact absurd hi (Nat.not_lt_zero i))
    (by decide)
  rw [h]
  exact ⟨rfl, rfl, by decide⟩

/-! ## Clock wizard -/

/-- C7: on a ready instance with `Config.NumClocks != 1` and `SetRate != 0`, both
`XClk_Wiz_SetRate` and `XClk_Wiz_SetRateHz` return `XST_FAILURE`, make no
register write and leave the instance, with `MVal`, `DVal` and `OVal`, as it
was. -/
theorem XClk_Wiz_SetRate_needs_single_clock (k : XClk_Wiz_Consts) (env : XClk_Wiz_Env)
    (InstancePtr : XClk_Wiz) (hw : XClk_Wiz_Hw) (SetRate : Nat)
    (hready : InstancePtr.IsReady = k.XIL_COMPONENT_IS_READY) (hrate : SetRate ≠ 0)
    (hnum : InstancePtr.Config.NumClocks ≠ 1) :
    XClk_Wiz_SetRate k env InstancePtr hw SetRate = some (XST_FAILURE, InstancePtr, hw) ∧
    XClk_Wiz_SetRateHz k env InstancePtr hw SetRate = some (XST_FAILURE, InstancePtr, hw) := by
  constructor
  · unfold XClk_Wiz_SetRate
    simp only []
    rw [if_neg (not_not.mpr hready), if_neg hrate, if_pos hnum]
  · unfold XClk_Wiz_SetRateHz
    simp only []
    rw [if_neg (not_not.mpr hready), if_neg hrate, if_pos hnum]

/-- C7, concrete instance: an instance with two output clocks. -/
theorem XClk_Wiz_SetRate_needs_single_clock_witness :
    (XClk_Wiz_SetRate XClk_Wiz_sampleConsts XClk_Wiz_sampleEnvUs
      { XClk_Wiz_sampleInst with Config := { XClk_Wiz_sampleInst.Config with NumClocks := 2 } }
      (XClk_Wiz_sampleHw 0) 100).map (fun r => (r.1, r.2.1, r.2.2.writes))
      = some (XST_FAILURE,
          { XClk_Wiz_sampleInst with
            Config := { XClk_Wiz_sampleInst.Config with NumClocks := 2 } }, []) := by
  rw [(XClk_Wiz_SetRate_needs_single_clock XClk_Wiz_sampleConsts XClk_Wiz_sampleEnvUs
    { XClk_Wiz_sampleInst with Config := { XClk_Wiz_sampleInst.Config with NumClocks := 2 } }
    (XClk_Wiz_sampleHw 0) 100 (by decide) (by decide) (by decide)).1]
  rfl

/-- The loop of `XClk_Wiz_WaitForLock` for a lock mask with bit 0 set: started
at `Count` with `10001 - Count` iterations allowed it returns, either with
`XST_SUCCESS` at the first read that is not zero, or with `XST_FAILURE` after
read number 10000 when every read was zero.  The number of waits is the number
of reads less one. -/
theorem XClk_Wiz_WaitForLock_loop_spec (k : XClk_Wiz_Consts) (read : Nat → Nat)
    (hlock : k.XCLK_WIZ_LOCK % 2 = 1) (n : Nat) :
    ∀ Count : Nat, Count + n = 10000 →
    ∃ r, XClk_Wiz_WaitForLock_loop k read (n + 1) Count = some r ∧
      r.sleeps + 1 = r.reads ∧ Count < r.reads ∧ r.reads ≤ 10001 ∧
      (∀ i, Count ≤ i → i < r.sleeps → read i = 0) ∧
      ((r.Status = XST_SUCCESS ∧ read r.sleeps ≠ 0) ∨
       (r.Status = XST_FAILURE ∧ r.reads = 10001 ∧ read 10000 = 0)) := by
  have hone : Nat.land 1 k.XCLK_WIZ_LOCK ≠ 0 := by
    show 1 &&& k.XCLK_WIZ_LOCK ≠ 0
    rw [Nat.one_and_eq_mod_two, hlock]; decide
  have hzero : ¬ Nat.land 0 k.XCLK_WIZ_LOCK ≠ 0 := by
    show ¬ 0 &&& k.XCLK_WIZ_LOCK ≠ 0
    simp
  induction n with
  | zero =>
    intro Count hc
    have hC : Count = 10000 := by omega
    subst hC
    unfold XClk_Wiz_WaitForLock_loop
    simp only []
    by_cases hr : read 10000 = 0
    · rw [if_pos hr, if_pos hone]
      simp only [if_true]
      exact ⟨_, rfl, rfl, by simp, by simp, fun i h1 h2 => by simp at h2; omega,
        Or.inr ⟨rfl, rfl, hr⟩⟩
    · rw [if_neg hr, if_neg hzero]
      exact ⟨_, rfl, rfl, by simp, by simp, fun i h1 h2 => by simp at h2; omega,
        Or.inl ⟨rfl, hr⟩⟩
  | succ n ih =>
    intro Count hc
    unfold XClk_Wiz_WaitForLock_loop
    simp only []
    by_cases hr : read Count = 0
    · rw [if_pos hr, if_pos hone, if_neg (by omega)]
      obtain ⟨r, h1, h2, h3, h4, h5, h6⟩ := ih (Count + 1) (by omega)
      refine ⟨r, h1, h2, by omega, h4, ?_, h6⟩
      intro i g1 g2
      rcases Nat.eq_or_lt_of_le g1 with he | hl
      · rw [← he]; exact hr
      · exact h5 i hl g2
    · rw [if_neg hr, if_neg hzero]
      exact ⟨_, rfl, rfl, by simp, by simp; omega, fun i h1 h2 => by simp at h2; omega,
        Or.inl ⟨rfl, hr⟩⟩

/-- `XClk_Wiz_WaitForLock` on a ready instance, for a lock mask with bit 0 set:
it always returns; it returns `XST_SUCCESS` exactly when one of its reads is not
zero, whatever the lock bit of that value, and `XST_FAILURE` only after 10001
reads that were all zero, separated by 10000 waits. -/
theorem XClk_Wiz_WaitForLock_returns (k : XClk_Wiz_Consts) (env : XClk_Wiz_Env)
    (InstancePtr : XClk_Wiz) (readSeq : Nat → Nat → Nat)
    (hready : InstancePtr.IsReady = k.XIL_COMPONENT_IS_READY)
    (hlock : k.XCLK_WIZ_LOCK % 2 = 1) :
    ∃ r off, XClk_Wiz_WaitForLock k env InstancePtr readSeq = some r ∧
      off = (if ¬ env.isVersal then k.XCLK_WIZ_STATUS_OFFSET else k.XCLK_WIZ_REG4_OFFSET) ∧
      r.sleeps + 1 = r.reads ∧ r.reads ≤ 10001 ∧
      (∀ i, i < r.sleeps → readSeq off i = 0) ∧
      ((r.Status = XST_SUCCESS ∧ readSeq off r.sleeps ≠ 0) ∨
       (r.Status = XST_FAILURE ∧ r.reads = 10001 ∧ r.sleeps = 10000 ∧
         readSeq off 10000 = 0)) := by
  unfold XClk_Wiz_WaitForLock
  simp only []
  rw [if_neg (not_not.mpr hready)]
  obtain ⟨r, h1, h2, _, h4, h5, h6⟩ :=
    XClk_Wiz_WaitForLock_loop_spec k
      (readSeq (if ¬ env.isVersal then k.XCLK_WIZ_STATUS_OFFSET else k.XCLK_WIZ_REG4_OFFSET))
      hlock 10000 0 (by omega)
  refine ⟨r, _, h1, rfl, h2, h4, fun i hi => h5 i (Nat.zero_le i) hi, ?_⟩
  rcases h6 with h | ⟨g1, g2, g3⟩
  · exact Or.inl h
  · exact Or.inr ⟨g1, g2, by omega, g3⟩

/-- C8 (evaluation of the code): the lock register reads 2 at every read, a
value whose lock bit `XCLK_WIZ_LOCK` (bit 0) is clear.  `XClk_Wiz_WaitForLock`
returns `XST_SUCCESS` after the first read, without waiting: the loop condition
`!ReadReg(..) & XCLK_WIZ_LOCK` only tests whether the value read is zero. -/
theorem XClk_Wiz_WaitForLock_nonzero_unlocked :
    Nat.land 2 XClk_Wiz_sampleConsts.XCLK_WIZ_LOCK = 0 ∧
    XClk_Wiz_WaitForLock XClk_Wiz_sampleConsts XClk_Wiz_sampleEnvUs XClk_Wiz_sampleInst
      (fun _ _ => 2) = some ⟨XST_SUCCESS, 1, 0⟩ := by
  decide

/-- `XClk_Wiz_SetLeafRateHz` on a platform other than Versal: it fails without a
register write when `SetRate` exceeds the VCO frequency read back; otherwise,
as long as the quotient fits in 32 bits, it writes the clamped quotient to the
divider register of the clock and succeeds. -/
theorem XClk_Wiz_SetLeafRateHz_us_fitting (k : XClk_Wiz_Consts) (env : XClk_Wiz_Env)
    (InstancePtr : XClk_Wiz) (hw : XClk_Wiz_Hw) (ClockId SetRate : Nat)
    (hready : InstancePtr.IsReady = k.XIL_COMPONENT_IS_READY) (hrate : SetRate ≠ 0)
    (hus : env.isVersal = false) :
    (XClk_Wiz_GetVco k env InstancePtr hw < SetRate →
      XClk_Wiz_SetLeafRateHz k env InstancePtr hw ClockId SetRate
        = some (XST_FAILURE, InstancePtr, hw)) ∧
    (SetRate ≤ XClk_Wiz_GetVco k env InstancePtr hw →
      XClk_Wiz_GetVco k env InstancePtr hw / SetRate < 2 ^ 32 →
      XClk_Wiz_SetLeafRateHz k env InstancePtr hw ClockId SetRate
        = some (XST_SUCCESS, InstancePtr,
            XClk_Wiz_WriteReg hw InstancePtr.Config.BaseAddr
              (u32 (k.XCLK_WIZ_ZYNQMP_REG2_OFFSET + u32 (ClockId * 12)))
              (XClk_Wiz_clampUs k (XClk_Wiz_GetVco k env InstancePtr hw / SetRate)))) := by
  constructor
  · intro h
    unfold XClk_Wiz_SetLeafRateHz
    simp only []
    rw [if_neg (not_not.mpr hready), if_neg hrate, hus]
    simp [h]
  · intro h hq
    have h32 : u32 (XClk_Wiz_GetVco k env InstancePtr hw / SetRate)
        = XClk_Wiz_GetVco k env InstancePtr hw / SetRate := by
      unfold u32; exact Nat.mod_eq_of_lt hq
    unfold XClk_Wiz_SetLeafRateHz XClk_Wiz_clampUs
    simp only []
    rw [if_neg (not_not.mpr hready), if_neg hrate, hus, h32]
    simp [Nat.not_lt.mpr h]

/-- C9 (evaluation of the code): platform other than Versal, input clock value
4194304, multiplier 128 and divider 125 in register 0, so that the VCO
frequency read back is 4294967296000; with `SetRate = 1000` the quotient is
`2^32`, above `XCLK_US_O_MAX = 128`.  `XClk_Wiz_SetLeafRateHz` keeps the low 32
bits of the quotient, which are 0, and writes the lower limit 1 to the divider
register instead of the upper limit 128. -/
theorem XClk_Wiz_SetLeafRateHz_quotient_cut :
    XClk_Wiz_GetVco XClk_Wiz_sampleConsts XClk_Wiz_sampleEnvUs
      { XClk_Wiz_sampleInst with
        Config := { XClk_Wiz_sampleInst.Config with PrimInClkFreq := 4194304 } }
      (XClk_Wiz_sampleHw 0x807D) = 4294967296000 ∧
    4294967296000 / 1000 = 2 ^ 32 ∧
    (XClk_Wiz_SetLeafRateHz XClk_Wiz_sampleConsts XClk_Wiz_sampleEnvUs
      { XClk_Wiz_sampleInst with
        Config := { XClk_Wiz_sampleInst.Config with PrimInClkFreq := 4194304 } }
      (XClk_Wiz_sampleHw 0x807D) 0 1000).map (fun r => (r.1, r.2.2.writes))
      = some (XST_SUCCESS, [(0xA0000000 + 0x208, 1)]) := by
  decide

/-! ## Frame buffer read -/

/-- Status of `XVFrmbufRd_SetMemFormat` in terms of the tests it makes, the last
being the value `FmtValid` of its switch, and the registers programmed on
success. -/
theorem XVFrmbufRd_SetMemFormat_status (e : XVFrmbufRd_ErrorCodes)
    (InstancePtr : XV_FrmbufRd_l2) (StrideInBytes : Nat) (MemFmt : XVidC_ColorFormat)
    (StrmOut : XVidC_VideoStream)
    (hppc : 0 < InstancePtr.Config.PixPerClk)
    (hwidth : InstancePtr.Config.PixPerClk ∣ StrmOut.Timing.HActive)
    (herr : e.XVFRMBUFRD_ERR_FRAME_SIZE_INVALID ≠ XST_SUCCESS ∧
      e.XVFRMBUFRD_ERR_STRIDE_MISALIGNED ≠ XST_SUCCESS ∧
      e.XVFRMBUFRD_ERR_VIDEO_FORMAT_MISMATCH ≠ XST_SUCCESS ∧
      e.XVFRMBUFRD_ERR_DISABLED_IN_HW ≠ XST_SUCCESS) :
    ∃ Status Inst,
      XVFrmbufRd_SetMemFormat e InstancePtr StrideInBytes MemFmt StrmOut = some (Status, Inst) ∧
      (Status = XST_SUCCESS ↔
        ((RdMemory2Live MemFmt = XVidC_ColorFormat.XVIDC_CSF_YCRCB_422 ∨
            RdMemory2Live MemFmt = XVidC_ColorFormat.XVIDC_CSF_YCRCB_420) →
          2 ∣ StrmOut.Timing.HActive) ∧
        (RdMemory2Live MemFmt = XVidC_ColorFormat.XVIDC_CSF_YCRCB_420 →
          2 ∣ StrmOut.Timing.VActive) ∧
        (2 * InstancePtr.Config.PixPerClk * 4) ∣ StrideInBytes ∧
        StrmOut.ColorFormatId = RdMemory2Live MemFmt ∧
        XVFrmbufRd_SetMemFormat_FmtValid InstancePtr.Config MemFmt = true) ∧
      (Status = XST_SUCCESS →
        Inst.Regs =
          { HwReg_width := some StrmOut.Timing.HActive,
            HwReg_height := some StrmOut.Timing.VActive,
            HwReg_stride := some StrideInBytes,
            HwReg_video_format := some MemFmt }) := by
  obtain ⟨he1, he2, he3, he4⟩ := herr
  have hw0 : ¬ StrmOut.Timing.HActive % InstancePtr.Config.PixPerClk ≠ 0 :=
    not_not.mpr (Nat.mod_eq_zero_of_dvd hwidth)
  unfold XVFrmbufRd_SetMemFormat
  simp only []
  rw [if_neg (Nat.pos_iff_ne_zero.mp hppc), if_neg hw0]
  by_cases h1 : (RdMemory2Live MemFmt = XVidC_ColorFormat.XVIDC_CSF_YCRCB_422 ∨
      RdMemory2Live MemFmt = XVidC_ColorFormat.XVIDC_CSF_YCRCB_420) ∧
      StrmOut.Timing.HActive % 2 ≠ 0
  · rw [if_pos h1]
    refine ⟨_, _, rfl, ?_, fun h => absurd h he1⟩
    constructor
    · intro h; exact absurd h he1
    · rintro ⟨g, _⟩
      exact absurd (Nat.mod_eq_zero_of_dvd (g h1.1)) h1.2
  rw [if_neg h1]
  by_cases h2 : RdMemory2Live MemFmt = XVidC_ColorFormat.XVIDC_CSF_YCRCB_420 ∧
      StrmOut.Timing.VActive % 2 ≠ 0
  · rw [if_pos h2]
    refine ⟨_, _, rfl, ?_, fun h => absurd h he1⟩
    constructor
    · intro h; exact absurd h he1
    · rintro ⟨_, g, _⟩
      exact absurd (Nat.mod_eq_zero_of_dvd (g h2.1)) h2.2
  rw [if_neg h2]
  by_cases h3 : StrideInBytes % (2 * InstancePtr.Config.PixPerClk * 4) ≠ 0
  · rw [if_pos h3]
    refine ⟨_, _, rfl, ?_, fun h => absurd h he2⟩
    constructor
    · intro h; exact absurd h he2
    · rintro ⟨_, _, g, _⟩
      exact absurd (Nat.mod_eq_zero_of_dvd g) h3
  rw [if_neg h3]
  by_cases h4 : StrmOut.ColorFormatId ≠ RdMemory2Live MemFmt
  · rw [if_pos h4]
    refine ⟨_, _, rfl, ?_, fun h => absurd h he3⟩
    constructor
    · intro h; exact absurd h he3
    · rintro ⟨_, _, _, g, _⟩
      exact absurd g h4
  rw [if_neg h4]
  have g1 : (RdMemory2Live MemFmt = XVidC_ColorFormat.XVIDC_CSF_YCRCB_422 ∨
      RdMemory2Live MemFmt = XVidC_ColorFormat.XVIDC_CSF_YCRCB_420) →
      2 ∣ StrmOut.Timing.HActive := by
    intro hl
    by_contra hn
    exact h1 ⟨hl, fun hz => hn (Nat.dvd_of_mod_eq_zero hz)⟩
  have g2 : RdMemory2Live MemFmt = XVidC_ColorFormat.XVIDC_CSF_YCRCB_420 →
      2 ∣ StrmOut.Timing.VActive := by
    intro hl
    by_contra hn
    exact h2 ⟨hl, fun hz => hn (Nat.dvd_of_mod_eq_zero hz)⟩
  have g3 : (2 * InstancePtr.Config.PixPerClk * 4) ∣ StrideInBytes :=
    Nat.dvd_of_mod_eq_zero (not_not.mp h3)
  have g4 : StrmOut.ColorFormatId = RdMemory2Live MemFmt := not_not.mp h4
  by_cases h5 : XVFrmbufRd_SetMemFormat_FmtValid InstancePtr.Config MemFmt = true
  · rw [if_pos h5]
    exact ⟨_, _, rfl, ⟨fun _ => ⟨g1, g2, g3, g4, h5⟩, fun _ => rfl⟩, fun _ => rfl⟩
  · rw [if_neg h5]
    refine ⟨_, _, rfl, ?_, fun h => absurd h he4⟩
    constructor
    · intro h; exact absurd h he4
    · rintro ⟨_, _, _, _, g⟩
      exact absurd g h5

/-- The switch of `XVFrmbufRd_SetMemFormat` sets `FmtValid` exactly for the memory
formats that are enabled in the hardware configuration. -/
theorem XVFrmbufRd_SetMemFormat_FmtValid_iff (Config : XV_frmbufrd_Config)
    (MemFmt : XVidC_ColorFormat) :
    XVFrmbufRd_SetMemFormat_FmtValid Config MemFmt = true ↔
      XVFrmbufRd_enabledInHw Config MemFmt := by
  unfold XVFrmbufRd_enabledInHw XVFrmbufRd_supportWords
  simp only [List.mem_cons, List.mem_singleton, List.not_mem_nil, or_false, exists_eq_or_imp,
    exists_eq_left]
  cases MemFmt <;> simp [XVFrmbufRd_SetMemFormat_FmtValid]

/-- C10: for an instance with `PixPerClk > 0` and a stream whose `HActive` is a
multiple of `PixPerClk`, `XVFrmbufRd_SetMemFormat` returns, and its status is
`XST_SUCCESS` exactly when, with `L = RdMemory2Live(MemFmt)`: `HActive` is even
if `L` is YCRCB_422 or YCRCB_420, `VActive` is even if `L` is YCRCB_420,
`StrideInBytes` is a multiple of `2 * PixPerClk * 4`, the colour format of the
stream equals `L`, and `MemFmt` is a memory format enabled in the hardware
configuration (its support word there is not zero).  In that case width,
height, stride and video format have been programmed with `HActive`, `VActive`,
`StrideInBytes` and `MemFmt`.  The error codes of the driver differ from
`XST_SUCCESS`. -/
theorem XVFrmbufRd_SetMemFormat_success_iff (e : XVFrmbufRd_ErrorCodes)
    (InstancePtr : XV_FrmbufRd_l2) (StrideInBytes : Nat) (MemFmt : XVidC_ColorFormat)
    (StrmOut : XVidC_VideoStream)
    (hppc : 0 < InstancePtr.Config.PixPerClk)
    (hwidth : InstancePtr.Config.PixPerClk ∣ StrmOut.Timing.HActive)
    (herr : e.XVFRMBUFRD_ERR_FRAME_SIZE_INVALID ≠ XST_SUCCESS ∧
      e.XVFRMBUFRD_ERR_STRIDE_MISALIGNED ≠ XST_SUCCESS ∧
      e.XVFRMBUFRD_ERR_VIDEO_FORMAT_MISMATCH ≠ XST_SUCCESS ∧
      e.XVFRMBUFRD_ERR_DISABLED_IN_HW ≠ XST_SUCCESS) :
    ∃ Status Inst,
      XVFrmbufRd_SetMemFormat e InstancePtr StrideInBytes MemFmt StrmOut = some (Status, Inst) ∧
      (Status = XST_SUCCESS ↔
        ((RdMemory2Live MemFmt = XVidC_ColorFormat.XVIDC_CSF_YCRCB_422 ∨
            RdMemory2Live MemFmt = XVidC_ColorFormat.XVIDC_CSF_YCRCB_420) →
          2 ∣ StrmOut.Timing.HActive) ∧
        (RdMemory2Live MemFmt = XVidC_ColorFormat.XVIDC_CSF_YCRCB_420 →
          2 ∣ StrmOut.Timing.VActive) ∧
        (2 * InstancePtr.Config.PixPerClk * 4) ∣ StrideInBytes ∧
        StrmOut.ColorFormatId = RdMemory2Live MemFmt ∧
        XVFrmbufRd_enabledInHw InstancePtr.Config MemFmt) ∧
      (Status = XST_SUCCESS →
        Inst.Regs =
          { HwReg_width := some StrmOut.Timing.HActive,
            HwReg_height := some StrmOut.Timing.VActive,
            HwReg_stride := some StrideInBytes,
            HwReg_video_format := some MemFmt }) := by
  obtain ⟨Status, Inst, h1, h2, h3⟩ :=
    XVFrmbufRd_SetMemFormat_status e InstancePtr StrideInBytes MemFmt StrmOut hppc hwidth herr
  refine ⟨Status, Inst, h1, ?_, h3⟩
  rw [h2, XVFrmbufRd_SetMemFormat_FmtValid_iff]

/-- C10, concrete instance: a 1920x1080 YCRCB_420 stream read from memory in the
format Y_UV8_420 with a stride of 1920 bytes and two samples per clock.  With
every memory format enabled the four registers are programmed and the status
is `XST_SUCCESS`; with Y_UV8_420 disabled in the hardware configuration the
status is `XVFRMBUFRD_ERR_DISABLED_IN_HW` (5 in the sample) and no register is
programmed. -/
theorem XVFrmbufRd_SetMemFormat_success_iff_witness :
    (XVFrmbufRd_SetMemFormat XVFrmbufRd_sampleErrorCodes XVFrmbufRd_sampleInst 1920
      XVidC_ColorFormat.XVIDC_CSF_MEM_Y_UV8_420
      { ColorFormatId := XVidC_ColorFormat.XVIDC_CSF_YCRCB_420,
        Timing := { HActive := 1920, VActive := 1080 } }).map (fun r => (r.1, r.2.Regs))
      = some (XST_SUCCESS,
          { HwReg_width := some 1920, HwReg_height := some 1080, HwReg_stride := some 1920,
            HwReg_video_format := some XVidC_ColorFormat.XVIDC_CSF_MEM_Y_UV8_420 }) ∧
    (XVFrmbufRd_SetMemFormat XVFrmbufRd_sampleErrorCodes XVFrmbufRd_sampleInstNoY_UV8_420 1920
      XVidC_ColorFormat.XVIDC_CSF_MEM_Y_UV8_420
      { ColorFormatId := XVidC_ColorFormat.XVIDC_CSF_YCRCB_420,
        Timing := { HActive := 1920, VActive := 1080 } }).map (fun r => (r.1, r.2.Regs))
      = some (5,
          { HwReg_width := none, HwReg_height := none, HwReg_stride := none,
            HwReg_video_format := none }) := by
  refine ⟨?_, by decide⟩
  obtain ⟨Status, Inst, h1, h2, h3⟩ :=
    XVFrmbufRd_SetMemFormat_success_iff XVFrmbufRd_sampleErrorCodes XVFrmbufRd_sampleInst 1920
      XVidC_ColorFormat.XVIDC_CSF_MEM_Y_UV8_420
      { ColorFormatId := XVidC_ColorFormat.XVIDC_CSF_YCRCB_420,
        Timing := { HActive := 1920, VActive := 1080 } }
      (by decide) (by decide) (by decide)
  have hs : Status = XST_SUCCESS :=
    h2.mpr ⟨fun _ => by decide, fun _ => by decide, by decide, by decide,
      ⟨(XVidC_ColorFormat.XVIDC_CSF_MEM_Y_UV8_420, 1), by decide, rfl, by decide⟩⟩
  rw [h1, Option.map_some']
  simp only [hs, h3 hs]

/-- The three buffer address functions on an aligned address: `XST_SUCCESS` and
one write of the address to the register of the function. -/
theorem XVFrmbufRd_SetBufferAddr_aligned (err : Int) (InstancePtr : XV_FrmbufRd_l2) (Addr : Nat)
    (hAddr : Addr ≠ 0) (hppc : 0 < InstancePtr.Config.PixPerClk)
    (hal : Addr % (2 * InstancePtr.Config.PixPerClk * 4) = 0) :
    XVFrmbufRd_SetBufferAddr err InstancePtr Addr
      = some (XST_SUCCESS, [XV_frmbufrd_BufWrite.HwReg_frm_buffer_V Addr]) ∧
    XVFrmbufRd_SetChromaBufferAddr err InstancePtr Addr
      = some (XST_SUCCESS, [XV_frmbufrd_BufWrite.HwReg_frm_buffer2_V Addr]) ∧
    XVFrmbufRd_SetVChromaBufferAddr err InstancePtr Addr
      = some (XST_SUCCESS, [XV_frmbufrd_BufWrite.HwReg_frm_buffer3_V Addr]) := by
  have hz : InstancePtr.Config.PixPerClk ≠ 0 := Nat.pos_iff_ne_zero.mp hppc
  simp [XVFrmbufRd_SetBufferAddr, XVFrmbufRd_SetChromaBufferAddr,
    XVFrmbufRd_SetVChromaBufferAddr, hAddr, hal, hz]

/-- The three buffer address functions on a misaligned address: the status is
the constant `XVFRMBUFRD_ERR_MEM_ADDR_MISALIGNED` and no register is written. -/
theorem XVFrmbufRd_SetBufferAddr_misaligned (err : Int) (InstancePtr : XV_FrmbufRd_l2)
    (Addr : Nat) (hAddr : Addr ≠ 0) (hppc : 0 < InstancePtr.Config.PixPerClk)
    (hal : Addr % (2 * InstancePtr.Config.PixPerClk * 4) ≠ 0) :
    XVFrmbufRd_SetBufferAddr err InstancePtr Addr = some (err, []) ∧
    XVFrmbufRd_SetChromaBufferAddr err InstancePtr Addr = some (err, []) ∧
    XVFrmbufRd_SetVChromaBufferAddr err InstancePtr Addr = some (err, []) := by
  have hz : InstancePtr.Config.PixPerClk ≠ 0 := Nat.pos_iff_ne_zero.mp hppc
  simp [XVFrmbufRd_SetBufferAddr, XVFrmbufRd_SetChromaBufferAddr,
    XVFrmbufRd_SetVChromaBufferAddr, hAddr, hal, hz]

/-- C11: each of `XVFrmbufRd_SetBufferAddr`, `XVFrmbufRd_SetChromaBufferAddr` and
`XVFrmbufRd_SetVChromaBufferAddr` accepts exactly the addresses aligned to the
AXI-MM width: for `Addr != 0` and `PixPerClk > 0` it returns `XST_SUCCESS` and
writes `Addr` to its frame buffer register if and only if `Addr` is a multiple
of `2 * PixPerClk * 4`; for any other address it writes no register. -/
theorem XVFrmbufRd_SetBufferAddr_accepts_aligned (err : Int) (InstancePtr : XV_FrmbufRd_l2)
    (Addr : Nat) (hAddr : Addr ≠ 0) (hppc : 0 < InstancePtr.Config.PixPerClk) :
    XVFrmbufRd_acceptsAligned err (XVFrmbufRd_SetBufferAddr err InstancePtr Addr)
      XV_frmbufrd_BufWrite.HwReg_frm_buffer_V (2 * InstancePtr.Config.PixPerClk * 4) Addr ∧
    XVFrmbufRd_acceptsAligned err (XVFrmbufRd_SetChromaBufferAddr err InstancePtr Addr)
      XV_frmbufrd_BufWrite.HwReg_frm_buffer2_V (2 * InstancePtr.Config.PixPerClk * 4) Addr ∧
    XVFrmbufRd_acceptsAligned err (XVFrmbufRd_SetVChromaBufferAddr err InstancePtr Addr)
      XV_frmbufrd_BufWrite.HwReg_frm_buffer3_V (2 * InstancePtr.Config.PixPerClk * 4) Addr := by
  by_cases hal : Addr % (2 * InstancePtr.Config.PixPerClk * 4) = 0
  · have hd : (2 * InstancePtr.Config.PixPerClk * 4) ∣ Addr := Nat.dvd_of_mod_eq_zero hal
    obtain ⟨h1, h2, h3⟩ := XVFrmbufRd_SetBufferAddr_aligned err InstancePtr Addr hAddr hppc hal
    unfold XVFrmbufRd_acceptsAligned
    rw [h1, h2, h3]
    refine ⟨⟨_, _, rfl, ?_, ?_, ?_, ?_⟩, ⟨_, _, rfl, ?_, ?_, ?_, ?_⟩,
      ⟨_, _, rfl, ?_, ?_, ?_, ?_⟩⟩ <;> simp [hd]
  · have hd : ¬ (2 * InstancePtr.Config.PixPerClk * 4) ∣ Addr :=
      fun h => hal (Nat.mod_eq_zero_of_dvd h)
    obtain ⟨h1, h2, h3⟩ := XVFrmbufRd_SetBufferAddr_misaligned err InstancePtr Addr hAddr hppc hal
    unfold XVFrmbufRd_acceptsAligned
    rw [h1, h2, h3]
    refine ⟨⟨_, _, rfl, ?_, ?_, ?_, ?_⟩, ⟨_, _, rfl, ?_, ?_, ?_, ?_⟩,
      ⟨_, _, rfl, ?_, ?_, ?_, ?_⟩⟩ <;> simp [hd]

/-- C11, concrete instance: two samples per clock, so an alignment of 16 bytes;
the address 0x1000 is written to the luma register with `XST_SUCCESS`. -/
theorem XVFrmbufRd_SetBufferAddr_accepts_aligned_witness :
    XVFrmbufRd_SetBufferAddr XVFrmbufRd_sampleErrMemAddrMisaligned XVFrmbufRd_sampleInst 0x1000
      = some (XST_SUCCESS, [XV_frmbufrd_BufWrite.HwReg_frm_buffer_V 0x1000]) := by
  obtain ⟨⟨Status, writes, h1, h2, _⟩, _⟩ :=
    XVFrmbufRd_SetBufferAddr_accepts_aligned XVFrmbufRd_sampleErrMemAddrMisaligned
      XVFrmbufRd_sampleInst 0x1000 (by decide) (by decide)
  obtain ⟨hs, hw⟩ := h2.mpr (by decide)
  rw [h1, hs, hw]

/-- C12 (behaviour of the code): for a non-zero address that is not a multiple
of the alignment `2 * PixPerClk * 4`, each of the three functions returns the
error code `XVFRMBUFRD_ERR_MEM_ADDR_MISALIGNED` of the driver, whatever its
value, and writes no register: the initial `XST_FAILURE` of `Status` is
overwritten on this path. -/
theorem XVFrmbufRd_SetBufferAddr_misaligned_code (err : Int) (InstancePtr : XV_FrmbufRd_l2)
    (Addr : Nat) (hAddr : Addr ≠ 0) (hppc : 0 < InstancePtr.Config.PixPerClk)
    (hal : ¬ (2 * InstancePtr.Config.PixPerClk * 4) ∣ Addr) :
    XVFrmbufRd_SetBufferAddr err InstancePtr Addr = some (err, []) ∧
    XVFrmbufRd_SetChromaBufferAddr err InstancePtr Addr = some (err, []) ∧
    XVFrmbufRd_SetVChromaBufferAddr err InstancePtr Addr = some (err, []) :=
  XVFrmbufRd_SetBufferAddr_misaligned err InstancePtr Addr hAddr hppc
    (fun h => hal (Nat.dvd_of_mod_eq_zero h))

/-- C12, concrete instance: two samples per clock, so an alignment of 16 bytes,
and the address 4, which is not zero and not aligned.  Each of the three
functions returns the error code for a misaligned address (3 in the sample),
which is neither `XST_SUCCESS` nor `XST_FAILURE`. -/
theorem XVFrmbufRd_SetBufferAddr_misaligned_code_witness :
    (XVFrmbufRd_SetBufferAddr XVFrmbufRd_sampleErrMemAddrMisaligned XVFrmbufRd_sampleInst 4
        = some (3, []) ∧
      XVFrmbufRd_SetChromaBufferAddr XVFrmbufRd_sampleErrMemAddrMisaligned
        XVFrmbufRd_sampleInst 4 = some (3, []) ∧
      XVFrmbufRd_SetVChromaBufferAddr XVFrmbufRd_sampleErrMemAddrMisaligned
        XVFrmbufRd_sampleInst 4 = some (3, [])) ∧
    (3 : Int) ≠ XST_SUCCESS ∧ (3 : Int) ≠ XST_FAILURE :=
  ⟨XVFrmbufRd_SetBufferAddr_misaligned_code XVFrmbufRd_sampleErrMemAddrMisaligned
    XVFrmbufRd_sampleInst 4 (by decide) (by decide) (by decide), by decide, by decide⟩

/-! ## CDO partitions -/

/-- Lines 474-494 of `XLoader_ProcessCdo` never change the double buffering flag
of the security parameters: `Is32kChunk` is set only on the branch taken when
double buffering is not requested, and the flag is set only when double
buffering is requested and `Is32kChunk` is set. -/
theorem XLoader_ProcessCdo_secureSetup_flag (c : XLoader_Consts) (k : XLoader_CdoConsts)
    (PdiVer : Nat) (DeviceCopy : XLoader_DeviceCopy) (SecureParams : XLoader_SecureParams_Cdo) :
    (XLoader_ProcessCdo_secureSetup c k PdiVer DeviceCopy SecureParams).IsDoubleBuffering
      = SecureParams.IsDoubleBuffering := by
  unfold XLoader_ProcessCdo_secureSetup XLoader_ProcessCdo_chunking
  by_cases hd : DeviceCopy.IsDoubleBuffering = true
  · simp [hd]
  · simp [hd]

/-- A trace without started copies stays so when a call of another kind is
appended. -/
theorem XLoader_CdoCall.noStart_append (tr : List XLoader_CdoCall) (x : XLoader_CdoCall)
    (h : ∀ cl ∈ tr, cl.isStartNextChunkCopy = false) (hx : x.isStartNextChunkCopy = false) :
    ∀ cl ∈ tr ++ [x], cl.isStartNextChunkCopy = false := by
  intro cl hcl
  rcases List.mem_append.mp hcl with h1 | h1
  · exact h cl h1
  · rw [List.mem_singleton.mp h1]; exact hx

/-- The copy of a chunk without security keeps the state free of started
copies of a next secure chunk. -/
theorem XLoader_ProcessCdo_plainChunk_noStart (c : XLoader_Consts) (k : XLoader_CdoConsts)
    (env : XLoader_CdoEnv) (PdiPtr : XilPdi_Cdo) (s : XLoader_CdoState) (h : s.noStart) :
    (XLoader_ProcessCdo_plainChunk c k env PdiPtr s).noStart := by
  obtain ⟨h1, h2⟩ := h
  unfold XLoader_ProcessCdo_plainChunk XLoader_CdoState.noStart
  simp only [XLoader_CdoEnv.call]
  split_ifs <;>
    first
    | exact ⟨h1, XLoader_CdoCall.noStart_append _ _ h2 rfl⟩
    | exact ⟨h1, XLoader_CdoCall.noStart_append _ _
        (XLoader_CdoCall.noStart_append _ _ h2 rfl) rfl⟩

/-- The processing of a secure chunk keeps the state free of started copies of
a next chunk, when the security library leaves the double buffering flag as it
is. -/
theorem XLoader_ProcessCdo_secureChunk_noStart (c : XLoader_Consts) (k : XLoader_CdoConsts)
    (env : XLoader_CdoEnv) (s : XLoader_CdoState)
    (henv : env.keepsDoubleBuffering) (h : s.noStart) :
    (XLoader_ProcessCdo_secureChunk c k env s).2.noStart := by
  obtain ⟨h1, h2⟩ := h
  have hk := (henv s.trace s.SecureParams s.ChunkLen s.LastChunk).trans h1
  unfold XLoader_ProcessCdo_secureChunk XLoader_CdoState.noStart
  simp only [XLoader_CdoEnv.call, hk, Bool.false_eq_true, false_and, if_false]
  split_ifs <;> exact ⟨hk, XLoader_CdoCall.noStart_append _ _ h2 rfl⟩

/-- The interpretation of a chunk keeps the state free of started copies of a
next secure chunk. -/
theorem XLoader_ProcessCdo_interpret_noStart (k : XLoader_CdoConsts) (env : XLoader_CdoEnv)
    (s : XLoader_CdoState) (h : s.noStart) :
    (XLoader_ProcessCdo_interpret k env s).2.noStart := by
  obtain ⟨h1, h2⟩ := h
  unfold XLoader_ProcessCdo_interpret XLoader_CdoState.noStart
  simp only [XLoader_CdoEnv.call]
  split_ifs <;> exact ⟨h1, XLoader_CdoCall.noStart_append _ _ h2 rfl⟩

/-- One pass of the chunk loop keeps the state free of started copies of a next
secure chunk. -/
theorem XLoader_ProcessCdo_chunk_noStart (c : XLoader_Consts) (k : XLoader_CdoConsts)
    (env : XLoader_CdoEnv) (PdiPtr : XilPdi_Cdo) (s : XLoader_CdoState)
    (henv : env.keepsDoubleBuffering) (h : s.noStart) :
    (XLoader_ProcessCdo_chunk c k env PdiPtr s).2.noStart := by
  have h0 : (XLoader_ProcessCdo_lastChunk s).noStart := by
    unfold XLoader_ProcessCdo_lastChunk
    split_ifs
    · exact h
    · exact h
  unfold XLoader_ProcessCdo_chunk
  simp only []
  split_ifs
  · exact XLoader_ProcessCdo_interpret_noStart k env _
      (XLoader_ProcessCdo_plainChunk_noStart c k env PdiPtr _ h0)
  · have hs := XLoader_ProcessCdo_secureChunk_noStart c k env _ henv h0
    revert hs
    cases XLoader_ProcessCdo_secureChunk c k env (XLoader_ProcessCdo_lastChunk s) with
    | mk o t =>
      cases o with
      | none => intro hs; exact XLoader_ProcessCdo_interpret_noStart k env t hs
      | some st => intro hs; exact hs

/-- The chunk loop ends in a state free of started copies of a next secure
chunk when it starts in one. -/
theorem XLoader_ProcessCdo_loop_noStart (c : XLoader_Consts) (k : XLoader_CdoConsts)
    (env : XLoader_CdoEnv) (PdiPtr : XilPdi_Cdo) (henv : env.keepsDoubleBuffering)
    (fuel : Nat) (s : XLoader_CdoState) (h : s.noStart)
    (r : Int × XLoader_CdoState)
    (hr : XLoader_ProcessCdo_loop c k env PdiPtr fuel s = some r) : r.2.noStart := by
  induction fuel generalizing s with
  | zero => simp [XLoader_ProcessCdo_loop] at hr
  | succ n ih =>
    unfold XLoader_ProcessCdo_loop at hr
    split_ifs at hr with hlen hdef
    · have hc := XLoader_ProcessCdo_chunk_noStart c k env PdiPtr s henv h
      revert hc hr
      cases XLoader_ProcessCdo_chunk c k env PdiPtr s with
      | mk o t =>
        cases o with
        | none => intro hr hc; exact ih t hc hr
        | some st =>
          intro hr hc
          simp only [Option.some.injEq] at hr
          rw [← hr]; exact hc
    · simp only [Option.some.injEq] at hr
      rw [← hr]; exact h
    · simp only [Option.some.injEq] at hr
      rw [← hr]; exact h

/-- C13 (behaviour of the code): double buffering of secure CDOs is never engaged by
`XLoader_ProcessCdo`.  When double buffering is requested the chunk length is
half the chunk memory and `Is32kChunk` stays FALSE, otherwise the request is
missing, so the test of line 491 fails for every input and the setup leaves
`SecureParams.IsDoubleBuffering` as the caller passed it.  With the flag clear
on entry and a security library that does not set it, every run that returns
ends with the flag clear and made no call of `XLoader_StartNextChunkCopy`. -/
theorem XLoader_ProcessCdo_secure_double_buffering_dead (c : XLoader_Consts)
    (k : XLoader_CdoConsts) (env : XLoader_CdoEnv) (PdiPtr : XilPdi_Cdo)
    (DeviceCopy : XLoader_DeviceCopy) (SecureParams : XLoader_SecureParams_Cdo) (fuel : Nat)
    (henv : env.keepsDoubleBuffering)
    (hflag : SecureParams.IsDoubleBuffering = false) :
    (XLoader_ProcessCdo_secureSetup c k PdiPtr.Pdi.MetaHdr.ImgHdrTblVersion DeviceCopy
        SecureParams).IsDoubleBuffering = false ∧
    ∀ r, XLoader_ProcessCdo c k env PdiPtr DeviceCopy SecureParams fuel = some r →
      r.2.SecureParams.IsDoubleBuffering = false ∧
      ∀ cl ∈ r.2.trace, cl.isStartNextChunkCopy = false := by
  have hset := (XLoader_ProcessCdo_secureSetup_flag c k PdiPtr.Pdi.MetaHdr.ImgHdrTblVersion
    DeviceCopy SecureParams).trans hflag
  refine ⟨hset, ?_⟩
  intro r hr
  unfold XLoader_ProcessCdo at hr
  refine XLoader_ProcessCdo_loop_noStart c k env PdiPtr henv fuel _ ⟨hset, ?_⟩ r hr
  intro cl hcl
  simp only [XLoader_CdoEnv.call, List.nil_append, List.mem_singleton] at hcl
  rw [hcl]; rfl

/-- C13, concrete instance: a secure CDO of three half chunks read from DDR with double
buffering requested, PDI version 4 and 2 * 32K fitting the 64K chunk memory.
The run returns XST_SUCCESS after three calls of `XLoader_ProcessSecurePrtn`,
with the double buffering flag clear and no call of
`XLoader_StartNextChunkCopy`. -/
theorem XLoader_ProcessCdo_secure_double_buffering_dead_witness :
    XLoader_sampleCdoDeviceCopy.IsDoubleBuffering = true ∧
    XLoader_sampleCdoSecureParams.SecureEn = true ∧
    XLoader_sampleCdoPdi.Pdi.MetaHdr.ImgHdrTblVersion ≠
      XLoader_sampleCdoConsts.XLOADER_PDI_VERSION_1 ∧
    XLoader_sampleCdoPdi.Pdi.MetaHdr.ImgHdrTblVersion ≠
      XLoader_sampleCdoConsts.XLOADER_PDI_VERSION_2 ∧
    2 * XLoader_sampleCdoConsts.XLOADER_SECURE_CHUNK_SIZE ≤
      XLoader_sampleConsts.XLOADER_CHUNK_SIZE ∧
    2 * (XLoader_ProcessCdo_chunking XLoader_sampleConsts XLoader_sampleCdoConsts
      XLoader_sampleCdoPdi.Pdi.MetaHdr.ImgHdrTblVersion XLoader_sampleCdoDeviceCopy
      XLoader_sampleCdoSecureParams).1 ≤ XLoader_sampleConsts.XLOADER_CHUNK_SIZE ∧
    (∃ s, XLoader_ProcessCdo XLoader_sampleConsts XLoader_sampleCdoConsts XLoader_sampleCdoEnv
        XLoader_sampleCdoPdi XLoader_sampleCdoDeviceCopy XLoader_sampleCdoSecureParams 10
        = some (XST_SUCCESS, s) ∧
      XLoader_CdoCall.countSecurePrtn s.trace = 3 ∧
      s.SecureParams.IsDoubleBuffering = false ∧
      ∀ cl ∈ s.trace, cl.isStartNextChunkCopy = false) := by
  refine ⟨by decide, by decide, by decide, by decide, by decide, by decide, ?_⟩
  have h := (XLoader_ProcessCdo_secure_double_buffering_dead XLoader_sampleConsts
    XLoader_sampleCdoConsts XLoader_sampleCdoEnv XLoader_sampleCdoPdi
    XLoader_sampleCdoDeviceCopy XLoader_sampleCdoSecureParams 10
    (fun _ _ _ _ => rfl) rfl).2
  cases hrun : XLoader_ProcessCdo XLoader_sampleConsts XLoader_sampleCdoConsts
      XLoader_sampleCdoEnv XLoader_sampleCdoPdi XLoader_sampleCdoDeviceCopy
      XLoader_sampleCdoSecureParams 10 with
  | none =>
    have : (XLoader_ProcessCdo XLoader_sampleConsts XLoader_sampleCdoConsts
      XLoader_sampleCdoEnv XLoader_sampleCdoPdi XLoader_sampleCdoDeviceCopy
      XLoader_sampleCdoSecureParams 10).isSome = true := by decide
    rw [hrun] at this
    exact absurd this (by decide)
  | some r =>
    obtain ⟨st, s⟩ := r
    have hst : st = XST_SUCCESS := by
      have : (XLoader_ProcessCdo XLoader_sampleConsts XLoader_sampleCdoConsts
        XLoader_sampleCdoEnv XLoader_sampleCdoPdi XLoader_sampleCdoDeviceCopy
        XLoader_sampleCdoSecureParams 10).map Prod.fst = some XST_SUCCESS := by decide
      rw [hrun] at this
      simpa using this
    have hcount : XLoader_CdoCall.countSecurePrtn s.trace = 3 := by
      have : (XLoader_ProcessCdo XLoader_sampleConsts XLoader_sampleCdoConsts
        XLoader_sampleCdoEnv XLoader_sampleCdoPdi XLoader_sampleCdoDeviceCopy
        XLoader_sampleCdoSecureParams 10).map
          (fun r => XLoader_CdoCall.countSecurePrtn r.2.trace) = some 3 := by decide
      rw [hrun] at this
      simpa using this
    subst hst
    exact ⟨s, rfl, hcount, h (XST_SUCCESS, s) hrun⟩

/-- The C test `!!(X & (1 << s))` is the bit `s` of `X`. -/
theorem XClk_Wiz_boolOf_land_bit (X s : Nat) :
    XClk_Wiz_boolOf (Nat.land X (1 <<< s)) = (X.testBit s).toNat := by
  show XClk_Wiz_boolOf (X &&& 1 <<< s) = (X.testBit s).toNat
  rw [Nat.one_shiftLeft, Nat.and_two_pow]
  have hp : 0 < 2 ^ s := Nat.pos_pow_of_pos s (by decide)
  cases X.testBit s
  · simp [XClk_Wiz_boolOf]
  · simp [XClk_Wiz_boolOf]

/-- The two registers of an output clock have different offsets. -/
theorem XClk_Wiz_RegisterOffsetO_next (k : XClk_Wiz_Consts) (ClockId : Nat) :
    u32 (XClk_Wiz_RegisterOffsetO k ClockId + 4) ≠ XClk_Wiz_RegisterOffsetO k ClockId := by
  have h : XClk_Wiz_RegisterOffsetO k ClockId < 2 ^ 32 := by
    unfold XClk_Wiz_RegisterOffsetO u32
    split_ifs <;> exact Nat.mod_lt _ (by decide)
  unfold u32
  omega

set_option maxRecDepth 100000 in
/-- Low and high time read back from the second register of an output clock. -/
theorem XClk_Wiz_highTime_readback :
    ∀ H < 256,
      Nat.land (u32 (Nat.lor H (u32 (H <<< 8)))) 0xFF = H ∧
      (Nat.land (u32 (Nat.lor H (u32 (H <<< 8)))) 0xFF00) >>> 8 = H := by
  unfold u32
  decide

/-- Registers of the output clock `ClockId` after `XClk_Wiz_UpdateO`, for a
divider within the limit. -/
theorem XClk_Wiz_UpdateO_regs (k : XClk_Wiz_Consts) (InstancePtr : XClk_Wiz) (hw : XClk_Wiz_Hw)
    (ClockId : Nat) (hO : InstancePtr.OVal ≤ k.versal.Omax) :
    (XClk_Wiz_UpdateO k InstancePtr hw ClockId).1 = InstancePtr ∧
    XClk_Wiz_ReadReg (XClk_Wiz_UpdateO k InstancePtr hw ClockId).2 InstancePtr.Config.BaseAddr
        (XClk_Wiz_RegisterOffsetO k ClockId) =
      u32 (Nat.lor (Nat.lor (Nat.lor
        (Nat.lor (Nat.lor k.XCLK_WIZ_REG3_PREDIV2 k.XCLK_WIZ_REG3_USED) k.XCLK_WIZ_REG3_MX)
        (u32 ((if InstancePtr.OVal % 4 ≤ 1 then 0 else 1) <<< 8)))
        (u32 ((InstancePtr.OVal % 2) <<< k.XCLK_WIZ_CLKOUT0_P5EN_SHIFT)))
        (u32 ((InstancePtr.OVal % 2) <<< k.XCLK_WIZ_CLKOUT0_P5FEDGE_SHIFT))) ∧
    XClk_Wiz_ReadReg (XClk_Wiz_UpdateO k InstancePtr hw ClockId).2 InstancePtr.Config.BaseAddr
        (u32 (XClk_Wiz_RegisterOffsetO k ClockId + 4)) =
      u32 (Nat.lor (InstancePtr.OVal / 4) (u32 ((InstancePtr.OVal / 4) <<< 8))) := by
  have hne := XClk_Wiz_RegisterOffsetO_next k ClockId
  have hne2 : InstancePtr.Config.BaseAddr + XClk_Wiz_RegisterOffsetO k ClockId ≠
      InstancePtr.Config.BaseAddr + u32 (XClk_Wiz_RegisterOffsetO k ClockId + 4) := by
    intro h
    exact hne (Nat.add_left_cancel h).symm
  unfold XClk_Wiz_UpdateO
  simp only [if_neg (Nat.not_lt.mpr hO), XClk_Wiz_WriteReg, XClk_Wiz_ReadReg]
  refine ⟨trivial, ?_, ?_⟩
  · rw [Function.update_noteq hne2, Function.update_same]
  · rw [Function.update_same]

/-- Bits P5EN and P5FEDGE of the first register of an output clock as written
by `XClk_Wiz_UpdateO`, under the conventions on the bit positions. -/
theorem XClk_Wiz_reg3_bits (A e b s1 s2 : Nat) (hs1 : s1 < 32) (hs2 : s2 < 32)
    (h12 : s1 ≠ s2) (h18 : s1 ≠ 8) (h28 : s2 ≠ 8)
    (hA1 : A.testBit s1 = false) (hA2 : A.testBit s2 = false) (he : e ≤ 1) (hb : b ≤ 1) :
    (u32 (Nat.lor (Nat.lor (Nat.lor A (u32 (e <<< 8))) (u32 (b <<< s1)))
      (u32 (b <<< s2)))).testBit s1 = decide (b = 1) ∧
    (u32 (Nat.lor (Nat.lor (Nat.lor A (u32 (e <<< 8))) (u32 (b <<< s1)))
      (u32 (b <<< s2)))).testBit s2 = decide (b = 1) := by
  have h256 : ∀ j, j ≠ 8 → Nat.testBit 256 j = false := by
    intro j hj
    have h : (256 : Nat) = 2 ^ 8 := rfl
    rw [h, Nat.testBit_two_pow]
    simp [Ne.symm hj]
  have hlor : ∀ x y : Nat, Nat.lor x y = x ||| y := fun _ _ => rfl
  unfold u32
  simp only [hlor, Nat.testBit_mod_two_pow, Nat.testBit_lor, hs1, hs2, hA1, hA2,
    decide_True, Bool.true_and, Bool.false_or]
  interval_cases e <;> interval_cases b <;>
    simp [Nat.one_shiftLeft, Nat.testBit_two_pow, h12, h18, h28, Ne.symm h12, Ne.symm h18,
      Ne.symm h28, h256 s1 h18, h256 s2 h28]
/-- The PREDIV2 bit reads back as set from the first register of an output
clock, being a bit of the 32-bit register. -/
theorem XClk_Wiz_reg3_prediv (P U M x y z : Nat) (hP0 : 0 < P) (hP : P < 2 ^ 32) :
    XClk_Wiz_boolOf (Nat.land (u32 (Nat.lor (Nat.lor (Nat.lor
      (Nat.lor (Nat.lor P U) M) x) y) z)) P) = 1 := by
  have hlor : ∀ a b : Nat, Nat.lor a b = a ||| b := fun _ _ => rfl
  have hland : ∀ a b : Nat, Nat.land a b = a &&& b := fun _ _ => rfl
  obtain ⟨i, hi⟩ := Nat.ne_zero_implies_bit_true (Nat.pos_iff_ne_zero.mp hP0)
  have hge := Nat.testBit_implies_ge hi
  have hi32 : i < 32 := by
    by_contra hcon
    have : 2 ^ 32 ≤ 2 ^ i := Nat.pow_le_pow_right (by decide) (Nat.not_lt.mp hcon)
    omega
  have hbit : (Nat.land (u32 (Nat.lor (Nat.lor (Nat.lor
      (Nat.lor (Nat.lor P U) M) x) y) z)) P).testBit i = true := by
    unfold u32
    simp only [hlor, hland, Nat.testBit_and, Nat.testBit_mod_two_pow, Nat.testBit_lor, hi, hi32,
      decide_True, Bool.true_and, Bool.true_or, Bool.and_true]
  unfold XClk_Wiz_boolOf
  rw [if_neg]
  intro h0
  rw [h0, Nat.zero_testBit] at hbit
  exact Bool.noConfusion hbit
/-- Divider reconstructed by `XClk_Wiz_GetRate` from the registers that
`XClk_Wiz_UpdateO` wrote for the divider `OVal`: the edge is taken from the
P5FEDGE bit (`OVal % 2`), not from the divider edge bit 8, so the result is
`4 * (OVal / 4) + 3 * (OVal % 2)`. -/
theorem XClk_Wiz_GetRate_DivO_UpdateO (k : XClk_Wiz_Consts) (r : XClk_Wiz_RateConsts)
    (InstancePtr : XClk_Wiz) (hw : XClk_Wiz_Hw) (ClockId : Nat)
    (hconv : XClk_Wiz_maskConventions k r) (hO : InstancePtr.OVal ≤ k.versal.Omax) :
    XClk_Wiz_GetRate_DivO k r (XClk_Wiz_UpdateO k InstancePtr hw ClockId).1
        (XClk_Wiz_UpdateO k InstancePtr hw ClockId).2 ClockId
      = 4 * (InstancePtr.OVal / 4) + 3 * (InstancePtr.OVal % 2) := by
  obtain ⟨hm1, hm2, hL, hH, hS, hs1, hs2, h12, h18, h28, hA1, hA2, hP0, hP, hmax⟩ := hconv
  obtain ⟨hi, hr1, hr2⟩ := XClk_Wiz_UpdateO_regs k InstancePtr hw ClockId hO
  have hb : InstancePtr.OVal % 2 ≤ 1 := by omega
  have he : (if InstancePtr.OVal % 4 ≤ 1 then 0 else 1) ≤ 1 := by split_ifs <;> omega
  obtain ⟨hb1, hb2⟩ := XClk_Wiz_reg3_bits _ _ _ _ _ hs1 hs2 h12 h18 h28 hA1 hA2 he hb
  have hpre := XClk_Wiz_reg3_prediv k.XCLK_WIZ_REG3_PREDIV2 k.XCLK_WIZ_REG3_USED
    k.XCLK_WIZ_REG3_MX (u32 ((if InstancePtr.OVal % 4 ≤ 1 then 0 else 1) <<< 8))
    (u32 ((InstancePtr.OVal % 2) <<< k.XCLK_WIZ_CLKOUT0_P5EN_SHIFT))
    (u32 ((InstancePtr.OVal % 2) <<< k.XCLK_WIZ_CLKOUT0_P5FEDGE_SHIFT)) hP0 hP
  have hH256 : InstancePtr.OVal / 4 < 256 := by omega
  obtain ⟨hlo, hhi⟩ := XClk_Wiz_highTime_readback _ hH256
  have hbit : (decide (InstancePtr.OVal % 2 = 1)).toNat = InstancePtr.OVal % 2 := by
    rcases Nat.mod_two_eq_zero_or_one InstancePtr.OVal with h | h <;> simp [h]
  unfold XClk_Wiz_GetRate_DivO
  simp only []
  rw [hi, hr1, hr2, hm1, hm2, hL, hH, hS, XClk_Wiz_boolOf_land_bit, XClk_Wiz_boolOf_land_bit,
    hb1, hb2, hpre, hlo, hhi, hbit]
  unfold u32
  omega

/-- C14 (behaviour of the code): on Versal, under the conventions on masks and shifts,
`XClk_Wiz_GetRate` does not read back the divider `OVal` that `XClk_Wiz_UpdateO`
wrote.  It takes the edge from the P5FEDGE bit, which holds `OVal % 2`, where
`XClk_Wiz_UpdateO` wrote the divider edge to bit 8, so it reconstructs
`4 * (OVal / 4) + 3 * (OVal % 2)` (replaced by 1 when zero) and reports the VCO
frequency divided by that value.  The value is `OVal` only when `OVal % 4` is 0
or 3. -/
theorem XClk_Wiz_GetRate_edge_from_p5fedge (k : XClk_Wiz_Consts) (r : XClk_Wiz_RateConsts)
    (env : XClk_Wiz_Env) (InstancePtr : XClk_Wiz) (hw : XClk_Wiz_Hw) (ClockId : Nat)
    (hconv : XClk_Wiz_maskConventions k r) (hver : env.isVersal = true)
    (hclk : ClockId ≤ InstancePtr.Config.NumClocks)
    (hO1 : 1 ≤ InstancePtr.OVal) (hO2 : InstancePtr.OVal ≤ k.versal.Omax) :
    XClk_Wiz_GetRate_DivO k r (XClk_Wiz_UpdateO k InstancePtr hw ClockId).1
        (XClk_Wiz_UpdateO k InstancePtr hw ClockId).2 ClockId
      = 4 * (InstancePtr.OVal / 4) + 3 * (InstancePtr.OVal % 2) ∧
    XClk_Wiz_GetRate k r env (XClk_Wiz_UpdateO k InstancePtr hw ClockId).1
        (XClk_Wiz_UpdateO k InstancePtr hw ClockId).2 ClockId
      = some (XST_SUCCESS,
          some (XClk_Wiz_GetVco k env InstancePtr (XClk_Wiz_UpdateO k InstancePtr hw ClockId).2 /
            (if 4 * (InstancePtr.OVal / 4) + 3 * (InstancePtr.OVal % 2) = 0 then 1
             else 4 * (InstancePtr.OVal / 4) + 3 * (InstancePtr.OVal % 2)))) ∧
    ((if 4 * (InstancePtr.OVal / 4) + 3 * (InstancePtr.OVal % 2) = 0 then 1
      else 4 * (InstancePtr.OVal / 4) + 3 * (InstancePtr.OVal % 2)) = InstancePtr.OVal ↔
      InstancePtr.OVal % 4 = 0 ∨ InstancePtr.OVal % 4 = 3) := by
  have hD := XClk_Wiz_GetRate_DivO_UpdateO k r InstancePtr hw ClockId hconv hO2
  have hi := (XClk_Wiz_UpdateO_regs k InstancePtr hw ClockId hO2).1
  refine ⟨hD, ?_, ?_⟩
  · unfold XClk_Wiz_GetRate
    simp only []
    rw [hD, hi, if_neg (Nat.not_lt.mpr hclk), if_neg (by simp [hver])]
  · split_ifs <;> omega

/-- C14, concrete instance on the sample constants (P5EN bit 13, P5FEDGE bit 15, edge
bit 8): `XClk_Wiz_SetLeafRateHz` asked for 20 MHz from a VCO of 100 MHz programs
the divider 5; `XClk_Wiz_GetRate` then reconstructs 7 and reports 14285714 Hz. -/
theorem XClk_Wiz_GetRate_edge_from_p5fedge_witness :
    XClk_Wiz_maskConventions XClk_Wiz_sampleConsts XClk_Wiz_sampleRateConsts ∧
    (XClk_Wiz_SetLeafRateHz XClk_Wiz_sampleConsts XClk_Wiz_sampleEnvVersal XClk_Wiz_sampleInst
        (XClk_Wiz_sampleHw 0) 0 20000000).map (fun x => (x.1, x.2.1, x.2.2.writes))
      = some (XST_SUCCESS, XClk_Wiz_sampleInst5,
          (XClk_Wiz_UpdateO XClk_Wiz_sampleConsts XClk_Wiz_sampleInst5
            (XClk_Wiz_sampleHw 0) 0).2.writes) ∧
    XClk_Wiz_GetVco XClk_Wiz_sampleConsts XClk_Wiz_sampleEnvVersal XClk_Wiz_sampleInst5
      (XClk_Wiz_UpdateO XClk_Wiz_sampleConsts XClk_Wiz_sampleInst5 (XClk_Wiz_sampleHw 0) 0).2
      = 100000000 ∧
    XClk_Wiz_GetRate_DivO XClk_Wiz_sampleConsts XClk_Wiz_sampleRateConsts
      (XClk_Wiz_UpdateO XClk_Wiz_sampleConsts XClk_Wiz_sampleInst5 (XClk_Wiz_sampleHw 0) 0).1
      (XClk_Wiz_UpdateO XClk_Wiz_sampleConsts XClk_Wiz_sampleInst5 (XClk_Wiz_sampleHw 0) 0).2 0
      = 7 ∧
    XClk_Wiz_GetRate XClk_Wiz_sampleConsts XClk_Wiz_sampleRateConsts XClk_Wiz_sampleEnvVersal
      (XClk_Wiz_UpdateO XClk_Wiz_sampleConsts XClk_Wiz_sampleInst5 (XClk_Wiz_sampleHw 0) 0).1
      (XClk_Wiz_UpdateO XClk_Wiz_sampleConsts XClk_Wiz_sampleInst5 (XClk_Wiz_sampleHw 0) 0).2 0
      = some (XST_SUCCESS, some 14285714) := by
  have hconv : XClk_Wiz_maskConventions XClk_Wiz_sampleConsts XClk_Wiz_sampleRateConsts := by
    unfold XClk_Wiz_maskConventions
    decide
  have hvco : XClk_Wiz_GetVco XClk_Wiz_sampleConsts XClk_Wiz_sampleEnvVersal
      XClk_Wiz_sampleInst5
      (XClk_Wiz_UpdateO XClk_Wiz_sampleConsts XClk_Wiz_sampleInst5 (XClk_Wiz_sampleHw 0) 0).2
      = 100000000 := by decide
  have h := XClk_Wiz_GetRate_edge_from_p5fedge XClk_Wiz_sampleConsts XClk_Wiz_sampleRateConsts
    XClk_Wiz_sampleEnvVersal XClk_Wiz_sampleInst5 (XClk_Wiz_sampleHw 0) 0 hconv rfl
    (by decide) (by decide) (by decide)
  refine ⟨hconv, by decide, hvco, h.1, ?_⟩
  rw [h.2.1, hvco]
  rfl
